import Mathlib

/-!
Verification of the pgraster WKB reader
(src/plugins/input/pgraster/pgraster_wkb_reader.cpp).

The reader walks a raw byte buffer through a bare pointer (`ptr_`) with no
bounds information: every primitive read dereferences the pointer and
advances it.  We therefore embed the input as a total byte memory
`mem : ℕ → ℕ` (each cell read modulo 256, reflecting the `uint8_t` cell
type): the decoder is a function of the whole memory, and the finite buffer
handed to it by the caller is just a prefix of that memory.  The cursor is
an explicit offset threaded through every operation, and the final cursor
(the value of `ptr_` after the call) is returned alongside the result.

Doubles are carried as their raw 64-bit patterns exactly as `read_float64`
assembles them; `f64ToRat` gives the exact rational value of a finite
pattern (IEEE-754 rounding of the extent arithmetic is not modelled — all
values appearing in the claims are small integers whose products and sums
are exactly representable, where double and rational arithmetic agree).
The truthiness test `if (skewX || skewY)` on doubles compares the value
against zero, which on bit patterns is `f64Truthy`.
-/

/-- `read_uint8`: return the byte at the cursor and advance by one. -/
def read_uint8 (mem : ℕ → ℕ) (pos : ℕ) : ℕ × ℕ :=
  (mem pos % 256, pos + 1)

/-- `read_uint16`: two bytes, least-significant first when little-endian. -/
def read_uint16 (mem : ℕ → ℕ) (littleEndian : Bool) (pos : ℕ) : ℕ × ℕ :=
  let b0 := mem pos % 256
  let b1 := mem (pos + 1) % 256
  (if littleEndian then b0 + b1 * 256 else b0 * 256 + b1, pos + 2)

/-- `read_uint32`: four bytes in the declared byte order. -/
def read_uint32 (mem : ℕ → ℕ) (littleEndian : Bool) (pos : ℕ) : ℕ × ℕ :=
  let b0 := mem pos % 256
  let b1 := mem (pos + 1) % 256
  let b2 := mem (pos + 2) % 256
  let b3 := mem (pos + 3) % 256
  (if littleEndian then b0 + b1 * 256 + b2 * 256 ^ 2 + b3 * 256 ^ 3
   else b3 + b2 * 256 + b1 * 256 ^ 2 + b0 * 256 ^ 3, pos + 4)

/-- `read_int32` forwards to `read_uint32`; the value is only logged, so we
keep the unsigned pattern. -/
def read_int32 (mem : ℕ → ℕ) (littleEndian : Bool) (pos : ℕ) : ℕ × ℕ :=
  read_uint32 mem littleEndian pos

/-- `read_float64`: eight bytes assembled into the union member `i`
(the raw bit pattern of the double). -/
def read_float64 (mem : ℕ → ℕ) (littleEndian : Bool) (pos : ℕ) : ℕ × ℕ :=
  let b0 := mem pos % 256
  let b1 := mem (pos + 1) % 256
  let b2 := mem (pos + 2) % 256
  let b3 := mem (pos + 3) % 256
  let b4 := mem (pos + 4) % 256
  let b5 := mem (pos + 5) % 256
  let b6 := mem (pos + 6) % 256
  let b7 := mem (pos + 7) % 256
  (if littleEndian then
     b0 + b1 * 256 + b2 * 256 ^ 2 + b3 * 256 ^ 3 + b4 * 256 ^ 4 + b5 * 256 ^ 5 +
       b6 * 256 ^ 6 + b7 * 256 ^ 7
   else
     b7 + b6 * 256 + b5 * 256 ^ 2 + b4 * 256 ^ 3 + b3 * 256 ^ 4 + b2 * 256 ^ 5 +
       b1 * 256 ^ 6 + b0 * 256 ^ 7, pos + 8)

/-- Exact rational value of a finite IEEE-754 double bit pattern.
Non-finite patterns (exponent field 2047) are given the junk value 0; no
claim evaluates extent arithmetic on a non-finite field. -/
def f64ToRat (bits : ℕ) : ℚ :=
  let sign := bits / 2 ^ 63
  let expo := bits / 2 ^ 52 % 2 ^ 11
  let frac := bits % 2 ^ 52
  let mag : ℚ :=
    if expo = 0 then ((frac : ℕ) : ℚ) / ((2 ^ 1074 : ℕ) : ℚ)
    else if expo = 2047 then 0
    else (((2 ^ 52 + frac) * 2 ^ expo : ℕ) : ℚ) / ((2 ^ 1075 : ℕ) : ℚ)
  if sign = 1 then -mag else mag

/-- Truthiness of a double bit pattern in a C condition: every pattern other
than +0.0 and -0.0 (including NaN and infinities) tests true. -/
def f64Truthy (bits : ℕ) : Bool :=
  bits % 2 ^ 63 != 0

/-- `BANDTYPE_PIXTYPE(x) = x & 0x0F`: low nibble of the band tag byte. -/
def BANDTYPE_PIXTYPE (x : ℕ) : ℕ := x % 16

/-- `BANDTYPE_IS_OFFDB(x) = x & (1 shl 7)`: bit 7 of the band tag byte. -/
def BANDTYPE_IS_OFFDB (x : ℕ) : Bool := x / 128 % 2 = 1

/-- `BANDTYPE_HAS_NODATA(x) = x & (1 shl 6)`: bit 6 of the band tag byte. -/
def BANDTYPE_HAS_NODATA (x : ℕ) : Bool := x / 64 % 2 = 1

/-- `BANDTYPE_IS_NODATA(x) = x & (1 shl 5)`: bit 5 of the band tag byte.
The reader never evaluates this flag. -/
def BANDTYPE_IS_NODATA (x : ℕ) : Bool := x / 32 % 2 = 1

/-- Modelled from the spec: mapnik::box2d (mapnik core, not under src/).
Its four-argument constructor normalizes the corners, so the stored bounds
run from the minimum of each coordinate pair to the maximum. -/
structure box2d where
  minx : ℚ
  miny : ℚ
  maxx : ℚ
  maxy : ℚ
deriving DecidableEq

/-- Modelled from the spec: the normalizing box2d constructor. -/
def box2dMk (x0 y0 x1 y1 : ℚ) : box2d :=
  ⟨min x0 x1, min y0 y1, max x0 x1, max y0 y1⟩

/-- Modelled from the spec: mapnik::raster (mapnik core, not under src/) —
extent, dimensions, the 4-byte-per-pixel image buffer (`image_data_32`,
held here as its byte sequence in memory order), and the premultiplied
alpha flag set by the reader.  `image.set(0xffffffff)` makes every byte of
the buffer 0xff. -/
structure raster where
  ext : box2d
  width : ℕ
  height : ℕ
  data : List ℕ
  premultiplied_alpha : Bool
deriving DecidableEq

/-- Inner pixel loop of `read_grayscale` (`for (x=0; x<width_; ++x)`),
with `fuel` iterations left and `x` the current column: read one byte and
write it to channels 0,1,2 of pixel (y,x). -/
def grayCols (mem : ℕ → ℕ) (width y : ℕ) : ℕ → ℕ → List ℕ → ℕ → List ℕ × ℕ
  | 0, _, img, pos => (img, pos)
  | fuel + 1, x, img, pos =>
    let val := (read_uint8 mem pos).1
    let off := y * width * 4 + x * 4
    grayCols mem width y fuel (x + 1)
      (((img.set (off + 0) val).set (off + 1) val).set (off + 2) val) (pos + 1)

/-- Outer row loop of `read_grayscale` (`for (y=0; y<height_; ++y)`). -/
def grayRows (mem : ℕ → ℕ) (width : ℕ) : ℕ → ℕ → List ℕ → ℕ → List ℕ × ℕ
  | 0, _, img, pos => (img, pos)
  | fuel + 1, y, img, pos =>
    let r := grayCols mem width y width 0 img pos
    grayRows mem width fuel (y + 1) r.1 r.2

/-- `pgraster_wkb_reader::read_grayscale`: returns the image byte buffer and
the final cursor.  The buffer starts all-0xff (`image.set(0xffffffff)`); an
off-database band or an unsupported pixel type returns it unchanged right
after the tag byte; otherwise the nodata byte is read (and only logged) and
the pixel loop fills channels 0..2. -/
def read_grayscale (mem : ℕ → ℕ) (width height : ℕ) (pos : ℕ) : List ℕ × ℕ :=
  let img := List.replicate (width * height * 4) 255
  let tp := read_uint8 mem pos
  let type := tp.1
  let pixtype := BANDTYPE_PIXTYPE type
  if BANDTYPE_IS_OFFDB type then (img, tp.2)
  else if pixtype > 4 ∨ pixtype < 3 then (img, tp.2)
  else
    let np := read_uint8 mem tp.2
    grayRows mem width height 0 img np.2

/-- Inner pixel loop of `read_rgb`: write the byte to channel `bn` of pixel
(y,x). -/
def rgbCols (mem : ℕ → ℕ) (width y bn : ℕ) : ℕ → ℕ → List ℕ → ℕ → List ℕ × ℕ
  | 0, _, img, pos => (img, pos)
  | fuel + 1, x, img, pos =>
    let val := (read_uint8 mem pos).1
    let off := y * width * 4 + x * 4
    rgbCols mem width y bn fuel (x + 1) (img.set (off + bn) val) (pos + 1)

/-- Outer row loop of `read_rgb` for one band. -/
def rgbRows (mem : ℕ → ℕ) (width bn : ℕ) : ℕ → ℕ → List ℕ → ℕ → List ℕ × ℕ
  | 0, _, img, pos => (img, pos)
  | fuel + 1, y, img, pos =>
    let r := rgbCols mem width y bn width 0 img pos
    rgbRows mem width bn fuel (y + 1) r.1 r.2

/-- One iteration of the band loop of `read_rgb` for band `bn`: read the tag
byte, skip the band (`continue`) when off-database or of unsupported pixel
type, otherwise read the nodata byte (`nodataval` is assigned from it only
for band 0 and otherwise only compared for a log message) and run the pixel
loop. -/
def rgbBandStep (mem : ℕ → ℕ) (width height bn : ℕ) (img : List ℕ) (pos : ℕ)
    (nodataval : Option ℕ) : List ℕ × ℕ × Option ℕ :=
  let tp := read_uint8 mem pos
  let type := tp.1
  let pixtype := BANDTYPE_PIXTYPE type
  if BANDTYPE_IS_OFFDB type then (img, tp.2, nodataval)
  else if pixtype > 4 ∨ pixtype < 3 then (img, tp.2, nodataval)
  else
    let np := read_uint8 mem tp.2
    let nodataval := if bn = 0 then some np.1 else nodataval
    let r := rgbRows mem width bn height 0 img np.2
    (r.1, r.2, nodataval)

/-- Band loop of `read_rgb` (`for (bn=0; bn<numBands_; ++bn)`). -/
def rgbBands (mem : ℕ → ℕ) (width height : ℕ) :
    ℕ → ℕ → List ℕ × ℕ × Option ℕ → List ℕ × ℕ × Option ℕ
  | 0, _, st => st
  | fuel + 1, bn, st =>
    let st1 := rgbBandStep mem width height bn st.1 st.2.1 st.2.2
    rgbBands mem width height fuel (bn + 1) st1

/-- `pgraster_wkb_reader::read_rgb`: all-0xff initial buffer, then the band
loop.  `nodataval` starts unassigned (an uninitialized local in the source,
modelled as `none`); it never reaches the image or the cursor. -/
def read_rgb (mem : ℕ → ℕ) (width height numBands pos : ℕ) : List ℕ × ℕ :=
  let img := List.replicate (width * height * 4) 255
  let r := rgbBands mem width height numBands 0 (img, pos, none)
  (r.1, r.2.1)

/-- `pgraster_wkb_reader::get_raster`: parse the header, reject nonzero
version, rotation (nonzero skew) and band counts other than 1 and 3, build
the extent, and dispatch to the band decoder.  Returns the optional raster
together with the final cursor (`ptr_` offset after the call). -/
def get_raster (mem : ℕ → ℕ) : Option raster × ℕ :=
  let endian := mem 0 % 256
  let le : Bool := endian != 0
  let vp := read_uint16 mem le 1
  if vp.1 ≠ 0 then (none, vp.2)
  else
    let nbp := read_uint16 mem le vp.2
    let numBands := nbp.1
    let sxp := read_float64 mem le nbp.2
    let syp := read_float64 mem le sxp.2
    let oxp := read_float64 mem le syp.2
    let oyp := read_float64 mem le oxp.2
    let kxp := read_float64 mem le oyp.2
    let kyp := read_float64 mem le kxp.2
    let sridp := read_int32 mem le kyp.2
    let wp := read_uint16 mem le sridp.2
    let hp := read_uint16 mem le wp.2
    let width := wp.1
    let height := hp.1
    if f64Truthy kxp.1 || f64Truthy kyp.1 then (none, hp.2)
    else
      let ext := box2dMk (f64ToRat oxp.1) (f64ToRat oyp.1)
        (f64ToRat oxp.1 + (width : ℚ) * f64ToRat sxp.1)
        (f64ToRat oyp.1 + (height : ℚ) * f64ToRat syp.1)
      if numBands = 1 then
        let r := read_grayscale mem width height hp.2
        (some ⟨ext, width, height, r.1, true⟩, r.2)
      else if numBands = 3 then
        let r := read_rgb mem width height numBands hp.2
        (some ⟨ext, width, height, r.1, true⟩, r.2)
      else (none, hp.2)

/-- The memory seen by the reader when the caller supplies buffer `l`:
bytes of `l` in place, and 0 for every address past the end (a concrete
choice for the out-of-bounds memory the code is free to read). -/
def memOf (l : List ℕ) : ℕ → ℕ := fun i => l.getD i 0

/-- Little- or big-endian serialization of a 16-bit value. -/
def putU16 (e : Bool) (v : ℕ) : List ℕ :=
  if e then [v % 256, v / 256 % 256] else [v / 256 % 256, v % 256]

/-- Little- or big-endian serialization of a 32-bit value. -/
def putU32 (e : Bool) (v : ℕ) : List ℕ :=
  if e then [v % 256, v / 256 % 256, v / 256 ^ 2 % 256, v / 256 ^ 3 % 256]
  else [v / 256 ^ 3 % 256, v / 256 ^ 2 % 256, v / 256 % 256, v % 256]

/-- Little- or big-endian serialization of a 64-bit value (a double is
serialized from its bit pattern). -/
def putU64 (e : Bool) (v : ℕ) : List ℕ :=
  if e then
    [v % 256, v / 256 % 256, v / 256 ^ 2 % 256, v / 256 ^ 3 % 256,
     v / 256 ^ 4 % 256, v / 256 ^ 5 % 256, v / 256 ^ 6 % 256, v / 256 ^ 7 % 256]
  else
    [v / 256 ^ 7 % 256, v / 256 ^ 6 % 256, v / 256 ^ 5 % 256, v / 256 ^ 4 % 256,
     v / 256 ^ 3 % 256, v / 256 ^ 2 % 256, v / 256 % 256, v % 256]

/-- The 61-byte wire header: endianness flag, version, band count, six
doubles (scaleX, scaleY, originX, originY, skewX, skewY as bit patterns),
spatial reference id, width, height. -/
def mkHeader (e : Bool) (ver nb sx sy ox oy kx ky srid w h : ℕ) : List ℕ :=
  [if e then 1 else 0] ++ putU16 e ver ++ putU16 e nb ++ putU64 e sx ++ putU64 e sy ++
    putU64 e ox ++ putU64 e oy ++ putU64 e kx ++ putU64 e ky ++ putU32 e srid ++
    putU16 e w ++ putU16 e h

/-- A serialized 1-band raster: header, band tag byte, nodata byte,
payload. -/
def mkWkb1 (e : Bool) (sx sy ox oy kx ky srid w h tag nodata : ℕ)
    (payload : List ℕ) : List ℕ :=
  mkHeader e 0 1 sx sy ox oy kx ky srid w h ++ [tag, nodata] ++ payload

/-- A serialized 3-band raster: header then three sequential bands, each a
tag byte, a nodata byte and a payload. -/
def mkWkb3 (e : Bool) (sx sy ox oy kx ky srid w h : ℕ)
    (t0 n0 : ℕ) (p0 : List ℕ) (t1 n1 : ℕ) (p1 : List ℕ)
    (t2 n2 : ℕ) (p2 : List ℕ) : List ℕ :=
  mkHeader e 0 3 sx sy ox oy kx ky srid w h ++
    [t0, n0] ++ p0 ++ [t1, n1] ++ p1 ++ [t2, n2] ++ p2

/-- Expected image of a decoded 1-band raster: each pixel's channels 0..2
hold the payload byte of that pixel in row-major order, alpha stays 255. -/
def grayImg (payload : List ℕ) (width height : ℕ) : List ℕ :=
  (List.range (width * height * 4)).map fun k =>
    if k % 4 = 3 then 255 else payload.getD (k / 4) 0

/-- Expected image of a fully decoded 3-band raster: channel c of each
pixel holds band c's payload byte for that pixel, alpha stays 255. -/
def rgbImg (p0 p1 p2 : List ℕ) (width height : ℕ) : List ℕ :=
  (List.range (width * height * 4)).map fun k =>
    if k % 4 = 0 then p0.getD (k / 4) 0
    else if k % 4 = 1 then p1.getD (k / 4) 0
    else if k % 4 = 2 then p2.getD (k / 4) 0
    else 255

/-- 1.0 as IEEE-754 double bits (0x3FF0000000000000). -/
def f64one : ℕ := 4607182418800017408

/-- 2.0 as IEEE-754 double bits (0x4000000000000000). -/
def f64two : ℕ := 4611686018427387904

/-- -2.0 as IEEE-754 double bits (0xC000000000000000). -/
def f64negtwo : ℕ := 13835058055282163712

/-- 100.0 as IEEE-754 double bits (0x4059000000000000). -/
def f64hundred : ℕ := 4636737291354636288

/-- A valid big-endian 1-band header (supported band tag 4, nodata byte,
width = height = 1) truncated before the single payload byte: 63 bytes. -/
def c1buf : List ℕ := mkHeader false 0 1 0 0 0 0 0 0 0 1 1 ++ [4, 0]

/-- The spec §8 scenario: big-endian, version 0, one band, unit scale,
zero origin and skew, srid 0, 2×1 pixels, tag 4, nodata 0, pixels 10, 20. -/
def scenario8 : List ℕ := mkWkb1 false f64one f64one 0 0 0 0 0 2 1 4 0 [10, 20]

/-- Scale (2, -2), origin (0, 100), 10×5, one supported band. -/
def c2input : List ℕ :=
  mkWkb1 false f64two f64negtwo 0 f64hundred 0 0 0 10 5 4 0 (List.replicate 50 0)

/-- Band 0 is off-database (tag 0x80), so the reader leaves the stream on
band 0's nodata byte and consumes band 1's tag byte as a pixel value.
The two inputs differ only in band 1's pixel-type code: 3 versus 4. -/
def c9inputA : List ℕ := mkWkb3 false 0 0 0 0 0 0 0 1 1 128 4 [0] 3 4 [0] 7 9 [8]

/-- The companion of `c9inputA` with band 1's pixel-type code set to 4. -/
def c9inputB : List ℕ := mkWkb3 false 0 0 0 0 0 0 0 1 1 128 4 [0] 4 4 [0] 7 9 [8]

/-- Band 0 is off-database; the two inputs differ only in bit 6
(has-nodata) of band 1's tag byte: 0x04 versus 0x44. -/
def c10inputA : List ℕ := mkWkb3 false 0 0 0 0 0 0 0 1 1 128 4 [0] 4 4 [1] 7 9 [9]

/-- The companion of `c10inputA` with bit 6 of band 1's tag byte set. -/
def c10inputB : List ℕ := mkWkb3 false 0 0 0 0 0 0 0 1 1 128 4 [0] 68 4 [1] 7 9 [9]
/-! ## Basic list-buffer lemmas -/

theorem getD_set_self (l : List ℕ) (n a : ℕ) (h : n < l.length) :
    (l.set n a).getD n 0 = a := by
  simp [List.getD_eq_getElem?_getD, List.getElem?_set_self, h]

theorem getD_set_ne (l : List ℕ) (n a m : ℕ) (h : n ≠ m) :
    (l.set n a).getD m 0 = l.getD m 0 := by
  simp [List.getD_eq_getElem?_getD, List.getElem?_set_ne h]

theorem getD_replicate (n v i : ℕ) (h : i < n) :
    (List.replicate n v).getD i 0 = v := by
  simp [List.getD_eq_getElem?_getD, List.getElem?_replicate, h]

/-! ## Cursor-advance lemmas for the primitive reads -/

theorem read_uint8_snd (mem : ℕ → ℕ) (pos : ℕ) : (read_uint8 mem pos).2 = pos + 1 := rfl

theorem read_uint16_snd (mem : ℕ → ℕ) (le : Bool) (pos : ℕ) :
    (read_uint16 mem le pos).2 = pos + 2 := rfl

theorem read_uint32_snd (mem : ℕ → ℕ) (le : Bool) (pos : ℕ) :
    (read_uint32 mem le pos).2 = pos + 4 := rfl

theorem read_int32_snd (mem : ℕ → ℕ) (le : Bool) (pos : ℕ) :
    (read_int32 mem le pos).2 = pos + 4 := rfl

theorem read_float64_snd (mem : ℕ → ℕ) (le : Bool) (pos : ℕ) :
    (read_float64 mem le pos).2 = pos + 8 := rfl

/-! ## Grayscale pixel-loop characterization -/

theorem grayCols_snd (mem : ℕ → ℕ) (width y : ℕ) :
    ∀ (fuel x : ℕ) (img : List ℕ) (pos : ℕ),
      (grayCols mem width y fuel x img pos).2 = pos + fuel := by
  intro fuel
  induction fuel with
  | zero => intro x img pos; simp [grayCols]
  | succ f ih => intro x img pos; rw [grayCols, ih]; omega

theorem grayCols_length (mem : ℕ → ℕ) (width y : ℕ) :
    ∀ (fuel x : ℕ) (img : List ℕ) (pos : ℕ),
      (grayCols mem width y fuel x img pos).1.length = img.length := by
  intro fuel
  induction fuel with
  | zero => intro x img pos; simp [grayCols]
  | succ f ih => intro x img pos; rw [grayCols, ih]; simp

theorem grayCols_untouched (mem : ℕ → ℕ) (width y : ℕ) :
    ∀ (fuel x : ℕ) (img : List ℕ) (pos i : ℕ),
      (i % 4 = 3 ∨ i < y * width * 4 + x * 4 ∨ y * width * 4 + (x + fuel) * 4 ≤ i) →
      (grayCols mem width y fuel x img pos).1.getD i 0 = img.getD i 0 := by
  intro fuel
  induction fuel with
  | zero => intro x img pos i _; simp [grayCols]
  | succ f ih =>
    intro x img pos i hi
    rw [grayCols]
    rw [ih (x + 1) _ _ i (by omega)]
    have h0 : y * width * 4 + x * 4 + 0 ≠ i := by omega
    have h1 : y * width * 4 + x * 4 + 1 ≠ i := by omega
    have h2 : y * width * 4 + x * 4 + 2 ≠ i := by omega
    rw [getD_set_ne _ _ _ _ h2, getD_set_ne _ _ _ _ h1, getD_set_ne _ _ _ _ h0]

theorem grayCols_touched (mem : ℕ → ℕ) (width y : ℕ) :
    ∀ (fuel x : ℕ) (img : List ℕ) (pos j c : ℕ),
      j < fuel → c < 3 → y * width * 4 + (x + j) * 4 + c < img.length →
      (grayCols mem width y fuel x img pos).1.getD (y * width * 4 + (x + j) * 4 + c) 0 =
        mem (pos + j) % 256 := by
  intro fuel
  induction fuel with
  | zero => intro x img pos j c hj _ _; omega
  | succ f ih =>
    intro x img pos j c hj hc hlen
    rw [grayCols]
    rcases Nat.eq_zero_or_pos j with hj0 | hjpos
    · subst hj0
      rw [grayCols_untouched mem width y f (x + 1) _ _ _ (by omega)]
      have hlen' : y * width * 4 + (x + 0) * 4 + c <
          (((img.set (y * width * 4 + x * 4 + 0) ((read_uint8 mem pos).1)).set
            (y * width * 4 + x * 4 + 1) ((read_uint8 mem pos).1)).set
            (y * width * 4 + x * 4 + 2) ((read_uint8 mem pos).1)).length := by
        simpa using hlen
      interval_cases c
      · rw [getD_set_ne _ _ _ _ (by omega), getD_set_ne _ _ _ _ (by omega)]
        rw [show y * width * 4 + (x + 0) * 4 + 0 = y * width * 4 + x * 4 + 0 by omega]
        rw [getD_set_self _ _ _ (by simpa using hlen)]
        rfl
      · rw [getD_set_ne _ _ _ _ (by omega)]
        rw [show y * width * 4 + (x + 0) * 4 + 1 = y * width * 4 + x * 4 + 1 by omega]
        rw [getD_set_self _ _ _ (by simpa using hlen)]
        rfl
      · rw [show y * width * 4 + (x + 0) * 4 + 2 = y * width * 4 + x * 4 + 2 by omega]
        rw [getD_set_self _ _ _ (by simpa using hlen)]
        rfl
    · obtain ⟨j0, rfl⟩ : ∃ j0, j = j0 + 1 := ⟨j - 1, by omega⟩
      have := ih (x + 1) (((img.set (y * width * 4 + x * 4 + 0) ((read_uint8 mem pos).1)).set
          (y * width * 4 + x * 4 + 1) ((read_uint8 mem pos).1)).set
          (y * width * 4 + x * 4 + 2) ((read_uint8 mem pos).1)) (pos + 1) j0 c
          (by omega) hc (by simpa using (by omega : y * width * 4 + (x + 1 + j0) * 4 + c < img.length))
      rw [show y * width * 4 + (x + (j0 + 1)) * 4 + c = y * width * 4 + (x + 1 + j0) * 4 + c by omega]
      rw [show pos + (j0 + 1) = pos + 1 + j0 by omega]
      rw [this]

theorem grayRows_snd (mem : ℕ → ℕ) (width : ℕ) :
    ∀ (fuel y : ℕ) (img : List ℕ) (pos : ℕ),
      (grayRows mem width fuel y img pos).2 = pos + fuel * width := by
  intro fuel
  induction fuel with
  | zero => intro y img pos; simp [grayRows]
  | succ f ih =>
    intro y img pos
    rw [grayRows, ih, grayCols_snd]
    ring

theorem grayRows_length (mem : ℕ → ℕ) (width : ℕ) :
    ∀ (fuel y : ℕ) (img : List ℕ) (pos : ℕ),
      (grayRows mem width fuel y img pos).1.length = img.length := by
  intro fuel
  induction fuel with
  | zero => intro y img pos; simp [grayRows]
  | succ f ih => intro y img pos; rw [grayRows, ih, grayCols_length]

theorem grayRows_untouched (mem : ℕ → ℕ) (width : ℕ) :
    ∀ (fuel y : ℕ) (img : List ℕ) (pos i : ℕ),
      (i % 4 = 3 ∨ i < y * width * 4 ∨ (y + fuel) * width * 4 ≤ i) →
      (grayRows mem width fuel y img pos).1.getD i 0 = img.getD i 0 := by
  intro fuel
  induction fuel with
  | zero => intro y img pos i _; simp [grayRows]
  | succ f ih =>
    intro y img pos i hi
    have hmono : (y + 1) * width * 4 ≤ (y + (f + 1)) * width * 4 :=
      Nat.mul_le_mul_right 4 (Nat.mul_le_mul_right width (by omega))
    have hy1 : y * width * 4 ≤ (y + 1) * width * 4 :=
      Nat.mul_le_mul_right 4 (Nat.mul_le_mul_right width (by omega))
    have hstep : (y + 1 + f) * width * 4 = (y + (f + 1)) * width * 4 := by ring
    have hcols : y * width * 4 + (0 + width) * 4 = (y + 1) * width * 4 := by ring
    rw [grayRows]
    have hcond : i % 4 = 3 ∨ i < (y + 1) * width * 4 ∨ (y + 1 + f) * width * 4 ≤ i := by
      rcases hi with h | h | h
      · exact Or.inl h
      · exact Or.inr (Or.inl (by omega))
      · exact Or.inr (Or.inr (by omega))
    rw [ih (y + 1) _ _ i hcond]
    have hcond2 : i % 4 = 3 ∨ i < y * width * 4 + 0 * 4 ∨ y * width * 4 + (0 + width) * 4 ≤ i := by
      rcases hi with h | h | h
      · exact Or.inl h
      · exact Or.inr (Or.inl (by omega))
      · exact Or.inr (Or.inr (by omega))
    exact grayCols_untouched mem width y width 0 img pos i hcond2

theorem grayRows_touched (mem : ℕ → ℕ) (width : ℕ) :
    ∀ (fuel y : ℕ) (img : List ℕ) (pos r col c : ℕ),
      r < fuel → col < width → c < 3 →
      (y + r) * width * 4 + col * 4 + c < img.length →
      (grayRows mem width fuel y img pos).1.getD ((y + r) * width * 4 + col * 4 + c) 0 =
        mem (pos + r * width + col) % 256 := by
  intro fuel
  induction fuel with
  | zero => intro y img pos r col c hr _ _ _; omega
  | succ f ih =>
    intro y img pos r col c hr hcol hc hlen
    rw [grayRows]
    rcases Nat.eq_zero_or_pos r with hr0 | hrpos
    · subst hr0
      have hidx : (y + 0) * width * 4 + col * 4 + c = y * width * 4 + (0 + col) * 4 + c := by ring
      have hlt : y * width * 4 + (0 + col) * 4 + c < (y + 1) * width * 4 := by nlinarith
      rw [hidx]
      rw [grayRows_untouched mem width f (y + 1) _ _ _ (Or.inr (Or.inl hlt))]
      have key := grayCols_touched mem width y width 0 img pos col c hcol hc (by omega)
      rw [key]
      rw [show pos + 0 * width + col = pos + col by ring]
    · obtain ⟨r0, rfl⟩ : ∃ r0, r = r0 + 1 := ⟨r - 1, by omega⟩
      have hidx : (y + (r0 + 1)) * width * 4 + col * 4 + c =
          (y + 1 + r0) * width * 4 + col * 4 + c := by ring_nf
      rw [hidx]
      have := ih (y + 1) (grayCols mem width y width 0 img pos).1
        (grayCols mem width y width 0 img pos).2 r0 col c (by omega) hcol hc
        (by rw [grayCols_length]; omega)
      rw [this, grayCols_snd]
      rw [show pos + width + r0 * width + col = pos + (r0 + 1) * width + col by ring]

/-- A supported, in-database 1-band tag: the nodata byte is consumed and the
pixel loop fills channels 0..2 from the `width*height` bytes that follow. -/
theorem read_grayscale_supported (mem : ℕ → ℕ) (width height pos : ℕ)
    (hoff : ¬ BANDTYPE_IS_OFFDB (mem pos % 256))
    (hpix : ¬ (BANDTYPE_PIXTYPE (mem pos % 256) > 4 ∨ BANDTYPE_PIXTYPE (mem pos % 256) < 3)) :
    read_grayscale mem width height pos =
      ((List.range (width * height * 4)).map
        (fun k => if k % 4 = 3 then 255 else mem (pos + 2 + k / 4) % 256),
       pos + 2 + width * height) := by
  rw [read_grayscale]
  simp only [read_uint8, if_neg hoff, if_neg hpix]
  rw [Prod.ext_iff]
  refine ⟨?_, ?_⟩
  · apply List.ext_getElem
    · rw [grayRows_length]; simp
    · intro i h1 h2
      have hi : i < width * height * 4 := by
        have h1c := h1
        rwa [grayRows_length, List.length_replicate] at h1c
      have hgetD : ∀ (l : List ℕ) (n : ℕ) (hn : n < l.length), l[n] = l.getD n 0 := by
        intro l n hn
        simp [List.getD_eq_getElem?_getD, List.getElem?_eq_getElem hn]
      rw [hgetD _ _ h1, hgetD _ _ h2]
      have hrhs : ((List.range (width * height * 4)).map
          (fun k => if k % 4 = 3 then 255 else mem (pos + 2 + k / 4) % 256)).getD i 0 =
          (if i % 4 = 3 then 255 else mem (pos + 2 + i / 4) % 256) := by
        simp [List.getD_eq_getElem?_getD, List.getElem?_map, List.getElem?_range hi]
      rw [hrhs]
      by_cases hc : i % 4 = 3
      · rw [grayRows_untouched mem width height 0 _ _ i (Or.inl hc), if_pos hc,
            getD_replicate _ _ _ hi]
      · rw [if_neg hc]
        have hw : 0 < width := by
          rcases Nat.eq_zero_or_pos width with h | h
          · subst h; simp at hi
          · exact h
        have hdm4 : i / 4 * 4 + i % 4 = i := Nat.div_add_mod' i 4
        have hc4 : i % 4 < 4 := Nat.mod_lt _ (by omega)
        have hcol : i / 4 % width < width := Nat.mod_lt _ hw
        have hrlt : i / 4 / width < height := Nat.div_lt_of_lt_mul (by omega)
        have hdm : i / 4 / width * width + i / 4 % width = i / 4 := Nat.div_add_mod' (i / 4) width
        have hz : (0 + i / 4 / width) * width = i / 4 / width * width := by ring
        have hidx : (0 + i / 4 / width) * width * 4 + i / 4 % width * 4 + i % 4 = i := by
          omega
        have key := grayRows_touched mem width height 0
          (List.replicate (width * height * 4) 255) (pos + 1 + 1)
          (i / 4 / width) (i / 4 % width) (i % 4) hrlt hcol (by omega)
          (by rw [List.length_replicate]; omega)
        conv_lhs => rw [← hidx]
        rw [key]
        have hposeq : pos + 1 + 1 + i / 4 / width * width + i / 4 % width = pos + 2 + i / 4 := by
          omega
        rw [hposeq]
  · rw [grayRows_snd]
    ring

/-! ## RGB pixel-loop characterization -/

theorem rgbCols_snd (mem : ℕ → ℕ) (width y bn : ℕ) :
    ∀ (fuel x : ℕ) (img : List ℕ) (pos : ℕ),
      (rgbCols mem width y bn fuel x img pos).2 = pos + fuel := by
  intro fuel
  induction fuel with
  | zero => intro x img pos; simp [rgbCols]
  | succ f ih => intro x img pos; rw [rgbCols, ih]; omega

theorem rgbCols_length (mem : ℕ → ℕ) (width y bn : ℕ) :
    ∀ (fuel x : ℕ) (img : List ℕ) (pos : ℕ),
      (rgbCols mem width y bn fuel x img pos).1.length = img.length := by
  intro fuel
  induction fuel with
  | zero => intro x img pos; simp [rgbCols]
  | succ f ih => intro x img pos; rw [rgbCols, ih]; simp

theorem rgbCols_untouched (mem : ℕ → ℕ) (width y bn : ℕ) (hbn : bn < 4) :
    ∀ (fuel x : ℕ) (img : List ℕ) (pos i : ℕ),
      (i % 4 ≠ bn ∨ i < y * width * 4 + x * 4 ∨ y * width * 4 + (x + fuel) * 4 ≤ i) →
      (rgbCols mem width y bn fuel x img pos).1.getD i 0 = img.getD i 0 := by
  intro fuel
  induction fuel with
  | zero => intro x img pos i _; simp [rgbCols]
  | succ f ih =>
    intro x img pos i hi
    rw [rgbCols]
    rw [ih (x + 1) _ _ i (by omega)]
    exact getD_set_ne _ _ _ _ (by omega)

theorem rgbCols_touched (mem : ℕ → ℕ) (width y bn : ℕ) (hbn : bn < 4) :
    ∀ (fuel x : ℕ) (img : List ℕ) (pos j : ℕ),
      j < fuel → y * width * 4 + (x + j) * 4 + bn < img.length →
      (rgbCols mem width y bn fuel x img pos).1.getD (y * width * 4 + (x + j) * 4 + bn) 0 =
        mem (pos + j) % 256 := by
  intro fuel
  induction fuel with
  | zero => intro x img pos j hj _; omega
  | succ f ih =>
    intro x img pos j hj hlen
    rw [rgbCols]
    rcases Nat.eq_zero_or_pos j with hj0 | hjpos
    · subst hj0
      rw [rgbCols_untouched mem width y bn hbn f (x + 1) _ _ _ (by omega)]
      rw [show y * width * 4 + (x + 0) * 4 + bn = y * width * 4 + x * 4 + bn by omega]
      rw [getD_set_self _ _ _ (by simpa using hlen)]
      rfl
    · obtain ⟨j0, rfl⟩ : ∃ j0, j = j0 + 1 := ⟨j - 1, by omega⟩
      have := ih (x + 1) (img.set (y * width * 4 + x * 4 + bn) ((read_uint8 mem pos).1))
        (pos + 1) j0 (by omega)
        (by simpa using (by omega : y * width * 4 + (x + 1 + j0) * 4 + bn < img.length))
      rw [show y * width * 4 + (x + (j0 + 1)) * 4 + bn =
          y * width * 4 + (x + 1 + j0) * 4 + bn by omega]
      rw [show pos + (j0 + 1) = pos + 1 + j0 by omega]
      rw [this]

theorem rgbRows_snd (mem : ℕ → ℕ) (width bn : ℕ) :
    ∀ (fuel y : ℕ) (img : List ℕ) (pos : ℕ),
      (rgbRows mem width bn fuel y img pos).2 = pos + fuel * width := by
  intro fuel
  induction fuel with
  | zero => intro y img pos; simp [rgbRows]
  | succ f ih =>
    intro y img pos
    rw [rgbRows, ih, rgbCols_snd]
    ring

theorem rgbRows_length (mem : ℕ → ℕ) (width bn : ℕ) :
    ∀ (fuel y : ℕ) (img : List ℕ) (pos : ℕ),
      (rgbRows mem width bn fuel y img pos).1.length = img.length := by
  intro fuel
  induction fuel with
  | zero => intro y img pos; simp [rgbRows]
  | succ f ih => intro y img pos; rw [rgbRows, ih, rgbCols_length]

theorem rgbRows_untouched (mem : ℕ → ℕ) (width bn : ℕ) (hbn : bn < 4) :
    ∀ (fuel y : ℕ) (img : List ℕ) (pos i : ℕ),
      (i % 4 ≠ bn ∨ i < y * width * 4 ∨ (y + fuel) * width * 4 ≤ i) →
      (rgbRows mem width bn fuel y img pos).1.getD i 0 = img.getD i 0 := by
  intro fuel
  induction fuel with
  | zero => intro y img pos i _; simp [rgbRows]
  | succ f ih =>
    intro y img pos i hi
    have hmono : (y + 1) * width * 4 ≤ (y + (f + 1)) * width * 4 :=
      Nat.mul_le_mul_right 4 (Nat.mul_le_mul_right width (by omega))
    have hy1 : y * width * 4 ≤ (y + 1) * width * 4 :=
      Nat.mul_le_mul_right 4 (Nat.mul_le_mul_right width (by omega))
    have hstep : (y + 1 + f) * width * 4 = (y + (f + 1)) * width * 4 := by ring
    have hcols : y * width * 4 + (0 + width) * 4 = (y + 1) * width * 4 := by ring
    rw [rgbRows]
    have hcond : i % 4 ≠ bn ∨ i < (y + 1) * width * 4 ∨ (y + 1 + f) * width * 4 ≤ i := by
      rcases hi with h | h | h
      · exact Or.inl h
      · exact Or.inr (Or.inl (by omega))
      · exact Or.inr (Or.inr (by omega))
    rw [ih (y + 1) _ _ i hcond]
    have hcond2 : i % 4 ≠ bn ∨ i < y * width * 4 + 0 * 4 ∨ y * width * 4 + (0 + width) * 4 ≤ i := by
      rcases hi with h | h | h
      · exact Or.inl h
      · exact Or.inr (Or.inl (by omega))
      · exact Or.inr (Or.inr (by omega))
    exact rgbCols_untouched mem width y bn hbn width 0 img pos i hcond2

theorem rgbRows_touched (mem : ℕ → ℕ) (width bn : ℕ) (hbn : bn < 4) :
    ∀ (fuel y : ℕ) (img : List ℕ) (pos r col : ℕ),
      r < fuel → col < width →
      (y + r) * width * 4 + col * 4 + bn < img.length →
      (rgbRows mem width bn fuel y img pos).1.getD ((y + r) * width * 4 + col * 4 + bn) 0 =
        mem (pos + r * width + col) % 256 := by
  intro fuel
  induction fuel with
  | zero => intro y img pos r col hr _ _; omega
  | succ f ih =>
    intro y img pos r col hr hcol hlen
    rw [rgbRows]
    rcases Nat.eq_zero_or_pos r with hr0 | hrpos
    · subst hr0
      have hidx : (y + 0) * width * 4 + col * 4 + bn = y * width * 4 + (0 + col) * 4 + bn := by ring
      have hlt : y * width * 4 + (0 + col) * 4 + bn < (y + 1) * width * 4 := by nlinarith
      rw [hidx]
      rw [rgbRows_untouched mem width bn hbn f (y + 1) _ _ _ (Or.inr (Or.inl hlt))]
      rw [rgbCols_touched mem width y bn hbn width 0 img pos col hcol (by omega)]
      rw [show pos + 0 * width + col = pos + col by ring]
    · obtain ⟨r0, rfl⟩ : ∃ r0, r = r0 + 1 := ⟨r - 1, by omega⟩
      have hidx : (y + (r0 + 1)) * width * 4 + col * 4 + bn =
          (y + 1 + r0) * width * 4 + col * 4 + bn := by ring_nf
      rw [hidx]
      have := ih (y + 1) (rgbCols mem width y bn width 0 img pos).1
        (rgbCols mem width y bn width 0 img pos).2 r0 col (by omega) hcol
        (by rw [rgbCols_length]; omega)
      rw [this, rgbCols_snd]
      rw [show pos + width + r0 * width + col = pos + (r0 + 1) * width + col by ring]

theorem rgbBandStep_skipped (mem : ℕ → ℕ) (width height bn : ℕ) (img : List ℕ)
    (pos : ℕ) (nv : Option ℕ)
    (h : BANDTYPE_IS_OFFDB (mem pos % 256) ∨
      BANDTYPE_PIXTYPE (mem pos % 256) > 4 ∨ BANDTYPE_PIXTYPE (mem pos % 256) < 3) :
    rgbBandStep mem width height bn img pos nv = (img, pos + 1, nv) := by
  rw [rgbBandStep]
  simp only [read_uint8]
  rcases h with h | h
  · rw [if_pos h]
  · by_cases hoff : BANDTYPE_IS_OFFDB (mem pos % 256)
    · rw [if_pos hoff]
    · rw [if_neg hoff, if_pos h]

theorem rgbBandStep_fst_supported (mem : ℕ → ℕ) (width height bn : ℕ) (img : List ℕ)
    (pos : ℕ) (nv : Option ℕ)
    (hoff : ¬ BANDTYPE_IS_OFFDB (mem pos % 256))
    (hpix : ¬ (BANDTYPE_PIXTYPE (mem pos % 256) > 4 ∨ BANDTYPE_PIXTYPE (mem pos % 256) < 3)) :
    (rgbBandStep mem width height bn img pos nv).1 =
      (rgbRows mem width bn height 0 img (pos + 2)).1 := by
  rw [rgbBandStep]
  simp only [read_uint8, if_neg hoff, if_neg hpix]

theorem rgbBandStep_snd_supported (mem : ℕ → ℕ) (width height bn : ℕ) (img : List ℕ)
    (pos : ℕ) (nv : Option ℕ)
    (hoff : ¬ BANDTYPE_IS_OFFDB (mem pos % 256))
    (hpix : ¬ (BANDTYPE_PIXTYPE (mem pos % 256) > 4 ∨ BANDTYPE_PIXTYPE (mem pos % 256) < 3)) :
    (rgbBandStep mem width height bn img pos nv).2.1 = pos + 2 + width * height := by
  rw [rgbBandStep]
  simp only [read_uint8, if_neg hoff, if_neg hpix]
  rw [rgbRows_snd]
  ring

theorem rgbBandStep_length (mem : ℕ → ℕ) (width height bn : ℕ) (img : List ℕ)
    (pos : ℕ) (nv : Option ℕ) :
    (rgbBandStep mem width height bn img pos nv).1.length = img.length := by
  rw [rgbBandStep]
  simp only [read_uint8]
  by_cases hoff : BANDTYPE_IS_OFFDB (mem pos % 256)
  · rw [if_pos hoff]
  · rw [if_neg hoff]
    by_cases hpix : BANDTYPE_PIXTYPE (mem pos % 256) > 4 ∨
        BANDTYPE_PIXTYPE (mem pos % 256) < 3
    · rw [if_pos hpix]
    · rw [if_neg hpix]
      exact rgbRows_length _ _ _ _ _ _ _

theorem rgbBandStep_untouched (mem : ℕ → ℕ) (width height bn : ℕ) (img : List ℕ)
    (pos : ℕ) (nv : Option ℕ) (hbn : bn < 4) (i : ℕ)
    (hcond : i % 4 ≠ bn ∨ width * height * 4 ≤ i)
    (hoff : ¬ BANDTYPE_IS_OFFDB (mem pos % 256))
    (hpix : ¬ (BANDTYPE_PIXTYPE (mem pos % 256) > 4 ∨ BANDTYPE_PIXTYPE (mem pos % 256) < 3)) :
    (rgbBandStep mem width height bn img pos nv).1.getD i 0 = img.getD i 0 := by
  rw [rgbBandStep_fst_supported mem width height bn img pos nv hoff hpix]
  apply rgbRows_untouched mem width bn hbn height 0 img (pos + 2) i
  have : (0 + height) * width * 4 = width * height * 4 := by ring
  rcases hcond with h | h
  · exact Or.inl h
  · exact Or.inr (Or.inr (by omega))

theorem rgbBandStep_touched (mem : ℕ → ℕ) (width height bn : ℕ) (img : List ℕ)
    (pos : ℕ) (nv : Option ℕ) (hbn : bn < 4) (q : ℕ)
    (hq : q < width * height) (hlen : q * 4 + bn < img.length)
    (hoff : ¬ BANDTYPE_IS_OFFDB (mem pos % 256))
    (hpix : ¬ (BANDTYPE_PIXTYPE (mem pos % 256) > 4 ∨ BANDTYPE_PIXTYPE (mem pos % 256) < 3)) :
    (rgbBandStep mem width height bn img pos nv).1.getD (q * 4 + bn) 0 =
      mem (pos + 2 + q) % 256 := by
  rw [rgbBandStep_fst_supported mem width height bn img pos nv hoff hpix]
  have hw : 0 < width := by
    rcases Nat.eq_zero_or_pos width with h | h
    · subst h; simp at hq
    · exact h
  have hcol : q % width < width := Nat.mod_lt _ hw
  have hrlt : q / width < height := Nat.div_lt_of_lt_mul (by omega)
  have hdm : q / width * width + q % width = q := Nat.div_add_mod' q width
  have hz : (0 + q / width) * width = q / width * width := by ring
  have hidx : (0 + q / width) * width * 4 + q % width * 4 + bn = q * 4 + bn := by omega
  have key := rgbRows_touched mem width bn hbn height 0 img (pos + 2)
    (q / width) (q % width) hrlt hcol (by omega)
  rw [← hidx, key]
  have hposeq : pos + 2 + q / width * width + q % width = pos + 2 + q := by omega
  rw [hposeq]

/-- Fully supported three-band decode: the result image holds, in channel c
of each pixel, the payload byte of band c at that pixel, with alpha left at
255; each band consumes its tag, nodata byte and `width*height` payload
bytes before the next band starts. -/
theorem read_rgb_supported (mem : ℕ → ℕ) (width height pos : ℕ)
    (h0off : ¬ BANDTYPE_IS_OFFDB (mem pos % 256))
    (h0pix : ¬ (BANDTYPE_PIXTYPE (mem pos % 256) > 4 ∨ BANDTYPE_PIXTYPE (mem pos % 256) < 3))
    (h1off : ¬ BANDTYPE_IS_OFFDB (mem (pos + (2 + width * height)) % 256))
    (h1pix : ¬ (BANDTYPE_PIXTYPE (mem (pos + (2 + width * height)) % 256) > 4 ∨
      BANDTYPE_PIXTYPE (mem (pos + (2 + width * height)) % 256) < 3))
    (h2off : ¬ BANDTYPE_IS_OFFDB (mem (pos + (2 + width * height) + (2 + width * height)) % 256))
    (h2pix : ¬ (BANDTYPE_PIXTYPE (mem (pos + (2 + width * height) + (2 + width * height)) % 256) > 4 ∨
      BANDTYPE_PIXTYPE (mem (pos + (2 + width * height) + (2 + width * height)) % 256) < 3)) :
    read_rgb mem width height 3 pos =
      ((List.range (width * height * 4)).map
        (fun k => if k % 4 = 3 then 255
          else mem (pos + k % 4 * (2 + width * height) + 2 + k / 4) % 256),
       pos + (2 + width * height) + (2 + width * height) + (2 + width * height)) := by
  have hbands : rgbBands mem width height 3 0
      (List.replicate (width * height * 4) 255, pos, (none : Option ℕ)) =
      rgbBandStep mem width height 2
        (rgbBandStep mem width height 1
          (rgbBandStep mem width height 0 (List.replicate (width * height * 4) 255) pos none).1
          (rgbBandStep mem width height 0 (List.replicate (width * height * 4) 255) pos none).2.1
          (rgbBandStep mem width height 0 (List.replicate (width * height * 4) 255) pos none).2.2).1
        (rgbBandStep mem width height 1
          (rgbBandStep mem width height 0 (List.replicate (width * height * 4) 255) pos none).1
          (rgbBandStep mem width height 0 (List.replicate (width * height * 4) 255) pos none).2.1
          (rgbBandStep mem width height 0 (List.replicate (width * height * 4) 255) pos none).2.2).2.1
        (rgbBandStep mem width height 1
          (rgbBandStep mem width height 0 (List.replicate (width * height * 4) 255) pos none).1
          (rgbBandStep mem width height 0 (List.replicate (width * height * 4) 255) pos none).2.1
          (rgbBandStep mem width height 0 (List.replicate (width * height * 4) 255) pos none).2.2).2.2 := by
    simp only [rgbBands]
  rcases hst1 : rgbBandStep mem width height 0
      (List.replicate (width * height * 4) 255) pos none with ⟨img1, pos1, nv1⟩
  have hpos1 : pos1 = pos + (2 + width * height) := by
    have := rgbBandStep_snd_supported mem width height 0
      (List.replicate (width * height * 4) 255) pos none h0off h0pix
    rw [hst1] at this
    simpa using (by omega : pos + 2 + width * height = pos + (2 + width * height)) ▸ this
  have hlen1 : img1.length = width * height * 4 := by
    have := rgbBandStep_length mem width height 0
      (List.replicate (width * height * 4) 255) pos none
    rw [hst1] at this
    simpa using this
  have h1off' : ¬ BANDTYPE_IS_OFFDB (mem pos1 % 256) := by rw [hpos1]; exact h1off
  have h1pix' : ¬ (BANDTYPE_PIXTYPE (mem pos1 % 256) > 4 ∨
      BANDTYPE_PIXTYPE (mem pos1 % 256) < 3) := by rw [hpos1]; exact h1pix
  rcases hst2 : rgbBandStep mem width height 1 img1 pos1 nv1 with ⟨img2, pos2, nv2⟩
  have hpos2 : pos2 = pos + (2 + width * height) + (2 + width * height) := by
    have := rgbBandStep_snd_supported mem width height 1 img1 pos1 nv1 h1off' h1pix'
    rw [hst2] at this
    simp only at this
    omega
  have hlen2 : img2.length = width * height * 4 := by
    have := rgbBandStep_length mem width height 1 img1 pos1 nv1
    rw [hst2] at this
    simp only at this
    omega
  have h2off' : ¬ BANDTYPE_IS_OFFDB (mem pos2 % 256) := by rw [hpos2]; exact h2off
  have h2pix' : ¬ (BANDTYPE_PIXTYPE (mem pos2 % 256) > 4 ∨
      BANDTYPE_PIXTYPE (mem pos2 % 256) < 3) := by rw [hpos2]; exact h2pix
  rcases hst3 : rgbBandStep mem width height 2 img2 pos2 nv2 with ⟨img3, pos3, nv3⟩
  have hpos3 : pos3 = pos + (2 + width * height) + (2 + width * height) + (2 + width * height) := by
    have := rgbBandStep_snd_supported mem width height 2 img2 pos2 nv2 h2off' h2pix'
    rw [hst3] at this
    simp only at this
    omega
  have hlen3 : img3.length = width * height * 4 := by
    have := rgbBandStep_length mem width height 2 img2 pos2 nv2
    rw [hst3] at this
    simp only at this
    omega
  rw [read_rgb, hbands, hst1]
  simp only
  rw [hst2]
  simp only
  rw [hst3]
  simp only
  rw [Prod.ext_iff]
  refine ⟨?_, by simpa using hpos3⟩
  simp only
  apply List.ext_getElem
  · rw [hlen3]; simp
  · intro i hI1 hI2
    have hi : i < width * height * 4 := by omega
    have hgetD : ∀ (l : List ℕ) (n : ℕ) (hn : n < l.length), l[n] = l.getD n 0 := by
      intro l n hn
      simp [List.getD_eq_getElem?_getD, List.getElem?_eq_getElem hn]
    rw [hgetD _ _ hI1, hgetD _ _ hI2]
    have hrhs : ((List.range (width * height * 4)).map
        (fun k => if k % 4 = 3 then 255
          else mem (pos + k % 4 * (2 + width * height) + 2 + k / 4) % 256)).getD i 0 =
        (if i % 4 = 3 then 255
          else mem (pos + i % 4 * (2 + width * height) + 2 + i / 4) % 256) := by
      simp [List.getD_eq_getElem?_getD, List.getElem?_map, List.getElem?_range hi]
    rw [hrhs]
    have hq4 : i / 4 < width * height := by omega
    -- getD through step 3
    by_cases hc0 : i % 4 = 0
    · -- touched in step 1, untouched in steps 2 and 3
      have t1 := rgbBandStep_touched mem width height 0
        (List.replicate (width * height * 4) 255) pos none (by omega) (i / 4) hq4
        (by simp only [List.length_replicate]; omega) h0off h0pix
      rw [hst1] at t1
      simp only at t1
      have u2 := rgbBandStep_untouched mem width height 1 img1 pos1 nv1 (by omega)
        (i / 4 * 4 + 0) (Or.inl (by omega)) h1off' h1pix'
      rw [hst2] at u2
      simp only at u2
      have u3 := rgbBandStep_untouched mem width height 2 img2 pos2 nv2 (by omega)
        (i / 4 * 4 + 0) (Or.inl (by omega)) h2off' h2pix'
      rw [hst3] at u3
      simp only at u3
      rw [show i = i / 4 * 4 + 0 by omega]
      rw [u3, u2, t1, if_neg (by omega)]
      have h4 : (i / 4 * 4 + 0) % 4 = 0 := by omega
      have h5 : (i / 4 * 4 + 0) / 4 = i / 4 := by omega
      rw [h4, h5]
      rw [show pos + 0 * (2 + width * height) + 2 + i / 4 = pos + 2 + i / 4 by omega]
    · by_cases hc1 : i % 4 = 1
      · have u1 := rgbBandStep_untouched mem width height 0
          (List.replicate (width * height * 4) 255) pos none (by omega)
          (i / 4 * 4 + 1) (Or.inl (by omega)) h0off h0pix
        rw [hst1] at u1
        simp only at u1
        have t2 := rgbBandStep_touched mem width height 1 img1 pos1 nv1 (by omega)
          (i / 4) hq4 (by omega) h1off' h1pix'
        rw [hst2] at t2
        simp only at t2
        have u3 := rgbBandStep_untouched mem width height 2 img2 pos2 nv2 (by omega)
          (i / 4 * 4 + 1) (Or.inl (by omega)) h2off' h2pix'
        rw [hst3] at u3
        simp only at u3
        rw [show i = i / 4 * 4 + 1 by omega]
        rw [u3, t2, if_neg (by omega)]
        have h4 : (i / 4 * 4 + 1) % 4 = 1 := by omega
        have h5 : (i / 4 * 4 + 1) / 4 = i / 4 := by omega
        rw [h4, h5]
        rw [show pos + 1 * (2 + width * height) + 2 + i / 4 = pos1 + 2 + i / 4 by omega]
      · by_cases hc2 : i % 4 = 2
        · have t3 := rgbBandStep_touched mem width height 2 img2 pos2 nv2 (by omega)
            (i / 4) hq4 (by omega) h2off' h2pix'
          rw [hst3] at t3
          simp only at t3
          rw [show i = i / 4 * 4 + 2 by omega]
          rw [t3, if_neg (by omega)]
          have h4 : (i / 4 * 4 + 2) % 4 = 2 := by omega
          have h5 : (i / 4 * 4 + 2) / 4 = i / 4 := by omega
          rw [h4, h5]
          rw [show pos + 2 * (2 + width * height) + 2 + i / 4 = pos2 + 2 + i / 4 by omega]
        · have hc3 : i % 4 = 3 := by omega
          have u1 := rgbBandStep_untouched mem width height 0
            (List.replicate (width * height * 4) 255) pos none (by omega)
            i (Or.inl (by omega)) h0off h0pix
          rw [hst1] at u1
          simp only at u1
          have u2 := rgbBandStep_untouched mem width height 1 img1 pos1 nv1 (by omega)
            i (Or.inl (by omega)) h1off' h1pix'
          rw [hst2] at u2
          simp only at u2
          have u3 := rgbBandStep_untouched mem width height 2 img2 pos2 nv2 (by omega)
            i (Or.inl (by omega)) h2off' h2pix'
          rw [hst3] at u3
          simp only at u3
          rw [u3, u2, u1, if_pos hc3, getD_replicate _ _ _ hi]

/-! ## Reading back serialized fields -/

theorem mod256_mod256 (v : ℕ) : v % 256 % 256 = v % 256 := Nat.mod_mod_of_dvd v dvd_rfl

theorem recompose16 (v : ℕ) (hv : v < 2 ^ 16) : v % 256 + v / 256 % 256 * 256 = v := by
  omega

theorem recompose32 (v : ℕ) (hv : v < 2 ^ 32) :
    v % 256 + v / 256 % 256 * 256 + v / 256 ^ 2 % 256 * 256 ^ 2 +
      v / 256 ^ 3 % 256 * 256 ^ 3 = v := by
  omega

theorem recompose64 (v : ℕ) (hv : v < 2 ^ 64) :
    v % 256 + v / 256 % 256 * 256 + v / 256 ^ 2 % 256 * 256 ^ 2 +
      v / 256 ^ 3 % 256 * 256 ^ 3 + v / 256 ^ 4 % 256 * 256 ^ 4 +
      v / 256 ^ 5 % 256 * 256 ^ 5 + v / 256 ^ 6 % 256 * 256 ^ 6 +
      v / 256 ^ 7 % 256 * 256 ^ 7 = v := by
  omega


theorem read_uint16_be (mem : ℕ → ℕ) (pos v : ℕ) (hv : v < 2 ^ 16)
    (h0 : mem pos = v / 256 % 256) (h1 : mem (pos + 1) = v % 256) :
    read_uint16 mem false pos = (v, pos + 2) := by
  simp only [read_uint16, h0, h1, Bool.false_eq_true, if_false, Prod.mk.injEq, mod256_mod256]
  exact ⟨by rw [Nat.add_comm]; exact recompose16 v hv, by trivial⟩

theorem read_uint16_le (mem : ℕ → ℕ) (pos v : ℕ) (hv : v < 2 ^ 16)
    (h0 : mem pos = v % 256) (h1 : mem (pos + 1) = v / 256 % 256) :
    read_uint16 mem true pos = (v, pos + 2) := by
  simp only [read_uint16, h0, h1, if_true, Prod.mk.injEq, mod256_mod256]
  exact ⟨recompose16 v hv, by trivial⟩

theorem read_int32_be (mem : ℕ → ℕ) (pos v : ℕ) (hv : v < 2 ^ 32)
    (h0 : mem pos = v / 256 ^ 3 % 256) (h1 : mem (pos + 1) = v / 256 ^ 2 % 256)
    (h2 : mem (pos + 2) = v / 256 % 256) (h3 : mem (pos + 3) = v % 256) :
    read_int32 mem false pos = (v, pos + 4) := by
  simp only [read_int32, read_uint32, h0, h1, h2, h3, Bool.false_eq_true, if_false,
    Prod.mk.injEq, mod256_mod256]
  exact ⟨recompose32 v hv, by trivial⟩

theorem read_int32_le (mem : ℕ → ℕ) (pos v : ℕ) (hv : v < 2 ^ 32)
    (h0 : mem pos = v % 256) (h1 : mem (pos + 1) = v / 256 % 256)
    (h2 : mem (pos + 2) = v / 256 ^ 2 % 256) (h3 : mem (pos + 3) = v / 256 ^ 3 % 256) :
    read_int32 mem true pos = (v, pos + 4) := by
  simp only [read_int32, read_uint32, h0, h1, h2, h3, if_true, Prod.mk.injEq, mod256_mod256]
  exact ⟨recompose32 v hv, by trivial⟩

theorem read_float64_be (mem : ℕ → ℕ) (pos v : ℕ) (hv : v < 2 ^ 64)
    (h0 : mem pos = v / 256 ^ 7 % 256) (h1 : mem (pos + 1) = v / 256 ^ 6 % 256)
    (h2 : mem (pos + 2) = v / 256 ^ 5 % 256) (h3 : mem (pos + 3) = v / 256 ^ 4 % 256)
    (h4 : mem (pos + 4) = v / 256 ^ 3 % 256) (h5 : mem (pos + 5) = v / 256 ^ 2 % 256)
    (h6 : mem (pos + 6) = v / 256 % 256) (h7 : mem (pos + 7) = v % 256) :
    read_float64 mem false pos = (v, pos + 8) := by
  simp only [read_float64, h0, h1, h2, h3, h4, h5, h6, h7, Bool.false_eq_true, if_false,
    Prod.mk.injEq, mod256_mod256]
  exact ⟨recompose64 v hv, by trivial⟩

theorem read_float64_le (mem : ℕ → ℕ) (pos v : ℕ) (hv : v < 2 ^ 64)
    (h0 : mem pos = v % 256) (h1 : mem (pos + 1) = v / 256 % 256)
    (h2 : mem (pos + 2) = v / 256 ^ 2 % 256) (h3 : mem (pos + 3) = v / 256 ^ 3 % 256)
    (h4 : mem (pos + 4) = v / 256 ^ 4 % 256) (h5 : mem (pos + 5) = v / 256 ^ 5 % 256)
    (h6 : mem (pos + 6) = v / 256 ^ 6 % 256) (h7 : mem (pos + 7) = v / 256 ^ 7 % 256) :
    read_float64 mem true pos = (v, pos + 8) := by
  simp only [read_float64, h0, h1, h2, h3, h4, h5, h6, h7, if_true, Prod.mk.injEq,
    mod256_mod256]
  exact ⟨recompose64 v hv, by trivial⟩

theorem f64Truthy_of_zero (v : ℕ) (h : v % 2 ^ 63 = 0) : f64Truthy v = false := by
  unfold f64Truthy
  simp only [bne_eq_false_iff_eq]
  omega


set_option maxHeartbeats 1000000 in
/-- Parsing any serialized header with version 0: the reader accepts the
version, decodes every field, rejects nothing (skew given as an exact-zero
pattern), computes the extent from the decoded doubles, and dispatches on
the band count with the cursor at offset 61. -/
theorem get_raster_mkHeader (e : Bool) (nb sx sy ox oy kx ky srid w h : ℕ)
    (rest : List ℕ) (hnb : nb < 2 ^ 16) (hsx : sx < 2 ^ 64) (hsy : sy < 2 ^ 64)
    (hox : ox < 2 ^ 64) (hoy : oy < 2 ^ 64) (hkx : kx < 2 ^ 64) (hky : ky < 2 ^ 64)
    (hsrid : srid < 2 ^ 32) (hw : w < 2 ^ 16) (hh : h < 2 ^ 16)
    (hkxz : kx % 2 ^ 63 = 0) (hkyz : ky % 2 ^ 63 = 0) :
    get_raster (memOf (mkHeader e 0 nb sx sy ox oy kx ky srid w h ++ rest)) =
      (if nb = 1 then
        (some ⟨box2dMk (f64ToRat ox) (f64ToRat oy)
            (f64ToRat ox + (w : ℚ) * f64ToRat sx) (f64ToRat oy + (h : ℚ) * f64ToRat sy),
          w, h,
          (read_grayscale (memOf (mkHeader e 0 nb sx sy ox oy kx ky srid w h ++ rest)) w h 61).1,
          true⟩,
         (read_grayscale (memOf (mkHeader e 0 nb sx sy ox oy kx ky srid w h ++ rest)) w h 61).2)
      else if nb = 3 then
        (some ⟨box2dMk (f64ToRat ox) (f64ToRat oy)
            (f64ToRat ox + (w : ℚ) * f64ToRat sx) (f64ToRat oy + (h : ℚ) * f64ToRat sy),
          w, h,
          (read_rgb (memOf (mkHeader e 0 nb sx sy ox oy kx ky srid w h ++ rest)) w h nb 61).1,
          true⟩,
         (read_rgb (memOf (mkHeader e 0 nb sx sy ox oy kx ky srid w h ++ rest)) w h nb 61).2)
      else (none, 61)) := by
  have hftx := f64Truthy_of_zero kx hkxz
  have hfty := f64Truthy_of_zero ky hkyz
  cases e with
  | false =>
    have hflat : mkHeader false 0 nb sx sy ox oy kx ky srid w h ++ rest =
      (0) ::
      (0 / 256 % 256) ::
      (0 % 256) ::
      (nb / 256 % 256) ::
      (nb % 256) ::
      (sx / 256 ^ 7 % 256) ::
      (sx / 256 ^ 6 % 256) ::
      (sx / 256 ^ 5 % 256) ::
      (sx / 256 ^ 4 % 256) ::
      (sx / 256 ^ 3 % 256) ::
      (sx / 256 ^ 2 % 256) ::
      (sx / 256 % 256) ::
      (sx % 256) ::
      (sy / 256 ^ 7 % 256) ::
      (sy / 256 ^ 6 % 256) ::
      (sy / 256 ^ 5 % 256) ::
      (sy / 256 ^ 4 % 256) ::
      (sy / 256 ^ 3 % 256) ::
      (sy / 256 ^ 2 % 256) ::
      (sy / 256 % 256) ::
      (sy % 256) ::
      (ox / 256 ^ 7 % 256) ::
      (ox / 256 ^ 6 % 256) ::
      (ox / 256 ^ 5 % 256) ::
      (ox / 256 ^ 4 % 256) ::
      (ox / 256 ^ 3 % 256) ::
      (ox / 256 ^ 2 % 256) ::
      (ox / 256 % 256) ::
      (ox % 256) ::
      (oy / 256 ^ 7 % 256) ::
      (oy / 256 ^ 6 % 256) ::
      (oy / 256 ^ 5 % 256) ::
      (oy / 256 ^ 4 % 256) ::
      (oy / 256 ^ 3 % 256) ::
      (oy / 256 ^ 2 % 256) ::
      (oy / 256 % 256) ::
      (oy % 256) ::
      (kx / 256 ^ 7 % 256) ::
      (kx / 256 ^ 6 % 256) ::
      (kx / 256 ^ 5 % 256) ::
      (kx / 256 ^ 4 % 256) ::
      (kx / 256 ^ 3 % 256) ::
      (kx / 256 ^ 2 % 256) ::
      (kx / 256 % 256) ::
      (kx % 256) ::
      (ky / 256 ^ 7 % 256) ::
      (ky / 256 ^ 6 % 256) ::
      (ky / 256 ^ 5 % 256) ::
      (ky / 256 ^ 4 % 256) ::
      (ky / 256 ^ 3 % 256) ::
      (ky / 256 ^ 2 % 256) ::
      (ky / 256 % 256) ::
      (ky % 256) ::
      (srid / 256 ^ 3 % 256) ::
      (srid / 256 ^ 2 % 256) ::
      (srid / 256 % 256) ::
      (srid % 256) ::
      (w / 256 % 256) ::
      (w % 256) ::
      (h / 256 % 256) ::
      (h % 256) ::
      rest := by
      simp [mkHeader, putU16, putU32, putU64]
    rw [hflat]
    have hle : (((memOf ((0) ::
      (0 / 256 % 256) ::
      (0 % 256) ::
      (nb / 256 % 256) ::
      (nb % 256) ::
      (sx / 256 ^ 7 % 256) ::
      (sx / 256 ^ 6 % 256) ::
      (sx / 256 ^ 5 % 256) ::
      (sx / 256 ^ 4 % 256) ::
      (sx / 256 ^ 3 % 256) ::
      (sx / 256 ^ 2 % 256) ::
      (sx / 256 % 256) ::
      (sx % 256) ::
      (sy / 256 ^ 7 % 256) ::
      (sy / 256 ^ 6 % 256) ::
      (sy / 256 ^ 5 % 256) ::
      (sy / 256 ^ 4 % 256) ::
      (sy / 256 ^ 3 % 256) ::
      (sy / 256 ^ 2 % 256) ::
      (sy / 256 % 256) ::
      (sy % 256) ::
      (ox / 256 ^ 7 % 256) ::
      (ox / 256 ^ 6 % 256) ::
      (ox / 256 ^ 5 % 256) ::
      (ox / 256 ^ 4 % 256) ::
      (ox / 256 ^ 3 % 256) ::
      (ox / 256 ^ 2 % 256) ::
      (ox / 256 % 256) ::
      (ox % 256) ::
      (oy / 256 ^ 7 % 256) ::
      (oy / 256 ^ 6 % 256) ::
      (oy / 256 ^ 5 % 256) ::
      (oy / 256 ^ 4 % 256) ::
      (oy / 256 ^ 3 % 256) ::
      (oy / 256 ^ 2 % 256) ::
      (oy / 256 % 256) ::
      (oy % 256) ::
      (kx / 256 ^ 7 % 256) ::
      (kx / 256 ^ 6 % 256) ::
      (kx / 256 ^ 5 % 256) ::
      (kx / 256 ^ 4 % 256) ::
      (kx / 256 ^ 3 % 256) ::
      (kx / 256 ^ 2 % 256) ::
      (kx / 256 % 256) ::
      (kx % 256) ::
      (ky / 256 ^ 7 % 256) ::
      (ky / 256 ^ 6 % 256) ::
      (ky / 256 ^ 5 % 256) ::
      (ky / 256 ^ 4 % 256) ::
      (ky / 256 ^ 3 % 256) ::
      (ky / 256 ^ 2 % 256) ::
      (ky / 256 % 256) ::
      (ky % 256) ::
      (srid / 256 ^ 3 % 256) ::
      (srid / 256 ^ 2 % 256) ::
      (srid / 256 % 256) ::
      (srid % 256) ::
      (w / 256 % 256) ::
      (w % 256) ::
      (h / 256 % 256) ::
      (h % 256) ::
      rest)) 0 % 256) != 0) = false := rfl
    have hrv := read_uint16_be (memOf ((0) ::
      (0 / 256 % 256) ::
      (0 % 256) ::
      (nb / 256 % 256) ::
      (nb % 256) ::
      (sx / 256 ^ 7 % 256) ::
      (sx / 256 ^ 6 % 256) ::
      (sx / 256 ^ 5 % 256) ::
      (sx / 256 ^ 4 % 256) ::
      (sx / 256 ^ 3 % 256) ::
      (sx / 256 ^ 2 % 256) ::
      (sx / 256 % 256) ::
      (sx % 256) ::
      (sy / 256 ^ 7 % 256) ::
      (sy / 256 ^ 6 % 256) ::
      (sy / 256 ^ 5 % 256) ::
      (sy / 256 ^ 4 % 256) ::
      (sy / 256 ^ 3 % 256) ::
      (sy / 256 ^ 2 % 256) ::
      (sy / 256 % 256) ::
      (sy % 256) ::
      (ox / 256 ^ 7 % 256) ::
      (ox / 256 ^ 6 % 256) ::
      (ox / 256 ^ 5 % 256) ::
      (ox / 256 ^ 4 % 256) ::
      (ox / 256 ^ 3 % 256) ::
      (ox / 256 ^ 2 % 256) ::
      (ox / 256 % 256) ::
      (ox % 256) ::
      (oy / 256 ^ 7 % 256) ::
      (oy / 256 ^ 6 % 256) ::
      (oy / 256 ^ 5 % 256) ::
      (oy / 256 ^ 4 % 256) ::
      (oy / 256 ^ 3 % 256) ::
      (oy / 256 ^ 2 % 256) ::
      (oy / 256 % 256) ::
      (oy % 256) ::
      (kx / 256 ^ 7 % 256) ::
      (kx / 256 ^ 6 % 256) ::
      (kx / 256 ^ 5 % 256) ::
      (kx / 256 ^ 4 % 256) ::
      (kx / 256 ^ 3 % 256) ::
      (kx / 256 ^ 2 % 256) ::
      (kx / 256 % 256) ::
      (kx % 256) ::
      (ky / 256 ^ 7 % 256) ::
      (ky / 256 ^ 6 % 256) ::
      (ky / 256 ^ 5 % 256) ::
      (ky / 256 ^ 4 % 256) ::
      (ky / 256 ^ 3 % 256) ::
      (ky / 256 ^ 2 % 256) ::
      (ky / 256 % 256) ::
      (ky % 256) ::
      (srid / 256 ^ 3 % 256) ::
      (srid / 256 ^ 2 % 256) ::
      (srid / 256 % 256) ::
      (srid % 256) ::
      (w / 256 % 256) ::
      (w % 256) ::
      (h / 256 % 256) ::
      (h % 256) ::
      rest))
      1 0 (by omega) rfl rfl
    have hrnb := read_uint16_be (memOf ((0) ::
      (0 / 256 % 256) ::
      (0 % 256) ::
      (nb / 256 % 256) ::
      (nb % 256) ::
      (sx / 256 ^ 7 % 256) ::
      (sx / 256 ^ 6 % 256) ::
      (sx / 256 ^ 5 % 256) ::
      (sx / 256 ^ 4 % 256) ::
      (sx / 256 ^ 3 % 256) ::
      (sx / 256 ^ 2 % 256) ::
      (sx / 256 % 256) ::
      (sx % 256) ::
      (sy / 256 ^ 7 % 256) ::
      (sy / 256 ^ 6 % 256) ::
      (sy / 256 ^ 5 % 256) ::
      (sy / 256 ^ 4 % 256) ::
      (sy / 256 ^ 3 % 256) ::
      (sy / 256 ^ 2 % 256) ::
      (sy / 256 % 256) ::
      (sy % 256) ::
      (ox / 256 ^ 7 % 256) ::
      (ox / 256 ^ 6 % 256) ::
      (ox / 256 ^ 5 % 256) ::
      (ox / 256 ^ 4 % 256) ::
      (ox / 256 ^ 3 % 256) ::
      (ox / 256 ^ 2 % 256) ::
      (ox / 256 % 256) ::
      (ox % 256) ::
      (oy / 256 ^ 7 % 256) ::
      (oy / 256 ^ 6 % 256) ::
      (oy / 256 ^ 5 % 256) ::
      (oy / 256 ^ 4 % 256) ::
      (oy / 256 ^ 3 % 256) ::
      (oy / 256 ^ 2 % 256) ::
      (oy / 256 % 256) ::
      (oy % 256) ::
      (kx / 256 ^ 7 % 256) ::
      (kx / 256 ^ 6 % 256) ::
      (kx / 256 ^ 5 % 256) ::
      (kx / 256 ^ 4 % 256) ::
      (kx / 256 ^ 3 % 256) ::
      (kx / 256 ^ 2 % 256) ::
      (kx / 256 % 256) ::
      (kx % 256) ::
      (ky / 256 ^ 7 % 256) ::
      (ky / 256 ^ 6 % 256) ::
      (ky / 256 ^ 5 % 256) ::
      (ky / 256 ^ 4 % 256) ::
      (ky / 256 ^ 3 % 256) ::
      (ky / 256 ^ 2 % 256) ::
      (ky / 256 % 256) ::
      (ky % 256) ::
      (srid / 256 ^ 3 % 256) ::
      (srid / 256 ^ 2 % 256) ::
      (srid / 256 % 256) ::
      (srid % 256) ::
      (w / 256 % 256) ::
      (w % 256) ::
      (h / 256 % 256) ::
      (h % 256) ::
      rest))
      3 nb hnb rfl rfl
    have hrsx := read_float64_be (memOf ((0) ::
      (0 / 256 % 256) ::
      (0 % 256) ::
      (nb / 256 % 256) ::
      (nb % 256) ::
      (sx / 256 ^ 7 % 256) ::
      (sx / 256 ^ 6 % 256) ::
      (sx / 256 ^ 5 % 256) ::
      (sx / 256 ^ 4 % 256) ::
      (sx / 256 ^ 3 % 256) ::
      (sx / 256 ^ 2 % 256) ::
      (sx / 256 % 256) ::
      (sx % 256) ::
      (sy / 256 ^ 7 % 256) ::
      (sy / 256 ^ 6 % 256) ::
      (sy / 256 ^ 5 % 256) ::
      (sy / 256 ^ 4 % 256) ::
      (sy / 256 ^ 3 % 256) ::
      (sy / 256 ^ 2 % 256) ::
      (sy / 256 % 256) ::
      (sy % 256) ::
      (ox / 256 ^ 7 % 256) ::
      (ox / 256 ^ 6 % 256) ::
      (ox / 256 ^ 5 % 256) ::
      (ox / 256 ^ 4 % 256) ::
      (ox / 256 ^ 3 % 256) ::
      (ox / 256 ^ 2 % 256) ::
      (ox / 256 % 256) ::
      (ox % 256) ::
      (oy / 256 ^ 7 % 256) ::
      (oy / 256 ^ 6 % 256) ::
      (oy / 256 ^ 5 % 256) ::
      (oy / 256 ^ 4 % 256) ::
      (oy / 256 ^ 3 % 256) ::
      (oy / 256 ^ 2 % 256) ::
      (oy / 256 % 256) ::
      (oy % 256) ::
      (kx / 256 ^ 7 % 256) ::
      (kx / 256 ^ 6 % 256) ::
      (kx / 256 ^ 5 % 256) ::
      (kx / 256 ^ 4 % 256) ::
      (kx / 256 ^ 3 % 256) ::
      (kx / 256 ^ 2 % 256) ::
      (kx / 256 % 256) ::
      (kx % 256) ::
      (ky / 256 ^ 7 % 256) ::
      (ky / 256 ^ 6 % 256) ::
      (ky / 256 ^ 5 % 256) ::
      (ky / 256 ^ 4 % 256) ::
      (ky / 256 ^ 3 % 256) ::
      (ky / 256 ^ 2 % 256) ::
      (ky / 256 % 256) ::
      (ky % 256) ::
      (srid / 256 ^ 3 % 256) ::
      (srid / 256 ^ 2 % 256) ::
      (srid / 256 % 256) ::
      (srid % 256) ::
      (w / 256 % 256) ::
      (w % 256) ::
      (h / 256 % 256) ::
      (h % 256) ::
      rest))
      5 sx hsx rfl rfl rfl rfl rfl rfl rfl rfl
    have hrsy := read_float64_be (memOf ((0) ::
      (0 / 256 % 256) ::
      (0 % 256) ::
      (nb / 256 % 256) ::
      (nb % 256) ::
      (sx / 256 ^ 7 % 256) ::
      (sx / 256 ^ 6 % 256) ::
      (sx / 256 ^ 5 % 256) ::
      (sx / 256 ^ 4 % 256) ::
      (sx / 256 ^ 3 % 256) ::
      (sx / 256 ^ 2 % 256) ::
      (sx / 256 % 256) ::
      (sx % 256) ::
      (sy / 256 ^ 7 % 256) ::
      (sy / 256 ^ 6 % 256) ::
      (sy / 256 ^ 5 % 256) ::
      (sy / 256 ^ 4 % 256) ::
      (sy / 256 ^ 3 % 256) ::
      (sy / 256 ^ 2 % 256) ::
      (sy / 256 % 256) ::
      (sy % 256) ::
      (ox / 256 ^ 7 % 256) ::
      (ox / 256 ^ 6 % 256) ::
      (ox / 256 ^ 5 % 256) ::
      (ox / 256 ^ 4 % 256) ::
      (ox / 256 ^ 3 % 256) ::
      (ox / 256 ^ 2 % 256) ::
      (ox / 256 % 256) ::
      (ox % 256) ::
      (oy / 256 ^ 7 % 256) ::
      (oy / 256 ^ 6 % 256) ::
      (oy / 256 ^ 5 % 256) ::
      (oy / 256 ^ 4 % 256) ::
      (oy / 256 ^ 3 % 256) ::
      (oy / 256 ^ 2 % 256) ::
      (oy / 256 % 256) ::
      (oy % 256) ::
      (kx / 256 ^ 7 % 256) ::
      (kx / 256 ^ 6 % 256) ::
      (kx / 256 ^ 5 % 256) ::
      (kx / 256 ^ 4 % 256) ::
      (kx / 256 ^ 3 % 256) ::
      (kx / 256 ^ 2 % 256) ::
      (kx / 256 % 256) ::
      (kx % 256) ::
      (ky / 256 ^ 7 % 256) ::
      (ky / 256 ^ 6 % 256) ::
      (ky / 256 ^ 5 % 256) ::
      (ky / 256 ^ 4 % 256) ::
      (ky / 256 ^ 3 % 256) ::
      (ky / 256 ^ 2 % 256) ::
      (ky / 256 % 256) ::
      (ky % 256) ::
      (srid / 256 ^ 3 % 256) ::
      (srid / 256 ^ 2 % 256) ::
      (srid / 256 % 256) ::
      (srid % 256) ::
      (w / 256 % 256) ::
      (w % 256) ::
      (h / 256 % 256) ::
      (h % 256) ::
      rest))
      13 sy hsy rfl rfl rfl rfl rfl rfl rfl rfl
    have hrox := read_float64_be (memOf ((0) ::
      (0 / 256 % 256) ::
      (0 % 256) ::
      (nb / 256 % 256) ::
      (nb % 256) ::
      (sx / 256 ^ 7 % 256) ::
      (sx / 256 ^ 6 % 256) ::
      (sx / 256 ^ 5 % 256) ::
      (sx / 256 ^ 4 % 256) ::
      (sx / 256 ^ 3 % 256) ::
      (sx / 256 ^ 2 % 256) ::
      (sx / 256 % 256) ::
      (sx % 256) ::
      (sy / 256 ^ 7 % 256) ::
      (sy / 256 ^ 6 % 256) ::
      (sy / 256 ^ 5 % 256) ::
      (sy / 256 ^ 4 % 256) ::
      (sy / 256 ^ 3 % 256) ::
      (sy / 256 ^ 2 % 256) ::
      (sy / 256 % 256) ::
      (sy % 256) ::
      (ox / 256 ^ 7 % 256) ::
      (ox / 256 ^ 6 % 256) ::
      (ox / 256 ^ 5 % 256) ::
      (ox / 256 ^ 4 % 256) ::
      (ox / 256 ^ 3 % 256) ::
      (ox / 256 ^ 2 % 256) ::
      (ox / 256 % 256) ::
      (ox % 256) ::
      (oy / 256 ^ 7 % 256) ::
      (oy / 256 ^ 6 % 256) ::
      (oy / 256 ^ 5 % 256) ::
      (oy / 256 ^ 4 % 256) ::
      (oy / 256 ^ 3 % 256) ::
      (oy / 256 ^ 2 % 256) ::
      (oy / 256 % 256) ::
      (oy % 256) ::
      (kx / 256 ^ 7 % 256) ::
      (kx / 256 ^ 6 % 256) ::
      (kx / 256 ^ 5 % 256) ::
      (kx / 256 ^ 4 % 256) ::
      (kx / 256 ^ 3 % 256) ::
      (kx / 256 ^ 2 % 256) ::
      (kx / 256 % 256) ::
      (kx % 256) ::
      (ky / 256 ^ 7 % 256) ::
      (ky / 256 ^ 6 % 256) ::
      (ky / 256 ^ 5 % 256) ::
      (ky / 256 ^ 4 % 256) ::
      (ky / 256 ^ 3 % 256) ::
      (ky / 256 ^ 2 % 256) ::
      (ky / 256 % 256) ::
      (ky % 256) ::
      (srid / 256 ^ 3 % 256) ::
      (srid / 256 ^ 2 % 256) ::
      (srid / 256 % 256) ::
      (srid % 256) ::
      (w / 256 % 256) ::
      (w % 256) ::
      (h / 256 % 256) ::
      (h % 256) ::
      rest))
      21 ox hox rfl rfl rfl rfl rfl rfl rfl rfl
    have hroy := read_float64_be (memOf ((0) ::
      (0 / 256 % 256) ::
      (0 % 256) ::
      (nb / 256 % 256) ::
      (nb % 256) ::
      (sx / 256 ^ 7 % 256) ::
      (sx / 256 ^ 6 % 256) ::
      (sx / 256 ^ 5 % 256) ::
      (sx / 256 ^ 4 % 256) ::
      (sx / 256 ^ 3 % 256) ::
      (sx / 256 ^ 2 % 256) ::
      (sx / 256 % 256) ::
      (sx % 256) ::
      (sy / 256 ^ 7 % 256) ::
      (sy / 256 ^ 6 % 256) ::
      (sy / 256 ^ 5 % 256) ::
      (sy / 256 ^ 4 % 256) ::
      (sy / 256 ^ 3 % 256) ::
      (sy / 256 ^ 2 % 256) ::
      (sy / 256 % 256) ::
      (sy % 256) ::
      (ox / 256 ^ 7 % 256) ::
      (ox / 256 ^ 6 % 256) ::
      (ox / 256 ^ 5 % 256) ::
      (ox / 256 ^ 4 % 256) ::
      (ox / 256 ^ 3 % 256) ::
      (ox / 256 ^ 2 % 256) ::
      (ox / 256 % 256) ::
      (ox % 256) ::
      (oy / 256 ^ 7 % 256) ::
      (oy / 256 ^ 6 % 256) ::
      (oy / 256 ^ 5 % 256) ::
      (oy / 256 ^ 4 % 256) ::
      (oy / 256 ^ 3 % 256) ::
      (oy / 256 ^ 2 % 256) ::
      (oy / 256 % 256) ::
      (oy % 256) ::
      (kx / 256 ^ 7 % 256) ::
      (kx / 256 ^ 6 % 256) ::
      (kx / 256 ^ 5 % 256) ::
      (kx / 256 ^ 4 % 256) ::
      (kx / 256 ^ 3 % 256) ::
      (kx / 256 ^ 2 % 256) ::
      (kx / 256 % 256) ::
      (kx % 256) ::
      (ky / 256 ^ 7 % 256) ::
      (ky / 256 ^ 6 % 256) ::
      (ky / 256 ^ 5 % 256) ::
      (ky / 256 ^ 4 % 256) ::
      (ky / 256 ^ 3 % 256) ::
      (ky / 256 ^ 2 % 256) ::
      (ky / 256 % 256) ::
      (ky % 256) ::
      (srid / 256 ^ 3 % 256) ::
      (srid / 256 ^ 2 % 256) ::
      (srid / 256 % 256) ::
      (srid % 256) ::
      (w / 256 % 256) ::
      (w % 256) ::
      (h / 256 % 256) ::
      (h % 256) ::
      rest))
      29 oy hoy rfl rfl rfl rfl rfl rfl rfl rfl
    have hrkx := read_float64_be (memOf ((0) ::
      (0 / 256 % 256) ::
      (0 % 256) ::
      (nb / 256 % 256) ::
      (nb % 256) ::
      (sx / 256 ^ 7 % 256) ::
      (sx / 256 ^ 6 % 256) ::
      (sx / 256 ^ 5 % 256) ::
      (sx / 256 ^ 4 % 256) ::
      (sx / 256 ^ 3 % 256) ::
      (sx / 256 ^ 2 % 256) ::
      (sx / 256 % 256) ::
      (sx % 256) ::
      (sy / 256 ^ 7 % 256) ::
      (sy / 256 ^ 6 % 256) ::
      (sy / 256 ^ 5 % 256) ::
      (sy / 256 ^ 4 % 256) ::
      (sy / 256 ^ 3 % 256) ::
      (sy / 256 ^ 2 % 256) ::
      (sy / 256 % 256) ::
      (sy % 256) ::
      (ox / 256 ^ 7 % 256) ::
      (ox / 256 ^ 6 % 256) ::
      (ox / 256 ^ 5 % 256) ::
      (ox / 256 ^ 4 % 256) ::
      (ox / 256 ^ 3 % 256) ::
      (ox / 256 ^ 2 % 256) ::
      (ox / 256 % 256) ::
      (ox % 256) ::
      (oy / 256 ^ 7 % 256) ::
      (oy / 256 ^ 6 % 256) ::
      (oy / 256 ^ 5 % 256) ::
      (oy / 256 ^ 4 % 256) ::
      (oy / 256 ^ 3 % 256) ::
      (oy / 256 ^ 2 % 256) ::
      (oy / 256 % 256) ::
      (oy % 256) ::
      (kx / 256 ^ 7 % 256) ::
      (kx / 256 ^ 6 % 256) ::
      (kx / 256 ^ 5 % 256) ::
      (kx / 256 ^ 4 % 256) ::
      (kx / 256 ^ 3 % 256) ::
      (kx / 256 ^ 2 % 256) ::
      (kx / 256 % 256) ::
      (kx % 256) ::
      (ky / 256 ^ 7 % 256) ::
      (ky / 256 ^ 6 % 256) ::
      (ky / 256 ^ 5 % 256) ::
      (ky / 256 ^ 4 % 256) ::
      (ky / 256 ^ 3 % 256) ::
      (ky / 256 ^ 2 % 256) ::
      (ky / 256 % 256) ::
      (ky % 256) ::
      (srid / 256 ^ 3 % 256) ::
      (srid / 256 ^ 2 % 256) ::
      (srid / 256 % 256) ::
      (srid % 256) ::
      (w / 256 % 256) ::
      (w % 256) ::
      (h / 256 % 256) ::
      (h % 256) ::
      rest))
      37 kx hkx rfl rfl rfl rfl rfl rfl rfl rfl
    have hrky := read_float64_be (memOf ((0) ::
      (0 / 256 % 256) ::
      (0 % 256) ::
      (nb / 256 % 256) ::
      (nb % 256) ::
      (sx / 256 ^ 7 % 256) ::
      (sx / 256 ^ 6 % 256) ::
      (sx / 256 ^ 5 % 256) ::
      (sx / 256 ^ 4 % 256) ::
      (sx / 256 ^ 3 % 256) ::
      (sx / 256 ^ 2 % 256) ::
      (sx / 256 % 256) ::
      (sx % 256) ::
      (sy / 256 ^ 7 % 256) ::
      (sy / 256 ^ 6 % 256) ::
      (sy / 256 ^ 5 % 256) ::
      (sy / 256 ^ 4 % 256) ::
      (sy / 256 ^ 3 % 256) ::
      (sy / 256 ^ 2 % 256) ::
      (sy / 256 % 256) ::
      (sy % 256) ::
      (ox / 256 ^ 7 % 256) ::
      (ox / 256 ^ 6 % 256) ::
      (ox / 256 ^ 5 % 256) ::
      (ox / 256 ^ 4 % 256) ::
      (ox / 256 ^ 3 % 256) ::
      (ox / 256 ^ 2 % 256) ::
      (ox / 256 % 256) ::
      (ox % 256) ::
      (oy / 256 ^ 7 % 256) ::
      (oy / 256 ^ 6 % 256) ::
      (oy / 256 ^ 5 % 256) ::
      (oy / 256 ^ 4 % 256) ::
      (oy / 256 ^ 3 % 256) ::
      (oy / 256 ^ 2 % 256) ::
      (oy / 256 % 256) ::
      (oy % 256) ::
      (kx / 256 ^ 7 % 256) ::
      (kx / 256 ^ 6 % 256) ::
      (kx / 256 ^ 5 % 256) ::
      (kx / 256 ^ 4 % 256) ::
      (kx / 256 ^ 3 % 256) ::
      (kx / 256 ^ 2 % 256) ::
      (kx / 256 % 256) ::
      (kx % 256) ::
      (ky / 256 ^ 7 % 256) ::
      (ky / 256 ^ 6 % 256) ::
      (ky / 256 ^ 5 % 256) ::
      (ky / 256 ^ 4 % 256) ::
      (ky / 256 ^ 3 % 256) ::
      (ky / 256 ^ 2 % 256) ::
      (ky / 256 % 256) ::
      (ky % 256) ::
      (srid / 256 ^ 3 % 256) ::
      (srid / 256 ^ 2 % 256) ::
      (srid / 256 % 256) ::
      (srid % 256) ::
      (w / 256 % 256) ::
      (w % 256) ::
      (h / 256 % 256) ::
      (h % 256) ::
      rest))
      45 ky hky rfl rfl rfl rfl rfl rfl rfl rfl
    have hrsrid := read_int32_be (memOf ((0) ::
      (0 / 256 % 256) ::
      (0 % 256) ::
      (nb / 256 % 256) ::
      (nb % 256) ::
      (sx / 256 ^ 7 % 256) ::
      (sx / 256 ^ 6 % 256) ::
      (sx / 256 ^ 5 % 256) ::
      (sx / 256 ^ 4 % 256) ::
      (sx / 256 ^ 3 % 256) ::
      (sx / 256 ^ 2 % 256) ::
      (sx / 256 % 256) ::
      (sx % 256) ::
      (sy / 256 ^ 7 % 256) ::
      (sy / 256 ^ 6 % 256) ::
      (sy / 256 ^ 5 % 256) ::
      (sy / 256 ^ 4 % 256) ::
      (sy / 256 ^ 3 % 256) ::
      (sy / 256 ^ 2 % 256) ::
      (sy / 256 % 256) ::
      (sy % 256) ::
      (ox / 256 ^ 7 % 256) ::
      (ox / 256 ^ 6 % 256) ::
      (ox / 256 ^ 5 % 256) ::
      (ox / 256 ^ 4 % 256) ::
      (ox / 256 ^ 3 % 256) ::
      (ox / 256 ^ 2 % 256) ::
      (ox / 256 % 256) ::
      (ox % 256) ::
      (oy / 256 ^ 7 % 256) ::
      (oy / 256 ^ 6 % 256) ::
      (oy / 256 ^ 5 % 256) ::
      (oy / 256 ^ 4 % 256) ::
      (oy / 256 ^ 3 % 256) ::
      (oy / 256 ^ 2 % 256) ::
      (oy / 256 % 256) ::
      (oy % 256) ::
      (kx / 256 ^ 7 % 256) ::
      (kx / 256 ^ 6 % 256) ::
      (kx / 256 ^ 5 % 256) ::
      (kx / 256 ^ 4 % 256) ::
      (kx / 256 ^ 3 % 256) ::
      (kx / 256 ^ 2 % 256) ::
      (kx / 256 % 256) ::
      (kx % 256) ::
      (ky / 256 ^ 7 % 256) ::
      (ky / 256 ^ 6 % 256) ::
      (ky / 256 ^ 5 % 256) ::
      (ky / 256 ^ 4 % 256) ::
      (ky / 256 ^ 3 % 256) ::
      (ky / 256 ^ 2 % 256) ::
      (ky / 256 % 256) ::
      (ky % 256) ::
      (srid / 256 ^ 3 % 256) ::
      (srid / 256 ^ 2 % 256) ::
      (srid / 256 % 256) ::
      (srid % 256) ::
      (w / 256 % 256) ::
      (w % 256) ::
      (h / 256 % 256) ::
      (h % 256) ::
      rest))
      53 srid hsrid rfl rfl rfl rfl
    have hrw := read_uint16_be (memOf ((0) ::
      (0 / 256 % 256) ::
      (0 % 256) ::
      (nb / 256 % 256) ::
      (nb % 256) ::
      (sx / 256 ^ 7 % 256) ::
      (sx / 256 ^ 6 % 256) ::
      (sx / 256 ^ 5 % 256) ::
      (sx / 256 ^ 4 % 256) ::
      (sx / 256 ^ 3 % 256) ::
      (sx / 256 ^ 2 % 256) ::
      (sx / 256 % 256) ::
      (sx % 256) ::
      (sy / 256 ^ 7 % 256) ::
      (sy / 256 ^ 6 % 256) ::
      (sy / 256 ^ 5 % 256) ::
      (sy / 256 ^ 4 % 256) ::
      (sy / 256 ^ 3 % 256) ::
      (sy / 256 ^ 2 % 256) ::
      (sy / 256 % 256) ::
      (sy % 256) ::
      (ox / 256 ^ 7 % 256) ::
      (ox / 256 ^ 6 % 256) ::
      (ox / 256 ^ 5 % 256) ::
      (ox / 256 ^ 4 % 256) ::
      (ox / 256 ^ 3 % 256) ::
      (ox / 256 ^ 2 % 256) ::
      (ox / 256 % 256) ::
      (ox % 256) ::
      (oy / 256 ^ 7 % 256) ::
      (oy / 256 ^ 6 % 256) ::
      (oy / 256 ^ 5 % 256) ::
      (oy / 256 ^ 4 % 256) ::
      (oy / 256 ^ 3 % 256) ::
      (oy / 256 ^ 2 % 256) ::
      (oy / 256 % 256) ::
      (oy % 256) ::
      (kx / 256 ^ 7 % 256) ::
      (kx / 256 ^ 6 % 256) ::
      (kx / 256 ^ 5 % 256) ::
      (kx / 256 ^ 4 % 256) ::
      (kx / 256 ^ 3 % 256) ::
      (kx / 256 ^ 2 % 256) ::
      (kx / 256 % 256) ::
      (kx % 256) ::
      (ky / 256 ^ 7 % 256) ::
      (ky / 256 ^ 6 % 256) ::
      (ky / 256 ^ 5 % 256) ::
      (ky / 256 ^ 4 % 256) ::
      (ky / 256 ^ 3 % 256) ::
      (ky / 256 ^ 2 % 256) ::
      (ky / 256 % 256) ::
      (ky % 256) ::
      (srid / 256 ^ 3 % 256) ::
      (srid / 256 ^ 2 % 256) ::
      (srid / 256 % 256) ::
      (srid % 256) ::
      (w / 256 % 256) ::
      (w % 256) ::
      (h / 256 % 256) ::
      (h % 256) ::
      rest))
      57 w hw rfl rfl
    have hrh := read_uint16_be (memOf ((0) ::
      (0 / 256 % 256) ::
      (0 % 256) ::
      (nb / 256 % 256) ::
      (nb % 256) ::
      (sx / 256 ^ 7 % 256) ::
      (sx / 256 ^ 6 % 256) ::
      (sx / 256 ^ 5 % 256) ::
      (sx / 256 ^ 4 % 256) ::
      (sx / 256 ^ 3 % 256) ::
      (sx / 256 ^ 2 % 256) ::
      (sx / 256 % 256) ::
      (sx % 256) ::
      (sy / 256 ^ 7 % 256) ::
      (sy / 256 ^ 6 % 256) ::
      (sy / 256 ^ 5 % 256) ::
      (sy / 256 ^ 4 % 256) ::
      (sy / 256 ^ 3 % 256) ::
      (sy / 256 ^ 2 % 256) ::
      (sy / 256 % 256) ::
      (sy % 256) ::
      (ox / 256 ^ 7 % 256) ::
      (ox / 256 ^ 6 % 256) ::
      (ox / 256 ^ 5 % 256) ::
      (ox / 256 ^ 4 % 256) ::
      (ox / 256 ^ 3 % 256) ::
      (ox / 256 ^ 2 % 256) ::
      (ox / 256 % 256) ::
      (ox % 256) ::
      (oy / 256 ^ 7 % 256) ::
      (oy / 256 ^ 6 % 256) ::
      (oy / 256 ^ 5 % 256) ::
      (oy / 256 ^ 4 % 256) ::
      (oy / 256 ^ 3 % 256) ::
      (oy / 256 ^ 2 % 256) ::
      (oy / 256 % 256) ::
      (oy % 256) ::
      (kx / 256 ^ 7 % 256) ::
      (kx / 256 ^ 6 % 256) ::
      (kx / 256 ^ 5 % 256) ::
      (kx / 256 ^ 4 % 256) ::
      (kx / 256 ^ 3 % 256) ::
      (kx / 256 ^ 2 % 256) ::
      (kx / 256 % 256) ::
      (kx % 256) ::
      (ky / 256 ^ 7 % 256) ::
      (ky / 256 ^ 6 % 256) ::
      (ky / 256 ^ 5 % 256) ::
      (ky / 256 ^ 4 % 256) ::
      (ky / 256 ^ 3 % 256) ::
      (ky / 256 ^ 2 % 256) ::
      (ky / 256 % 256) ::
      (ky % 256) ::
      (srid / 256 ^ 3 % 256) ::
      (srid / 256 ^ 2 % 256) ::
      (srid / 256 % 256) ::
      (srid % 256) ::
      (w / 256 % 256) ::
      (w % 256) ::
      (h / 256 % 256) ::
      (h % 256) ::
      rest))
      59 h hh rfl rfl
    simp only [get_raster, hle, hrv, hrnb, hrsx, hrsy, hrox, hroy, hrkx, hrky, hrsrid,
      hrw, hrh, hftx, hfty, Bool.or_self, Bool.false_eq_true, if_false, ne_eq,
      not_true_eq_false, not_false_eq_true, ite_false, ite_true]
  | true =>
    have hflat : mkHeader true 0 nb sx sy ox oy kx ky srid w h ++ rest =
      (1) ::
      (0 % 256) ::
      (0 / 256 % 256) ::
      (nb % 256) ::
      (nb / 256 % 256) ::
      (sx % 256) ::
      (sx / 256 % 256) ::
      (sx / 256 ^ 2 % 256) ::
      (sx / 256 ^ 3 % 256) ::
      (sx / 256 ^ 4 % 256) ::
      (sx / 256 ^ 5 % 256) ::
      (sx / 256 ^ 6 % 256) ::
      (sx / 256 ^ 7 % 256) ::
      (sy % 256) ::
      (sy / 256 % 256) ::
      (sy / 256 ^ 2 % 256) ::
      (sy / 256 ^ 3 % 256) ::
      (sy / 256 ^ 4 % 256) ::
      (sy / 256 ^ 5 % 256) ::
      (sy / 256 ^ 6 % 256) ::
      (sy / 256 ^ 7 % 256) ::
      (ox % 256) ::
      (ox / 256 % 256) ::
      (ox / 256 ^ 2 % 256) ::
      (ox / 256 ^ 3 % 256) ::
      (ox / 256 ^ 4 % 256) ::
      (ox / 256 ^ 5 % 256) ::
      (ox / 256 ^ 6 % 256) ::
      (ox / 256 ^ 7 % 256) ::
      (oy % 256) ::
      (oy / 256 % 256) ::
      (oy / 256 ^ 2 % 256) ::
      (oy / 256 ^ 3 % 256) ::
      (oy / 256 ^ 4 % 256) ::
      (oy / 256 ^ 5 % 256) ::
      (oy / 256 ^ 6 % 256) ::
      (oy / 256 ^ 7 % 256) ::
      (kx % 256) ::
      (kx / 256 % 256) ::
      (kx / 256 ^ 2 % 256) ::
      (kx / 256 ^ 3 % 256) ::
      (kx / 256 ^ 4 % 256) ::
      (kx / 256 ^ 5 % 256) ::
      (kx / 256 ^ 6 % 256) ::
      (kx / 256 ^ 7 % 256) ::
      (ky % 256) ::
      (ky / 256 % 256) ::
      (ky / 256 ^ 2 % 256) ::
      (ky / 256 ^ 3 % 256) ::
      (ky / 256 ^ 4 % 256) ::
      (ky / 256 ^ 5 % 256) ::
      (ky / 256 ^ 6 % 256) ::
      (ky / 256 ^ 7 % 256) ::
      (srid % 256) ::
      (srid / 256 % 256) ::
      (srid / 256 ^ 2 % 256) ::
      (srid / 256 ^ 3 % 256) ::
      (w % 256) ::
      (w / 256 % 256) ::
      (h % 256) ::
      (h / 256 % 256) ::
      rest := by
      simp [mkHeader, putU16, putU32, putU64]
    rw [hflat]
    have hle : (((memOf ((1) ::
      (0 % 256) ::
      (0 / 256 % 256) ::
      (nb % 256) ::
      (nb / 256 % 256) ::
      (sx % 256) ::
      (sx / 256 % 256) ::
      (sx / 256 ^ 2 % 256) ::
      (sx / 256 ^ 3 % 256) ::
      (sx / 256 ^ 4 % 256) ::
      (sx / 256 ^ 5 % 256) ::
      (sx / 256 ^ 6 % 256) ::
      (sx / 256 ^ 7 % 256) ::
      (sy % 256) ::
      (sy / 256 % 256) ::
      (sy / 256 ^ 2 % 256) ::
      (sy / 256 ^ 3 % 256) ::
      (sy / 256 ^ 4 % 256) ::
      (sy / 256 ^ 5 % 256) ::
      (sy / 256 ^ 6 % 256) ::
      (sy / 256 ^ 7 % 256) ::
      (ox % 256) ::
      (ox / 256 % 256) ::
      (ox / 256 ^ 2 % 256) ::
      (ox / 256 ^ 3 % 256) ::
      (ox / 256 ^ 4 % 256) ::
      (ox / 256 ^ 5 % 256) ::
      (ox / 256 ^ 6 % 256) ::
      (ox / 256 ^ 7 % 256) ::
      (oy % 256) ::
      (oy / 256 % 256) ::
      (oy / 256 ^ 2 % 256) ::
      (oy / 256 ^ 3 % 256) ::
      (oy / 256 ^ 4 % 256) ::
      (oy / 256 ^ 5 % 256) ::
      (oy / 256 ^ 6 % 256) ::
      (oy / 256 ^ 7 % 256) ::
      (kx % 256) ::
      (kx / 256 % 256) ::
      (kx / 256 ^ 2 % 256) ::
      (kx / 256 ^ 3 % 256) ::
      (kx / 256 ^ 4 % 256) ::
      (kx / 256 ^ 5 % 256) ::
      (kx / 256 ^ 6 % 256) ::
      (kx / 256 ^ 7 % 256) ::
      (ky % 256) ::
      (ky / 256 % 256) ::
      (ky / 256 ^ 2 % 256) ::
      (ky / 256 ^ 3 % 256) ::
      (ky / 256 ^ 4 % 256) ::
      (ky / 256 ^ 5 % 256) ::
      (ky / 256 ^ 6 % 256) ::
      (ky / 256 ^ 7 % 256) ::
      (srid % 256) ::
      (srid / 256 % 256) ::
      (srid / 256 ^ 2 % 256) ::
      (srid / 256 ^ 3 % 256) ::
      (w % 256) ::
      (w / 256 % 256) ::
      (h % 256) ::
      (h / 256 % 256) ::
      rest)) 0 % 256) != 0) = true := rfl
    have hrv := read_uint16_le (memOf ((1) ::
      (0 % 256) ::
      (0 / 256 % 256) ::
      (nb % 256) ::
      (nb / 256 % 256) ::
      (sx % 256) ::
      (sx / 256 % 256) ::
      (sx / 256 ^ 2 % 256) ::
      (sx / 256 ^ 3 % 256) ::
      (sx / 256 ^ 4 % 256) ::
      (sx / 256 ^ 5 % 256) ::
      (sx / 256 ^ 6 % 256) ::
      (sx / 256 ^ 7 % 256) ::
      (sy % 256) ::
      (sy / 256 % 256) ::
      (sy / 256 ^ 2 % 256) ::
      (sy / 256 ^ 3 % 256) ::
      (sy / 256 ^ 4 % 256) ::
      (sy / 256 ^ 5 % 256) ::
      (sy / 256 ^ 6 % 256) ::
      (sy / 256 ^ 7 % 256) ::
      (ox % 256) ::
      (ox / 256 % 256) ::
      (ox / 256 ^ 2 % 256) ::
      (ox / 256 ^ 3 % 256) ::
      (ox / 256 ^ 4 % 256) ::
      (ox / 256 ^ 5 % 256) ::
      (ox / 256 ^ 6 % 256) ::
      (ox / 256 ^ 7 % 256) ::
      (oy % 256) ::
      (oy / 256 % 256) ::
      (oy / 256 ^ 2 % 256) ::
      (oy / 256 ^ 3 % 256) ::
      (oy / 256 ^ 4 % 256) ::
      (oy / 256 ^ 5 % 256) ::
      (oy / 256 ^ 6 % 256) ::
      (oy / 256 ^ 7 % 256) ::
      (kx % 256) ::
      (kx / 256 % 256) ::
      (kx / 256 ^ 2 % 256) ::
      (kx / 256 ^ 3 % 256) ::
      (kx / 256 ^ 4 % 256) ::
      (kx / 256 ^ 5 % 256) ::
      (kx / 256 ^ 6 % 256) ::
      (kx / 256 ^ 7 % 256) ::
      (ky % 256) ::
      (ky / 256 % 256) ::
      (ky / 256 ^ 2 % 256) ::
      (ky / 256 ^ 3 % 256) ::
      (ky / 256 ^ 4 % 256) ::
      (ky / 256 ^ 5 % 256) ::
      (ky / 256 ^ 6 % 256) ::
      (ky / 256 ^ 7 % 256) ::
      (srid % 256) ::
      (srid / 256 % 256) ::
      (srid / 256 ^ 2 % 256) ::
      (srid / 256 ^ 3 % 256) ::
      (w % 256) ::
      (w / 256 % 256) ::
      (h % 256) ::
      (h / 256 % 256) ::
      rest))
      1 0 (by omega) rfl rfl
    have hrnb := read_uint16_le (memOf ((1) ::
      (0 % 256) ::
      (0 / 256 % 256) ::
      (nb % 256) ::
      (nb / 256 % 256) ::
      (sx % 256) ::
      (sx / 256 % 256) ::
      (sx / 256 ^ 2 % 256) ::
      (sx / 256 ^ 3 % 256) ::
      (sx / 256 ^ 4 % 256) ::
      (sx / 256 ^ 5 % 256) ::
      (sx / 256 ^ 6 % 256) ::
      (sx / 256 ^ 7 % 256) ::
      (sy % 256) ::
      (sy / 256 % 256) ::
      (sy / 256 ^ 2 % 256) ::
      (sy / 256 ^ 3 % 256) ::
      (sy / 256 ^ 4 % 256) ::
      (sy / 256 ^ 5 % 256) ::
      (sy / 256 ^ 6 % 256) ::
      (sy / 256 ^ 7 % 256) ::
      (ox % 256) ::
      (ox / 256 % 256) ::
      (ox / 256 ^ 2 % 256) ::
      (ox / 256 ^ 3 % 256) ::
      (ox / 256 ^ 4 % 256) ::
      (ox / 256 ^ 5 % 256) ::
      (ox / 256 ^ 6 % 256) ::
      (ox / 256 ^ 7 % 256) ::
      (oy % 256) ::
      (oy / 256 % 256) ::
      (oy / 256 ^ 2 % 256) ::
      (oy / 256 ^ 3 % 256) ::
      (oy / 256 ^ 4 % 256) ::
      (oy / 256 ^ 5 % 256) ::
      (oy / 256 ^ 6 % 256) ::
      (oy / 256 ^ 7 % 256) ::
      (kx % 256) ::
      (kx / 256 % 256) ::
      (kx / 256 ^ 2 % 256) ::
      (kx / 256 ^ 3 % 256) ::
      (kx / 256 ^ 4 % 256) ::
      (kx / 256 ^ 5 % 256) ::
      (kx / 256 ^ 6 % 256) ::
      (kx / 256 ^ 7 % 256) ::
      (ky % 256) ::
      (ky / 256 % 256) ::
      (ky / 256 ^ 2 % 256) ::
      (ky / 256 ^ 3 % 256) ::
      (ky / 256 ^ 4 % 256) ::
      (ky / 256 ^ 5 % 256) ::
      (ky / 256 ^ 6 % 256) ::
      (ky / 256 ^ 7 % 256) ::
      (srid % 256) ::
      (srid / 256 % 256) ::
      (srid / 256 ^ 2 % 256) ::
      (srid / 256 ^ 3 % 256) ::
      (w % 256) ::
      (w / 256 % 256) ::
      (h % 256) ::
      (h / 256 % 256) ::
      rest))
      3 nb hnb rfl rfl
    have hrsx := read_float64_le (memOf ((1) ::
      (0 % 256) ::
      (0 / 256 % 256) ::
      (nb % 256) ::
      (nb / 256 % 256) ::
      (sx % 256) ::
      (sx / 256 % 256) ::
      (sx / 256 ^ 2 % 256) ::
      (sx / 256 ^ 3 % 256) ::
      (sx / 256 ^ 4 % 256) ::
      (sx / 256 ^ 5 % 256) ::
      (sx / 256 ^ 6 % 256) ::
      (sx / 256 ^ 7 % 256) ::
      (sy % 256) ::
      (sy / 256 % 256) ::
      (sy / 256 ^ 2 % 256) ::
      (sy / 256 ^ 3 % 256) ::
      (sy / 256 ^ 4 % 256) ::
      (sy / 256 ^ 5 % 256) ::
      (sy / 256 ^ 6 % 256) ::
      (sy / 256 ^ 7 % 256) ::
      (ox % 256) ::
      (ox / 256 % 256) ::
      (ox / 256 ^ 2 % 256) ::
      (ox / 256 ^ 3 % 256) ::
      (ox / 256 ^ 4 % 256) ::
      (ox / 256 ^ 5 % 256) ::
      (ox / 256 ^ 6 % 256) ::
      (ox / 256 ^ 7 % 256) ::
      (oy % 256) ::
      (oy / 256 % 256) ::
      (oy / 256 ^ 2 % 256) ::
      (oy / 256 ^ 3 % 256) ::
      (oy / 256 ^ 4 % 256) ::
      (oy / 256 ^ 5 % 256) ::
      (oy / 256 ^ 6 % 256) ::
      (oy / 256 ^ 7 % 256) ::
      (kx % 256) ::
      (kx / 256 % 256) ::
      (kx / 256 ^ 2 % 256) ::
      (kx / 256 ^ 3 % 256) ::
      (kx / 256 ^ 4 % 256) ::
      (kx / 256 ^ 5 % 256) ::
      (kx / 256 ^ 6 % 256) ::
      (kx / 256 ^ 7 % 256) ::
      (ky % 256) ::
      (ky / 256 % 256) ::
      (ky / 256 ^ 2 % 256) ::
      (ky / 256 ^ 3 % 256) ::
      (ky / 256 ^ 4 % 256) ::
      (ky / 256 ^ 5 % 256) ::
      (ky / 256 ^ 6 % 256) ::
      (ky / 256 ^ 7 % 256) ::
      (srid % 256) ::
      (srid / 256 % 256) ::
      (srid / 256 ^ 2 % 256) ::
      (srid / 256 ^ 3 % 256) ::
      (w % 256) ::
      (w / 256 % 256) ::
      (h % 256) ::
      (h / 256 % 256) ::
      rest))
      5 sx hsx rfl rfl rfl rfl rfl rfl rfl rfl
    have hrsy := read_float64_le (memOf ((1) ::
      (0 % 256) ::
      (0 / 256 % 256) ::
      (nb % 256) ::
      (nb / 256 % 256) ::
      (sx % 256) ::
      (sx / 256 % 256) ::
      (sx / 256 ^ 2 % 256) ::
      (sx / 256 ^ 3 % 256) ::
      (sx / 256 ^ 4 % 256) ::
      (sx / 256 ^ 5 % 256) ::
      (sx / 256 ^ 6 % 256) ::
      (sx / 256 ^ 7 % 256) ::
      (sy % 256) ::
      (sy / 256 % 256) ::
      (sy / 256 ^ 2 % 256) ::
      (sy / 256 ^ 3 % 256) ::
      (sy / 256 ^ 4 % 256) ::
      (sy / 256 ^ 5 % 256) ::
      (sy / 256 ^ 6 % 256) ::
      (sy / 256 ^ 7 % 256) ::
      (ox % 256) ::
      (ox / 256 % 256) ::
      (ox / 256 ^ 2 % 256) ::
      (ox / 256 ^ 3 % 256) ::
      (ox / 256 ^ 4 % 256) ::
      (ox / 256 ^ 5 % 256) ::
      (ox / 256 ^ 6 % 256) ::
      (ox / 256 ^ 7 % 256) ::
      (oy % 256) ::
      (oy / 256 % 256) ::
      (oy / 256 ^ 2 % 256) ::
      (oy / 256 ^ 3 % 256) ::
      (oy / 256 ^ 4 % 256) ::
      (oy / 256 ^ 5 % 256) ::
      (oy / 256 ^ 6 % 256) ::
      (oy / 256 ^ 7 % 256) ::
      (kx % 256) ::
      (kx / 256 % 256) ::
      (kx / 256 ^ 2 % 256) ::
      (kx / 256 ^ 3 % 256) ::
      (kx / 256 ^ 4 % 256) ::
      (kx / 256 ^ 5 % 256) ::
      (kx / 256 ^ 6 % 256) ::
      (kx / 256 ^ 7 % 256) ::
      (ky % 256) ::
      (ky / 256 % 256) ::
      (ky / 256 ^ 2 % 256) ::
      (ky / 256 ^ 3 % 256) ::
      (ky / 256 ^ 4 % 256) ::
      (ky / 256 ^ 5 % 256) ::
      (ky / 256 ^ 6 % 256) ::
      (ky / 256 ^ 7 % 256) ::
      (srid % 256) ::
      (srid / 256 % 256) ::
      (srid / 256 ^ 2 % 256) ::
      (srid / 256 ^ 3 % 256) ::
      (w % 256) ::
      (w / 256 % 256) ::
      (h % 256) ::
      (h / 256 % 256) ::
      rest))
      13 sy hsy rfl rfl rfl rfl rfl rfl rfl rfl
    have hrox := read_float64_le (memOf ((1) ::
      (0 % 256) ::
      (0 / 256 % 256) ::
      (nb % 256) ::
      (nb / 256 % 256) ::
      (sx % 256) ::
      (sx / 256 % 256) ::
      (sx / 256 ^ 2 % 256) ::
      (sx / 256 ^ 3 % 256) ::
      (sx / 256 ^ 4 % 256) ::
      (sx / 256 ^ 5 % 256) ::
      (sx / 256 ^ 6 % 256) ::
      (sx / 256 ^ 7 % 256) ::
      (sy % 256) ::
      (sy / 256 % 256) ::
      (sy / 256 ^ 2 % 256) ::
      (sy / 256 ^ 3 % 256) ::
      (sy / 256 ^ 4 % 256) ::
      (sy / 256 ^ 5 % 256) ::
      (sy / 256 ^ 6 % 256) ::
      (sy / 256 ^ 7 % 256) ::
      (ox % 256) ::
      (ox / 256 % 256) ::
      (ox / 256 ^ 2 % 256) ::
      (ox / 256 ^ 3 % 256) ::
      (ox / 256 ^ 4 % 256) ::
      (ox / 256 ^ 5 % 256) ::
      (ox / 256 ^ 6 % 256) ::
      (ox / 256 ^ 7 % 256) ::
      (oy % 256) ::
      (oy / 256 % 256) ::
      (oy / 256 ^ 2 % 256) ::
      (oy / 256 ^ 3 % 256) ::
      (oy / 256 ^ 4 % 256) ::
      (oy / 256 ^ 5 % 256) ::
      (oy / 256 ^ 6 % 256) ::
      (oy / 256 ^ 7 % 256) ::
      (kx % 256) ::
      (kx / 256 % 256) ::
      (kx / 256 ^ 2 % 256) ::
      (kx / 256 ^ 3 % 256) ::
      (kx / 256 ^ 4 % 256) ::
      (kx / 256 ^ 5 % 256) ::
      (kx / 256 ^ 6 % 256) ::
      (kx / 256 ^ 7 % 256) ::
      (ky % 256) ::
      (ky / 256 % 256) ::
      (ky / 256 ^ 2 % 256) ::
      (ky / 256 ^ 3 % 256) ::
      (ky / 256 ^ 4 % 256) ::
      (ky / 256 ^ 5 % 256) ::
      (ky / 256 ^ 6 % 256) ::
      (ky / 256 ^ 7 % 256) ::
      (srid % 256) ::
      (srid / 256 % 256) ::
      (srid / 256 ^ 2 % 256) ::
      (srid / 256 ^ 3 % 256) ::
      (w % 256) ::
      (w / 256 % 256) ::
      (h % 256) ::
      (h / 256 % 256) ::
      rest))
      21 ox hox rfl rfl rfl rfl rfl rfl rfl rfl
    have hroy := read_float64_le (memOf ((1) ::
      (0 % 256) ::
      (0 / 256 % 256) ::
      (nb % 256) ::
      (nb / 256 % 256) ::
      (sx % 256) ::
      (sx / 256 % 256) ::
      (sx / 256 ^ 2 % 256) ::
      (sx / 256 ^ 3 % 256) ::
      (sx / 256 ^ 4 % 256) ::
      (sx / 256 ^ 5 % 256) ::
      (sx / 256 ^ 6 % 256) ::
      (sx / 256 ^ 7 % 256) ::
      (sy % 256) ::
      (sy / 256 % 256) ::
      (sy / 256 ^ 2 % 256) ::
      (sy / 256 ^ 3 % 256) ::
      (sy / 256 ^ 4 % 256) ::
      (sy / 256 ^ 5 % 256) ::
      (sy / 256 ^ 6 % 256) ::
      (sy / 256 ^ 7 % 256) ::
      (ox % 256) ::
      (ox / 256 % 256) ::
      (ox / 256 ^ 2 % 256) ::
      (ox / 256 ^ 3 % 256) ::
      (ox / 256 ^ 4 % 256) ::
      (ox / 256 ^ 5 % 256) ::
      (ox / 256 ^ 6 % 256) ::
      (ox / 256 ^ 7 % 256) ::
      (oy % 256) ::
      (oy / 256 % 256) ::
      (oy / 256 ^ 2 % 256) ::
      (oy / 256 ^ 3 % 256) ::
      (oy / 256 ^ 4 % 256) ::
      (oy / 256 ^ 5 % 256) ::
      (oy / 256 ^ 6 % 256) ::
      (oy / 256 ^ 7 % 256) ::
      (kx % 256) ::
      (kx / 256 % 256) ::
      (kx / 256 ^ 2 % 256) ::
      (kx / 256 ^ 3 % 256) ::
      (kx / 256 ^ 4 % 256) ::
      (kx / 256 ^ 5 % 256) ::
      (kx / 256 ^ 6 % 256) ::
      (kx / 256 ^ 7 % 256) ::
      (ky % 256) ::
      (ky / 256 % 256) ::
      (ky / 256 ^ 2 % 256) ::
      (ky / 256 ^ 3 % 256) ::
      (ky / 256 ^ 4 % 256) ::
      (ky / 256 ^ 5 % 256) ::
      (ky / 256 ^ 6 % 256) ::
      (ky / 256 ^ 7 % 256) ::
      (srid % 256) ::
      (srid / 256 % 256) ::
      (srid / 256 ^ 2 % 256) ::
      (srid / 256 ^ 3 % 256) ::
      (w % 256) ::
      (w / 256 % 256) ::
      (h % 256) ::
      (h / 256 % 256) ::
      rest))
      29 oy hoy rfl rfl rfl rfl rfl rfl rfl rfl
    have hrkx := read_float64_le (memOf ((1) ::
      (0 % 256) ::
      (0 / 256 % 256) ::
      (nb % 256) ::
      (nb / 256 % 256) ::
      (sx % 256) ::
      (sx / 256 % 256) ::
      (sx / 256 ^ 2 % 256) ::
      (sx / 256 ^ 3 % 256) ::
      (sx / 256 ^ 4 % 256) ::
      (sx / 256 ^ 5 % 256) ::
      (sx / 256 ^ 6 % 256) ::
      (sx / 256 ^ 7 % 256) ::
      (sy % 256) ::
      (sy / 256 % 256) ::
      (sy / 256 ^ 2 % 256) ::
      (sy / 256 ^ 3 % 256) ::
      (sy / 256 ^ 4 % 256) ::
      (sy / 256 ^ 5 % 256) ::
      (sy / 256 ^ 6 % 256) ::
      (sy / 256 ^ 7 % 256) ::
      (ox % 256) ::
      (ox / 256 % 256) ::
      (ox / 256 ^ 2 % 256) ::
      (ox / 256 ^ 3 % 256) ::
      (ox / 256 ^ 4 % 256) ::
      (ox / 256 ^ 5 % 256) ::
      (ox / 256 ^ 6 % 256) ::
      (ox / 256 ^ 7 % 256) ::
      (oy % 256) ::
      (oy / 256 % 256) ::
      (oy / 256 ^ 2 % 256) ::
      (oy / 256 ^ 3 % 256) ::
      (oy / 256 ^ 4 % 256) ::
      (oy / 256 ^ 5 % 256) ::
      (oy / 256 ^ 6 % 256) ::
      (oy / 256 ^ 7 % 256) ::
      (kx % 256) ::
      (kx / 256 % 256) ::
      (kx / 256 ^ 2 % 256) ::
      (kx / 256 ^ 3 % 256) ::
      (kx / 256 ^ 4 % 256) ::
      (kx / 256 ^ 5 % 256) ::
      (kx / 256 ^ 6 % 256) ::
      (kx / 256 ^ 7 % 256) ::
      (ky % 256) ::
      (ky / 256 % 256) ::
      (ky / 256 ^ 2 % 256) ::
      (ky / 256 ^ 3 % 256) ::
      (ky / 256 ^ 4 % 256) ::
      (ky / 256 ^ 5 % 256) ::
      (ky / 256 ^ 6 % 256) ::
      (ky / 256 ^ 7 % 256) ::
      (srid % 256) ::
      (srid / 256 % 256) ::
      (srid / 256 ^ 2 % 256) ::
      (srid / 256 ^ 3 % 256) ::
      (w % 256) ::
      (w / 256 % 256) ::
      (h % 256) ::
      (h / 256 % 256) ::
      rest))
      37 kx hkx rfl rfl rfl rfl rfl rfl rfl rfl
    have hrky := read_float64_le (memOf ((1) ::
      (0 % 256) ::
      (0 / 256 % 256) ::
      (nb % 256) ::
      (nb / 256 % 256) ::
      (sx % 256) ::
      (sx / 256 % 256) ::
      (sx / 256 ^ 2 % 256) ::
      (sx / 256 ^ 3 % 256) ::
      (sx / 256 ^ 4 % 256) ::
      (sx / 256 ^ 5 % 256) ::
      (sx / 256 ^ 6 % 256) ::
      (sx / 256 ^ 7 % 256) ::
      (sy % 256) ::
      (sy / 256 % 256) ::
      (sy / 256 ^ 2 % 256) ::
      (sy / 256 ^ 3 % 256) ::
      (sy / 256 ^ 4 % 256) ::
      (sy / 256 ^ 5 % 256) ::
      (sy / 256 ^ 6 % 256) ::
      (sy / 256 ^ 7 % 256) ::
      (ox % 256) ::
      (ox / 256 % 256) ::
      (ox / 256 ^ 2 % 256) ::
      (ox / 256 ^ 3 % 256) ::
      (ox / 256 ^ 4 % 256) ::
      (ox / 256 ^ 5 % 256) ::
      (ox / 256 ^ 6 % 256) ::
      (ox / 256 ^ 7 % 256) ::
      (oy % 256) ::
      (oy / 256 % 256) ::
      (oy / 256 ^ 2 % 256) ::
      (oy / 256 ^ 3 % 256) ::
      (oy / 256 ^ 4 % 256) ::
      (oy / 256 ^ 5 % 256) ::
      (oy / 256 ^ 6 % 256) ::
      (oy / 256 ^ 7 % 256) ::
      (kx % 256) ::
      (kx / 256 % 256) ::
      (kx / 256 ^ 2 % 256) ::
      (kx / 256 ^ 3 % 256) ::
      (kx / 256 ^ 4 % 256) ::
      (kx / 256 ^ 5 % 256) ::
      (kx / 256 ^ 6 % 256) ::
      (kx / 256 ^ 7 % 256) ::
      (ky % 256) ::
      (ky / 256 % 256) ::
      (ky / 256 ^ 2 % 256) ::
      (ky / 256 ^ 3 % 256) ::
      (ky / 256 ^ 4 % 256) ::
      (ky / 256 ^ 5 % 256) ::
      (ky / 256 ^ 6 % 256) ::
      (ky / 256 ^ 7 % 256) ::
      (srid % 256) ::
      (srid / 256 % 256) ::
      (srid / 256 ^ 2 % 256) ::
      (srid / 256 ^ 3 % 256) ::
      (w % 256) ::
      (w / 256 % 256) ::
      (h % 256) ::
      (h / 256 % 256) ::
      rest))
      45 ky hky rfl rfl rfl rfl rfl rfl rfl rfl
    have hrsrid := read_int32_le (memOf ((1) ::
      (0 % 256) ::
      (0 / 256 % 256) ::
      (nb % 256) ::
      (nb / 256 % 256) ::
      (sx % 256) ::
      (sx / 256 % 256) ::
      (sx / 256 ^ 2 % 256) ::
      (sx / 256 ^ 3 % 256) ::
      (sx / 256 ^ 4 % 256) ::
      (sx / 256 ^ 5 % 256) ::
      (sx / 256 ^ 6 % 256) ::
      (sx / 256 ^ 7 % 256) ::
      (sy % 256) ::
      (sy / 256 % 256) ::
      (sy / 256 ^ 2 % 256) ::
      (sy / 256 ^ 3 % 256) ::
      (sy / 256 ^ 4 % 256) ::
      (sy / 256 ^ 5 % 256) ::
      (sy / 256 ^ 6 % 256) ::
      (sy / 256 ^ 7 % 256) ::
      (ox % 256) ::
      (ox / 256 % 256) ::
      (ox / 256 ^ 2 % 256) ::
      (ox / 256 ^ 3 % 256) ::
      (ox / 256 ^ 4 % 256) ::
      (ox / 256 ^ 5 % 256) ::
      (ox / 256 ^ 6 % 256) ::
      (ox / 256 ^ 7 % 256) ::
      (oy % 256) ::
      (oy / 256 % 256) ::
      (oy / 256 ^ 2 % 256) ::
      (oy / 256 ^ 3 % 256) ::
      (oy / 256 ^ 4 % 256) ::
      (oy / 256 ^ 5 % 256) ::
      (oy / 256 ^ 6 % 256) ::
      (oy / 256 ^ 7 % 256) ::
      (kx % 256) ::
      (kx / 256 % 256) ::
      (kx / 256 ^ 2 % 256) ::
      (kx / 256 ^ 3 % 256) ::
      (kx / 256 ^ 4 % 256) ::
      (kx / 256 ^ 5 % 256) ::
      (kx / 256 ^ 6 % 256) ::
      (kx / 256 ^ 7 % 256) ::
      (ky % 256) ::
      (ky / 256 % 256) ::
      (ky / 256 ^ 2 % 256) ::
      (ky / 256 ^ 3 % 256) ::
      (ky / 256 ^ 4 % 256) ::
      (ky / 256 ^ 5 % 256) ::
      (ky / 256 ^ 6 % 256) ::
      (ky / 256 ^ 7 % 256) ::
      (srid % 256) ::
      (srid / 256 % 256) ::
      (srid / 256 ^ 2 % 256) ::
      (srid / 256 ^ 3 % 256) ::
      (w % 256) ::
      (w / 256 % 256) ::
      (h % 256) ::
      (h / 256 % 256) ::
      rest))
      53 srid hsrid rfl rfl rfl rfl
    have hrw := read_uint16_le (memOf ((1) ::
      (0 % 256) ::
      (0 / 256 % 256) ::
      (nb % 256) ::
      (nb / 256 % 256) ::
      (sx % 256) ::
      (sx / 256 % 256) ::
      (sx / 256 ^ 2 % 256) ::
      (sx / 256 ^ 3 % 256) ::
      (sx / 256 ^ 4 % 256) ::
      (sx / 256 ^ 5 % 256) ::
      (sx / 256 ^ 6 % 256) ::
      (sx / 256 ^ 7 % 256) ::
      (sy % 256) ::
      (sy / 256 % 256) ::
      (sy / 256 ^ 2 % 256) ::
      (sy / 256 ^ 3 % 256) ::
      (sy / 256 ^ 4 % 256) ::
      (sy / 256 ^ 5 % 256) ::
      (sy / 256 ^ 6 % 256) ::
      (sy / 256 ^ 7 % 256) ::
      (ox % 256) ::
      (ox / 256 % 256) ::
      (ox / 256 ^ 2 % 256) ::
      (ox / 256 ^ 3 % 256) ::
      (ox / 256 ^ 4 % 256) ::
      (ox / 256 ^ 5 % 256) ::
      (ox / 256 ^ 6 % 256) ::
      (ox / 256 ^ 7 % 256) ::
      (oy % 256) ::
      (oy / 256 % 256) ::
      (oy / 256 ^ 2 % 256) ::
      (oy / 256 ^ 3 % 256) ::
      (oy / 256 ^ 4 % 256) ::
      (oy / 256 ^ 5 % 256) ::
      (oy / 256 ^ 6 % 256) ::
      (oy / 256 ^ 7 % 256) ::
      (kx % 256) ::
      (kx / 256 % 256) ::
      (kx / 256 ^ 2 % 256) ::
      (kx / 256 ^ 3 % 256) ::
      (kx / 256 ^ 4 % 256) ::
      (kx / 256 ^ 5 % 256) ::
      (kx / 256 ^ 6 % 256) ::
      (kx / 256 ^ 7 % 256) ::
      (ky % 256) ::
      (ky / 256 % 256) ::
      (ky / 256 ^ 2 % 256) ::
      (ky / 256 ^ 3 % 256) ::
      (ky / 256 ^ 4 % 256) ::
      (ky / 256 ^ 5 % 256) ::
      (ky / 256 ^ 6 % 256) ::
      (ky / 256 ^ 7 % 256) ::
      (srid % 256) ::
      (srid / 256 % 256) ::
      (srid / 256 ^ 2 % 256) ::
      (srid / 256 ^ 3 % 256) ::
      (w % 256) ::
      (w / 256 % 256) ::
      (h % 256) ::
      (h / 256 % 256) ::
      rest))
      57 w hw rfl rfl
    have hrh := read_uint16_le (memOf ((1) ::
      (0 % 256) ::
      (0 / 256 % 256) ::
      (nb % 256) ::
      (nb / 256 % 256) ::
      (sx % 256) ::
      (sx / 256 % 256) ::
      (sx / 256 ^ 2 % 256) ::
      (sx / 256 ^ 3 % 256) ::
      (sx / 256 ^ 4 % 256) ::
      (sx / 256 ^ 5 % 256) ::
      (sx / 256 ^ 6 % 256) ::
      (sx / 256 ^ 7 % 256) ::
      (sy % 256) ::
      (sy / 256 % 256) ::
      (sy / 256 ^ 2 % 256) ::
      (sy / 256 ^ 3 % 256) ::
      (sy / 256 ^ 4 % 256) ::
      (sy / 256 ^ 5 % 256) ::
      (sy / 256 ^ 6 % 256) ::
      (sy / 256 ^ 7 % 256) ::
      (ox % 256) ::
      (ox / 256 % 256) ::
      (ox / 256 ^ 2 % 256) ::
      (ox / 256 ^ 3 % 256) ::
      (ox / 256 ^ 4 % 256) ::
      (ox / 256 ^ 5 % 256) ::
      (ox / 256 ^ 6 % 256) ::
      (ox / 256 ^ 7 % 256) ::
      (oy % 256) ::
      (oy / 256 % 256) ::
      (oy / 256 ^ 2 % 256) ::
      (oy / 256 ^ 3 % 256) ::
      (oy / 256 ^ 4 % 256) ::
      (oy / 256 ^ 5 % 256) ::
      (oy / 256 ^ 6 % 256) ::
      (oy / 256 ^ 7 % 256) ::
      (kx % 256) ::
      (kx / 256 % 256) ::
      (kx / 256 ^ 2 % 256) ::
      (kx / 256 ^ 3 % 256) ::
      (kx / 256 ^ 4 % 256) ::
      (kx / 256 ^ 5 % 256) ::
      (kx / 256 ^ 6 % 256) ::
      (kx / 256 ^ 7 % 256) ::
      (ky % 256) ::
      (ky / 256 % 256) ::
      (ky / 256 ^ 2 % 256) ::
      (ky / 256 ^ 3 % 256) ::
      (ky / 256 ^ 4 % 256) ::
      (ky / 256 ^ 5 % 256) ::
      (ky / 256 ^ 6 % 256) ::
      (ky / 256 ^ 7 % 256) ::
      (srid % 256) ::
      (srid / 256 % 256) ::
      (srid / 256 ^ 2 % 256) ::
      (srid / 256 ^ 3 % 256) ::
      (w % 256) ::
      (w / 256 % 256) ::
      (h % 256) ::
      (h / 256 % 256) ::
      rest))
      59 h hh rfl rfl
    simp only [get_raster, hle, hrv, hrnb, hrsx, hrsy, hrox, hroy, hrkx, hrky, hrsrid,
      hrw, hrh, hftx, hfty, Bool.or_self, Bool.false_eq_true, if_true, if_false, ne_eq,
      not_true_eq_false, not_false_eq_true, ite_false, ite_true]

theorem memOf_append_right (l1 l2 : List ℕ) (p k : ℕ) (hp : l1.length = p) :
    memOf (l1 ++ l2) (p + k) = memOf l2 k := by
  subst hp
  simp [memOf, List.getD_eq_getElem?_getD, List.getElem?_append_right]

theorem memOf_append_left (l1 l2 : List ℕ) (k : ℕ) (hk : k < l1.length) :
    memOf (l1 ++ l2) k = memOf l1 k := by
  simp [memOf, List.getD_eq_getElem?_getD, List.getElem?_append_left hk]

theorem mkHeader_length (e : Bool) (ver nb sx sy ox oy kx ky srid w h : ℕ) :
    (mkHeader e ver nb sx sy ox oy kx ky srid w h).length = 61 := by
  cases e <;> simp [mkHeader, putU16, putU32, putU64]

theorem memOf_mkHeader_add (e : Bool) (ver nb sx sy ox oy kx ky srid w h : ℕ)
    (rest : List ℕ) (k : ℕ) :
    memOf (mkHeader e ver nb sx sy ox oy kx ky srid w h ++ rest) (61 + k) = memOf rest k :=
  memOf_append_right _ _ _ _ (mkHeader_length e ver nb sx sy ox oy kx ky srid w h)

theorem getD_lt_256 (l : List ℕ) (k : ℕ) (hk : k < l.length) (hb : ∀ b ∈ l, b < 256) :
    l.getD k 0 % 256 = l.getD k 0 := by
  apply Nat.mod_eq_of_lt
  have : l.getD k 0 = l[k] := by
    simp [List.getD_eq_getElem?_getD, List.getElem?_eq_getElem hk]
  rw [this]
  exact hb _ (List.getElem_mem hk)

/-- Decoding a serialized 1-band raster whose single band is in-database
with a supported pixel type: the result is a raster carrying the extent
computed from the header doubles and the grayscale-replicated payload, with
the cursor just past the last payload byte. -/
theorem get_raster_mkWkb1 (e : Bool) (sx sy ox oy kx ky srid w h tag nodata : ℕ)
    (payload : List ℕ) (hsx : sx < 2 ^ 64) (hsy : sy < 2 ^ 64)
    (hox : ox < 2 ^ 64) (hoy : oy < 2 ^ 64) (hkx : kx < 2 ^ 64) (hky : ky < 2 ^ 64)
    (hsrid : srid < 2 ^ 32) (hw : w < 2 ^ 16) (hh : h < 2 ^ 16)
    (hkxz : kx % 2 ^ 63 = 0) (hkyz : ky % 2 ^ 63 = 0) (htag : tag < 256)
    (hoff : ¬ BANDTYPE_IS_OFFDB tag)
    (hpix : ¬ (BANDTYPE_PIXTYPE tag > 4 ∨ BANDTYPE_PIXTYPE tag < 3))
    (hlen : payload.length = w * h) (hbytes : ∀ b ∈ payload, b < 256) :
    get_raster (memOf (mkWkb1 e sx sy ox oy kx ky srid w h tag nodata payload)) =
      (some ⟨box2dMk (f64ToRat ox) (f64ToRat oy)
          (f64ToRat ox + (w : ℚ) * f64ToRat sx) (f64ToRat oy + (h : ℚ) * f64ToRat sy),
        w, h, grayImg payload w h, true⟩,
       63 + w * h) := by
  have hassoc : mkWkb1 e sx sy ox oy kx ky srid w h tag nodata payload =
      mkHeader e 0 1 sx sy ox oy kx ky srid w h ++ ([tag, nodata] ++ payload) := by
    simp [mkWkb1, List.append_assoc]
  rw [hassoc]
  rw [get_raster_mkHeader e 1 sx sy ox oy kx ky srid w h ([tag, nodata] ++ payload)
    (by omega) hsx hsy hox hoy hkx hky hsrid hw hh hkxz hkyz]
  rw [if_pos rfl]
  have htagbyte : memOf (mkHeader e 0 1 sx sy ox oy kx ky srid w h ++
      ([tag, nodata] ++ payload)) 61 % 256 = tag := by
    have h0 : memOf (mkHeader e 0 1 sx sy ox oy kx ky srid w h ++
        ([tag, nodata] ++ payload)) (61 + 0) = memOf ([tag, nodata] ++ payload) 0 :=
      memOf_mkHeader_add e 0 1 sx sy ox oy kx ky srid w h _ 0
    rw [show (61 : ℕ) = 61 + 0 by omega, h0]
    show tag % 256 = tag
    exact Nat.mod_eq_of_lt htag
  have hgray := read_grayscale_supported
    (memOf (mkHeader e 0 1 sx sy ox oy kx ky srid w h ++ ([tag, nodata] ++ payload)))
    w h 61 (by rw [htagbyte]; exact hoff) (by rw [htagbyte]; exact hpix)
  rw [hgray]
  simp only
  rw [Prod.ext_iff]
  refine ⟨?_, by omega⟩
  simp only [Option.some.injEq, raster.mk.injEq]
  refine ⟨trivial, trivial, trivial, ?_, trivial⟩
  simp only [grayImg]
  apply List.map_congr_left
  intro k hk
  have hklt : k < w * h * 4 := List.mem_range.mp hk
  by_cases hc : k % 4 = 3
  · rw [if_pos hc, if_pos hc]
  · rw [if_neg hc, if_neg hc]
    have hq : k / 4 < w * h := by omega
    have hbyte : memOf (mkHeader e 0 1 sx sy ox oy kx ky srid w h ++
        ([tag, nodata] ++ payload)) (61 + 2 + k / 4) = payload.getD (k / 4) 0 := by
      rw [show 61 + 2 + k / 4 = 61 + (2 + k / 4) by omega]
      rw [memOf_mkHeader_add e 0 1 sx sy ox oy kx ky srid w h _ (2 + k / 4)]
      rw [memOf_append_right [tag, nodata] payload 2 (k / 4) (by simp)]
      rfl
    rw [hbyte]
    exact getD_lt_256 payload (k / 4) (by omega) hbytes

/-- Decoding a serialized 3-band raster with all bands in-database and of
supported pixel type: each channel holds its band's payload, alpha stays
255, and the cursor ends just past band 2's payload. -/
theorem get_raster_mkWkb3 (e : Bool) (sx sy ox oy kx ky srid w h : ℕ)
    (t0 n0 : ℕ) (p0 : List ℕ) (t1 n1 : ℕ) (p1 : List ℕ) (t2 n2 : ℕ) (p2 : List ℕ)
    (hsx : sx < 2 ^ 64) (hsy : sy < 2 ^ 64)
    (hox : ox < 2 ^ 64) (hoy : oy < 2 ^ 64) (hkx : kx < 2 ^ 64) (hky : ky < 2 ^ 64)
    (hsrid : srid < 2 ^ 32) (hw : w < 2 ^ 16) (hh : h < 2 ^ 16)
    (hkxz : kx % 2 ^ 63 = 0) (hkyz : ky % 2 ^ 63 = 0)
    (ht0 : t0 < 256) (ht1 : t1 < 256) (ht2 : t2 < 256)
    (hoff0 : ¬ BANDTYPE_IS_OFFDB t0)
    (hpix0 : ¬ (BANDTYPE_PIXTYPE t0 > 4 ∨ BANDTYPE_PIXTYPE t0 < 3))
    (hoff1 : ¬ BANDTYPE_IS_OFFDB t1)
    (hpix1 : ¬ (BANDTYPE_PIXTYPE t1 > 4 ∨ BANDTYPE_PIXTYPE t1 < 3))
    (hoff2 : ¬ BANDTYPE_IS_OFFDB t2)
    (hpix2 : ¬ (BANDTYPE_PIXTYPE t2 > 4 ∨ BANDTYPE_PIXTYPE t2 < 3))
    (hlen0 : p0.length = w * h) (hlen1 : p1.length = w * h) (hlen2 : p2.length = w * h)
    (hby0 : ∀ b ∈ p0, b < 256) (hby1 : ∀ b ∈ p1, b < 256) (hby2 : ∀ b ∈ p2, b < 256) :
    get_raster (memOf (mkWkb3 e sx sy ox oy kx ky srid w h t0 n0 p0 t1 n1 p1 t2 n2 p2)) =
      (some ⟨box2dMk (f64ToRat ox) (f64ToRat oy)
          (f64ToRat ox + (w : ℚ) * f64ToRat sx) (f64ToRat oy + (h : ℚ) * f64ToRat sy),
        w, h, rgbImg p0 p1 p2 w h, true⟩,
       67 + 3 * (w * h)) := by
  have hassoc : mkWkb3 e sx sy ox oy kx ky srid w h t0 n0 p0 t1 n1 p1 t2 n2 p2 =
      mkHeader e 0 3 sx sy ox oy kx ky srid w h ++
        ([t0, n0] ++ (p0 ++ ([t1, n1] ++ (p1 ++ ([t2, n2] ++ p2))))) := by
    simp [mkWkb3, List.append_assoc]
  rw [hassoc]
  rw [get_raster_mkHeader e 3 sx sy ox oy kx ky srid w h _
    (by omega) hsx hsy hox hoy hkx hky hsrid hw hh hkxz hkyz]
  rw [if_neg (by omega), if_pos rfl]
  -- byte facts about the band section
  have hb0 : memOf ([t0, n0] ++ (p0 ++ ([t1, n1] ++ (p1 ++ ([t2, n2] ++ p2))))) 0 = t0 := rfl
  have htag0 : memOf (mkHeader e 0 3 sx sy ox oy kx ky srid w h ++
      ([t0, n0] ++ (p0 ++ ([t1, n1] ++ (p1 ++ ([t2, n2] ++ p2)))))) 61 % 256 = t0 := by
    rw [show (61 : ℕ) = 61 + 0 by omega, memOf_mkHeader_add, hb0]
    exact Nat.mod_eq_of_lt ht0
  have hb1 : memOf ([t0, n0] ++ (p0 ++ ([t1, n1] ++ (p1 ++ ([t2, n2] ++ p2)))))
      (2 + w * h) = t1 := by
    rw [memOf_append_right [t0, n0] _ 2 (w * h) (by simp)]
    have e2 := memOf_append_right p0 ([t1, n1] ++ (p1 ++ ([t2, n2] ++ p2))) (w * h) 0 hlen0
    simp only [Nat.add_zero] at e2
    rw [e2]
    rfl
  have htag1 : memOf (mkHeader e 0 3 sx sy ox oy kx ky srid w h ++
      ([t0, n0] ++ (p0 ++ ([t1, n1] ++ (p1 ++ ([t2, n2] ++ p2))))))
      (61 + (2 + w * h)) % 256 = t1 := by
    rw [memOf_mkHeader_add, hb1]
    exact Nat.mod_eq_of_lt ht1
  have hb2 : memOf ([t0, n0] ++ (p0 ++ ([t1, n1] ++ (p1 ++ ([t2, n2] ++ p2)))))
      (2 + (w * h + (2 + w * h))) = t2 := by
    rw [memOf_append_right [t0, n0] _ 2 (w * h + (2 + w * h)) (by simp)]
    rw [show w * h + (2 + w * h) = p0.length + (2 + w * h) by omega]
    rw [memOf_append_right p0 _ p0.length (2 + w * h) rfl]
    rw [memOf_append_right [t1, n1] _ 2 (w * h) (by simp)]
    have e2 := memOf_append_right p1 ([t2, n2] ++ p2) (w * h) 0 hlen1
    simp only [Nat.add_zero] at e2
    rw [e2]
    rfl
  have htag2 : memOf (mkHeader e 0 3 sx sy ox oy kx ky srid w h ++
      ([t0, n0] ++ (p0 ++ ([t1, n1] ++ (p1 ++ ([t2, n2] ++ p2))))))
      (61 + (2 + w * h) + (2 + w * h)) % 256 = t2 := by
    rw [show 61 + (2 + w * h) + (2 + w * h) = 61 + (2 + (w * h + (2 + w * h))) by omega]
    rw [memOf_mkHeader_add, hb2]
    exact Nat.mod_eq_of_lt ht2
  have hrgb := read_rgb_supported (memOf (mkHeader e 0 3 sx sy ox oy kx ky srid w h ++
      ([t0, n0] ++ (p0 ++ ([t1, n1] ++ (p1 ++ ([t2, n2] ++ p2))))))) w h 61
    (by rw [htag0]; exact hoff0) (by rw [htag0]; exact hpix0)
    (by rw [htag1]; exact hoff1) (by rw [htag1]; exact hpix1)
    (by rw [htag2]; exact hoff2) (by rw [htag2]; exact hpix2)
  rw [hrgb]
  simp only
  rw [Prod.ext_iff]
  refine ⟨?_, by omega⟩
  simp only [Option.some.injEq, raster.mk.injEq]
  refine ⟨trivial, trivial, trivial, ?_, trivial⟩
  simp only [rgbImg]
  apply List.map_congr_left
  intro k hk
  have hklt : k < w * h * 4 := List.mem_range.mp hk
  have hq : k / 4 < w * h := by omega
  by_cases hc0 : k % 4 = 0
  · rw [if_neg (by omega), if_pos hc0, hc0]
    rw [show 61 + 0 * (2 + w * h) + 2 + k / 4 = 61 + (2 + k / 4) by ring_nf]
    rw [memOf_mkHeader_add]
    rw [memOf_append_right [t0, n0] _ 2 (k / 4) (by simp)]
    rw [memOf_append_left p0 _ (k / 4) (by omega)]
    show p0.getD (k / 4) 0 % 256 = p0.getD (k / 4) 0
    exact getD_lt_256 p0 (k / 4) (by omega) hby0
  · by_cases hc1 : k % 4 = 1
    · rw [if_neg (by omega), if_neg hc0, if_pos hc1, hc1]
      rw [show 61 + 1 * (2 + w * h) + 2 + k / 4 = 61 + (2 + (w * h + (2 + k / 4))) by ring_nf]
      rw [memOf_mkHeader_add]
      rw [memOf_append_right [t0, n0] _ 2 (w * h + (2 + k / 4)) (by simp)]
      rw [show w * h + (2 + k / 4) = p0.length + (2 + k / 4) by omega]
      rw [memOf_append_right p0 _ p0.length (2 + k / 4) rfl]
      rw [memOf_append_right [t1, n1] _ 2 (k / 4) (by simp)]
      rw [memOf_append_left p1 _ (k / 4) (by omega)]
      show p1.getD (k / 4) 0 % 256 = p1.getD (k / 4) 0
      exact getD_lt_256 p1 (k / 4) (by omega) hby1
    · by_cases hc2 : k % 4 = 2
      · rw [if_neg (by omega), if_neg hc0, if_neg hc1, if_pos hc2, hc2]
        rw [show 61 + 2 * (2 + w * h) + 2 + k / 4 =
            61 + (2 + (w * h + (2 + (w * h + (2 + k / 4))))) by ring_nf]
        rw [memOf_mkHeader_add]
        rw [memOf_append_right [t0, n0] _ 2 (w * h + (2 + (w * h + (2 + k / 4)))) (by simp)]
        rw [show w * h + (2 + (w * h + (2 + k / 4))) =
            p0.length + (2 + (w * h + (2 + k / 4))) by omega]
        rw [memOf_append_right p0 _ p0.length (2 + (w * h + (2 + k / 4))) rfl]
        rw [memOf_append_right [t1, n1] _ 2 (w * h + (2 + k / 4)) (by simp)]
        rw [show w * h + (2 + k / 4) = p1.length + (2 + k / 4) by omega]
        rw [memOf_append_right p1 _ p1.length (2 + k / 4) rfl]
        rw [memOf_append_right [t2, n2] _ 2 (k / 4) (by simp)]
        show p2.getD (k / 4) 0 % 256 = p2.getD (k / 4) 0
        exact getD_lt_256 p2 (k / 4) (by omega) hby2
      · have hc3 : k % 4 = 3 := by omega
        rw [if_pos hc3, if_neg hc0, if_neg hc1, if_neg hc2]

/-! ## The decoder reads only the bytes at or after its cursor -/

theorem read_uint16_congr (mem mem' : ℕ → ℕ) (le : Bool) (pos : ℕ)
    (h0 : mem pos = mem' pos) (h1 : mem (pos + 1) = mem' (pos + 1)) :
    read_uint16 mem le pos = read_uint16 mem' le pos := by
  simp [read_uint16, h0, h1]

theorem read_float64_congr (mem mem' : ℕ → ℕ) (le : Bool) (pos : ℕ)
    (h0 : mem pos = mem' pos) (h1 : mem (pos + 1) = mem' (pos + 1))
    (h2 : mem (pos + 2) = mem' (pos + 2)) (h3 : mem (pos + 3) = mem' (pos + 3))
    (h4 : mem (pos + 4) = mem' (pos + 4)) (h5 : mem (pos + 5) = mem' (pos + 5))
    (h6 : mem (pos + 6) = mem' (pos + 6)) (h7 : mem (pos + 7) = mem' (pos + 7)) :
    read_float64 mem le pos = read_float64 mem' le pos := by
  simp [read_float64, h0, h1, h2, h3, h4, h5, h6, h7]

theorem grayCols_congr (mem mem' : ℕ → ℕ) (width y : ℕ) :
    ∀ (fuel x : ℕ) (img : List ℕ) (pos : ℕ),
      (∀ q, pos ≤ q → mem q = mem' q) →
      grayCols mem width y fuel x img pos = grayCols mem' width y fuel x img pos := by
  intro fuel
  induction fuel with
  | zero => intro x img pos _; simp [grayCols]
  | succ f ih =>
    intro x img pos hagree
    rw [grayCols, grayCols]
    rw [show (read_uint8 mem pos).1 = (read_uint8 mem' pos).1 by
      simp [read_uint8, hagree pos (Nat.le_refl pos)]]
    exact ih (x + 1) _ (pos + 1) (fun q hq => hagree q (by omega))

theorem grayRows_congr (mem mem' : ℕ → ℕ) (width : ℕ) :
    ∀ (fuel y : ℕ) (img : List ℕ) (pos : ℕ),
      (∀ q, pos ≤ q → mem q = mem' q) →
      grayRows mem width fuel y img pos = grayRows mem' width fuel y img pos := by
  intro fuel
  induction fuel with
  | zero => intro y img pos _; simp [grayRows]
  | succ f ih =>
    intro y img pos hagree
    rw [grayRows, grayRows]
    rw [grayCols_congr mem mem' width y width 0 img pos hagree]
    apply ih (y + 1)
    intro q hq
    apply hagree
    have := grayCols_snd mem' width y width 0 img pos
    omega

theorem read_grayscale_congr (mem mem' : ℕ → ℕ) (w h pos : ℕ)
    (hagree : ∀ q, pos ≤ q → mem q = mem' q) :
    read_grayscale mem w h pos = read_grayscale mem' w h pos := by
  rw [read_grayscale, read_grayscale]
  simp only [read_uint8]
  rw [show mem pos % 256 = mem' pos % 256 by rw [hagree pos (Nat.le_refl pos)]]
  by_cases hoff : BANDTYPE_IS_OFFDB (mem' pos % 256)
  · rw [if_pos hoff, if_pos hoff]
  · rw [if_neg hoff, if_neg hoff]
    by_cases hpix : BANDTYPE_PIXTYPE (mem' pos % 256) > 4 ∨ BANDTYPE_PIXTYPE (mem' pos % 256) < 3
    · rw [if_pos hpix, if_pos hpix]
    · rw [if_neg hpix, if_neg hpix]
      exact grayRows_congr mem mem' w h 0 _ (pos + 1 + 1) (fun q hq => hagree q (by omega))

theorem rgbCols_congr (mem mem' : ℕ → ℕ) (width y bn : ℕ) :
    ∀ (fuel x : ℕ) (img : List ℕ) (pos : ℕ),
      (∀ q, pos ≤ q → mem q = mem' q) →
      rgbCols mem width y bn fuel x img pos = rgbCols mem' width y bn fuel x img pos := by
  intro fuel
  induction fuel with
  | zero => intro x img pos _; simp [rgbCols]
  | succ f ih =>
    intro x img pos hagree
    rw [rgbCols, rgbCols]
    rw [show (read_uint8 mem pos).1 = (read_uint8 mem' pos).1 by
      simp [read_uint8, hagree pos (Nat.le_refl pos)]]
    exact ih (x + 1) _ (pos + 1) (fun q hq => hagree q (by omega))

theorem rgbRows_congr (mem mem' : ℕ → ℕ) (width bn : ℕ) :
    ∀ (fuel y : ℕ) (img : List ℕ) (pos : ℕ),
      (∀ q, pos ≤ q → mem q = mem' q) →
      rgbRows mem width bn fuel y img pos = rgbRows mem' width bn fuel y img pos := by
  intro fuel
  induction fuel with
  | zero => intro y img pos _; simp [rgbRows]
  | succ f ih =>
    intro y img pos hagree
    rw [rgbRows, rgbRows]
    rw [rgbCols_congr mem mem' width y bn width 0 img pos hagree]
    apply ih (y + 1)
    intro q hq
    apply hagree
    have := rgbCols_snd mem' width y bn width 0 img pos
    omega

theorem rgbBandStep_congr (mem mem' : ℕ → ℕ) (w h bn : ℕ) (img : List ℕ) (pos : ℕ)
    (nv : Option ℕ) (hagree : ∀ q, pos ≤ q → mem q = mem' q) :
    rgbBandStep mem w h bn img pos nv = rgbBandStep mem' w h bn img pos nv := by
  rw [rgbBandStep, rgbBandStep]
  simp only [read_uint8]
  rw [show mem pos % 256 = mem' pos % 256 by rw [hagree pos (Nat.le_refl pos)]]
  by_cases hoff : BANDTYPE_IS_OFFDB (mem' pos % 256)
  · rw [if_pos hoff, if_pos hoff]
  · rw [if_neg hoff, if_neg hoff]
    by_cases hpix : BANDTYPE_PIXTYPE (mem' pos % 256) > 4 ∨ BANDTYPE_PIXTYPE (mem' pos % 256) < 3
    · rw [if_pos hpix, if_pos hpix]
    · rw [if_neg hpix, if_neg hpix]
      rw [show mem (pos + 1) % 256 = mem' (pos + 1) % 256 by rw [hagree (pos + 1) (by omega)]]
      rw [rgbRows_congr mem mem' w bn h 0 img (pos + 1 + 1) (fun q hq => hagree q (by omega))]

theorem rgbBandStep_pos_ge (mem : ℕ → ℕ) (w h bn : ℕ) (img : List ℕ) (pos : ℕ)
    (nv : Option ℕ) : pos ≤ (rgbBandStep mem w h bn img pos nv).2.1 := by
  rw [rgbBandStep]
  simp only [read_uint8]
  by_cases hoff : BANDTYPE_IS_OFFDB (mem pos % 256)
  · rw [if_pos hoff]
    show pos ≤ pos + 1
    omega
  · rw [if_neg hoff]
    by_cases hpix : BANDTYPE_PIXTYPE (mem pos % 256) > 4 ∨ BANDTYPE_PIXTYPE (mem pos % 256) < 3
    · rw [if_pos hpix]
      show pos ≤ pos + 1
      omega
    · rw [if_neg hpix]
      simp only
      rw [rgbRows_snd]
      omega

theorem rgbBands_congr (mem mem' : ℕ → ℕ) (w h : ℕ) :
    ∀ (fuel bn : ℕ) (st : List ℕ × ℕ × Option ℕ),
      (∀ q, st.2.1 ≤ q → mem q = mem' q) →
      rgbBands mem w h fuel bn st = rgbBands mem' w h fuel bn st := by
  intro fuel
  induction fuel with
  | zero => intro bn st _; simp [rgbBands]
  | succ f ih =>
    intro bn st hagree
    rw [rgbBands, rgbBands]
    rw [rgbBandStep_congr mem mem' w h bn st.1 st.2.1 st.2.2 hagree]
    apply ih (bn + 1)
    intro q hq
    apply hagree
    have := rgbBandStep_pos_ge mem' w h bn st.1 st.2.1 st.2.2
    omega

theorem read_rgb_congr (mem mem' : ℕ → ℕ) (w h nb pos : ℕ)
    (hagree : ∀ q, pos ≤ q → mem q = mem' q) :
    read_rgb mem w h nb pos = read_rgb mem' w h nb pos := by
  rw [read_rgb, read_rgb]
  rw [rgbBands_congr mem mem' w h nb 0 (List.replicate (w * h * 4) 255, pos, none) hagree]

/-! ## Skipped 1-band decode -/

theorem read_grayscale_skipped (mem : ℕ → ℕ) (w h pos : ℕ)
    (hskip : BANDTYPE_IS_OFFDB (mem pos % 256) ∨
      (BANDTYPE_PIXTYPE (mem pos % 256) > 4 ∨ BANDTYPE_PIXTYPE (mem pos % 256) < 3)) :
    read_grayscale mem w h pos = (List.replicate (w * h * 4) 255, pos + 1) := by
  rw [read_grayscale]
  simp only [read_uint8]
  rcases hskip with hoff | hpix
  · rw [if_pos hoff]
  · by_cases hoff : BANDTYPE_IS_OFFDB (mem pos % 256)
    · rw [if_pos hoff]
    · rw [if_neg hoff, if_pos hpix]

/-- A serialized 1-band raster whose band is skipped (off-database or
unsupported pixel type): the decoder still returns a raster, with the
buffer left all-white and the cursor right after the tag byte. -/
theorem get_raster_mkWkb1_skipped (e : Bool) (sx sy ox oy kx ky srid w h tag nodata : ℕ)
    (payload : List ℕ) (hsx : sx < 2 ^ 64) (hsy : sy < 2 ^ 64)
    (hox : ox < 2 ^ 64) (hoy : oy < 2 ^ 64) (hkx : kx < 2 ^ 64) (hky : ky < 2 ^ 64)
    (hsrid : srid < 2 ^ 32) (hw : w < 2 ^ 16) (hh : h < 2 ^ 16)
    (hkxz : kx % 2 ^ 63 = 0) (hkyz : ky % 2 ^ 63 = 0) (htag : tag < 256)
    (hskip : BANDTYPE_IS_OFFDB tag ∨
      (BANDTYPE_PIXTYPE tag > 4 ∨ BANDTYPE_PIXTYPE tag < 3)) :
    get_raster (memOf (mkWkb1 e sx sy ox oy kx ky srid w h tag nodata payload)) =
      (some ⟨box2dMk (f64ToRat ox) (f64ToRat oy)
          (f64ToRat ox + (w : ℚ) * f64ToRat sx) (f64ToRat oy + (h : ℚ) * f64ToRat sy),
        w, h, List.replicate (w * h * 4) 255, true⟩,
       62) := by
  have hassoc : mkWkb1 e sx sy ox oy kx ky srid w h tag nodata payload =
      mkHeader e 0 1 sx sy ox oy kx ky srid w h ++ ([tag, nodata] ++ payload) := by
    simp [mkWkb1, List.append_assoc]
  rw [hassoc]
  rw [get_raster_mkHeader e 1 sx sy ox oy kx ky srid w h ([tag, nodata] ++ payload)
    (by omega) hsx hsy hox hoy hkx hky hsrid hw hh hkxz hkyz]
  rw [if_pos rfl]
  have htagbyte : memOf (mkHeader e 0 1 sx sy ox oy kx ky srid w h ++
      ([tag, nodata] ++ payload)) 61 % 256 = tag := by
    have h0 : memOf (mkHeader e 0 1 sx sy ox oy kx ky srid w h ++
        ([tag, nodata] ++ payload)) (61 + 0) = memOf ([tag, nodata] ++ payload) 0 :=
      memOf_mkHeader_add e 0 1 sx sy ox oy kx ky srid w h _ 0
    rw [show (61 : ℕ) = 61 + 0 by omega, h0]
    show tag % 256 = tag
    exact Nat.mod_eq_of_lt htag
  rw [read_grayscale_skipped _ w h 61 (by rw [htagbyte]; exact hskip)]

/-! ## Pixel lookups in the expected images -/

theorem getD_map_range (n : ℕ) (f : ℕ → ℕ) (i : ℕ) (h : i < n) :
    ((List.range n).map f).getD i 0 = f i := by
  simp [List.getD_eq_getElem?_getD, List.getElem?_map, List.getElem?_range h]

theorem grayImg_getD (payload : List ℕ) (w h row col ch : ℕ)
    (hrow : row < h) (hcol : col < w) (hch : ch < 4) :
    (grayImg payload w h).getD (row * w * 4 + col * 4 + ch) 0 =
      if ch = 3 then 255 else payload.getD (row * w + col) 0 := by
  have hi : row * w * 4 + col * 4 + ch < w * h * 4 := by nlinarith
  simp only [grayImg]
  rw [getD_map_range _ _ _ hi]
  have h4 : (row * w * 4 + col * 4 + ch) % 4 = ch := by omega
  have h5 : (row * w * 4 + col * 4 + ch) / 4 = row * w + col := by omega
  rw [h4, h5]

theorem rgbImg_getD (p0 p1 p2 : List ℕ) (w h row col ch : ℕ)
    (hrow : row < h) (hcol : col < w) (hch : ch < 4) :
    (rgbImg p0 p1 p2 w h).getD (row * w * 4 + col * 4 + ch) 0 =
      (if ch = 0 then p0.getD (row * w + col) 0
       else if ch = 1 then p1.getD (row * w + col) 0
       else if ch = 2 then p2.getD (row * w + col) 0
       else 255) := by
  have hi : row * w * 4 + col * 4 + ch < w * h * 4 := by nlinarith
  simp only [rgbImg]
  rw [getD_map_range _ _ _ hi]
  have h4 : (row * w * 4 + col * 4 + ch) % 4 = ch := by omega
  have h5 : (row * w * 4 + col * 4 + ch) / 4 = row * w + col := by omega
  rw [h4, h5]

/-! ## Claims -/

/-- Claim C1: the spec demands that a read past the end of the buffer fail
with UnexpectedEndOfInput, aborting the decode with no raster.  The code
has no bounds information at all: on the 63-byte truncated input `c1buf`
(header and band header present, pixel byte missing) it still returns a
raster, its final cursor is 64 — one byte past the end — and the decoded
pixel equals whatever byte sits beyond the buffer (0 under the zero-padded
memory, 77 when the out-of-buffer byte is 77). -/
theorem C1_truncated_buffer_read_past_end :
    c1buf.length = 63 ∧
    (c1buf ++ [77]).take 63 = c1buf ∧
    (get_raster (memOf c1buf)).1.map raster.data = some [0, 0, 0, 255] ∧
    (get_raster (memOf (c1buf ++ [77]))).1.map raster.data = some [77, 77, 77, 255] ∧
    (get_raster (memOf c1buf)).2 = 64 := by
  decide

/-- Claim C3 counterexample: for a band tag with the off-database bit set
(0x80 at cursor 0), both band paths leave the cursor at 1 — right after the
one-byte tag — not at 2 as the claim ("right after its 2-byte tag+nodata
header") states: the nodata byte is not consumed for a skipped band. -/
theorem C3_counterexample :
    (read_grayscale (memOf [128, 9, 9]) 1 1 0).2 = 1 ∧
    (rgbBandStep (memOf [128, 9, 9]) 1 1 0 (List.replicate 4 255) 0 none).2.1 = 1 ∧
    ¬ ((read_grayscale (memOf [128, 9, 9]) 1 1 0).2 = 2) ∧
    ¬ ((rgbBandStep (memOf [128, 9, 9]) 1 1 0 (List.replicate 4 255) 0 none).2.1 = 2) := by
  decide

/-- Claim C3 (amended): a band whose tag byte has the off-database bit set
consumes zero payload bytes — in the grayscale path the buffer is returned
in its initialized state, in the RGB path the accumulated image is
unchanged — and the cursor ends immediately after the 1-byte tag (the
nodata byte is not consumed for skipped bands). -/
theorem C3_amended_offdb_consumes_only_tag (mem : ℕ → ℕ) (w h pos bn : ℕ)
    (img : List ℕ) (nv : Option ℕ) (hoff : BANDTYPE_IS_OFFDB (mem pos % 256)) :
    read_grayscale mem w h pos = (List.replicate (w * h * 4) 255, pos + 1) ∧
    rgbBandStep mem w h bn img pos nv = (img, pos + 1, nv) :=
  ⟨read_grayscale_skipped mem w h pos (Or.inl hoff),
   rgbBandStep_skipped mem w h bn img pos nv (Or.inl hoff)⟩

theorem C3_witness :
    BANDTYPE_IS_OFFDB (memOf [128, 0] 0 % 256) = true ∧
    read_grayscale (memOf [128, 0]) 1 1 0 = (List.replicate (1 * 1 * 4) 255, 0 + 1) ∧
    rgbBandStep (memOf [128, 0]) 1 1 0 [9, 9, 9, 9] 0 none = ([9, 9, 9, 9], 0 + 1, none) :=
  ⟨by decide,
   (C3_amended_offdb_consumes_only_tag (memOf [128, 0]) 1 1 0 0 [9, 9, 9, 9] none (by decide)).1,
   (C3_amended_offdb_consumes_only_tag (memOf [128, 0]) 1 1 0 0 [9, 9, 9, 9] none (by decide)).2⟩

/-- Claim C7: any input whose 2-byte version field decodes to a nonzero
value is rejected: no raster is returned and the final cursor is 3, i.e.
nothing after the version field is read, so the outcome does not depend on
any later byte. -/
theorem C7_nonzero_version_rejected (mem : ℕ → ℕ)
    (hv : (read_uint16 mem ((mem 0 % 256) != 0) 1).1 ≠ 0) :
    get_raster mem = (none, 3) := by
  simp only [get_raster]
  rw [if_pos hv]
  rfl

theorem C7_witness :
    (read_uint16 (memOf [0, 0, 7]) ((memOf [0, 0, 7] 0 % 256) != 0) 1).1 ≠ 0 ∧
    get_raster (memOf [0, 0, 7]) = (none, 3) :=
  ⟨by decide, C7_nonzero_version_rejected (memOf [0, 0, 7]) (by decide)⟩

/-- Claim C8: when the header parses (version 0, both skew doubles with a
±0 bit pattern) but the band count is neither 1 nor 3, the decoder returns
no raster and the cursor stays at 61 — the end of the header — so no band
header or pixel byte affects the outcome. -/
theorem C8_unsupported_band_count (mem : ℕ → ℕ)
    (hv : (read_uint16 mem ((mem 0 % 256) != 0) 1).1 = 0)
    (hkx : f64Truthy (read_float64 mem ((mem 0 % 256) != 0) 37).1 = false)
    (hky : f64Truthy (read_float64 mem ((mem 0 % 256) != 0) 45).1 = false)
    (hnb1 : (read_uint16 mem ((mem 0 % 256) != 0) 3).1 ≠ 1)
    (hnb3 : (read_uint16 mem ((mem 0 % 256) != 0) 3).1 ≠ 3) :
    get_raster mem = (none, 61) := by
  simp only [get_raster, read_uint16_snd, read_float64_snd, read_int32_snd, Nat.reduceAdd]
  rw [if_neg (by simp [hv]), hkx, hky]
  simp only [Bool.or_self, Bool.false_eq_true, if_false]
  rw [if_neg hnb1, if_neg hnb3]

theorem C8_witness :
    (read_uint16 (memOf (mkHeader false 0 2 0 0 0 0 0 0 0 2 1 ++ [4, 0, 10, 20]))
      ((memOf (mkHeader false 0 2 0 0 0 0 0 0 0 2 1 ++ [4, 0, 10, 20]) 0 % 256) != 0) 3).1 ≠ 1 ∧
    get_raster (memOf (mkHeader false 0 2 0 0 0 0 0 0 0 2 1 ++ [4, 0, 10, 20])) = (none, 61) :=
  ⟨by decide,
   C8_unsupported_band_count (memOf (mkHeader false 0 2 0 0 0 0 0 0 0 2 1 ++ [4, 0, 10, 20]))
     (by decide) (by decide) (by decide) (by decide) (by decide)⟩

/-- Claim C2 counterexample: decoding the header with scaleX=2.0,
scaleY=-2.0, originX=0.0, originY=100.0, width=10, height=5 yields an
extent whose lower-Y bound is 90 = min(100, 100 + 5·(−2)), not 0: the
claim's concrete extent [0,0]–[20,100] does not match the decoder. -/
theorem C2_counterexample :
    (get_raster (memOf c2input)).1.map (fun r => r.ext.miny) = some 90 ∧
    ¬ ((90 : ℚ) = 0) := by
  have h := get_raster_mkWkb1 false f64two f64negtwo 0 f64hundred 0 0 0 10 5 4 0
    (List.replicate 50 0)
    (by norm_num [f64two]) (by norm_num [f64negtwo]) (by norm_num) (by norm_num [f64hundred])
    (by norm_num) (by norm_num) (by norm_num) (by norm_num) (by norm_num)
    (by norm_num) (by norm_num) (by norm_num) (by decide) (by decide)
    (by simp) (fun b hb => by rw [List.eq_of_mem_replicate hb]; omega)
  have hv0 : f64ToRat 0 = 0 := by norm_num [f64ToRat]
  have hv2 : f64ToRat f64two = 2 := by rw [f64two]; norm_num [f64ToRat]
  have hvm2 : f64ToRat f64negtwo = -2 := by rw [f64negtwo]; norm_num [f64ToRat]
  have hv100 : f64ToRat f64hundred = 100 := by rw [f64hundred]; norm_num [f64ToRat]
  rw [show c2input = mkWkb1 false f64two f64negtwo 0 f64hundred 0 0 0 10 5 4 0
      (List.replicate 50 0) from rfl, h]
  refine ⟨?_, by norm_num⟩
  simp only [Option.map_some']
  rw [hv0, hv2, hvm2, hv100]
  norm_num [box2dMk, min_def, max_def]

/-- Claim C2 (amended): the same header decodes to the extent
[0,90]–[20,100]: the bounds are min(originY, originY+height·scaleY) = 90 to
max = 100 in Y, and 0 to 20 in X. -/
theorem C2_amended_extent :
    (get_raster (memOf c2input)).1.map raster.ext = some ⟨0, 90, 20, 100⟩ := by
  have h := get_raster_mkWkb1 false f64two f64negtwo 0 f64hundred 0 0 0 10 5 4 0
    (List.replicate 50 0)
    (by norm_num [f64two]) (by norm_num [f64negtwo]) (by norm_num) (by norm_num [f64hundred])
    (by norm_num) (by norm_num) (by norm_num) (by norm_num) (by norm_num)
    (by norm_num) (by norm_num) (by norm_num) (by decide) (by decide)
    (by simp) (fun b hb => by rw [List.eq_of_mem_replicate hb]; omega)
  have hv0 : f64ToRat 0 = 0 := by norm_num [f64ToRat]
  have hv2 : f64ToRat f64two = 2 := by rw [f64two]; norm_num [f64ToRat]
  have hvm2 : f64ToRat f64negtwo = -2 := by rw [f64negtwo]; norm_num [f64ToRat]
  have hv100 : f64ToRat f64hundred = 100 := by rw [f64hundred]; norm_num [f64ToRat]
  rw [show c2input = mkWkb1 false f64two f64negtwo 0 f64hundred 0 0 0 10 5 4 0
      (List.replicate 50 0) from rfl, h]
  simp only [Option.map_some', Option.some.injEq]
  rw [hv0, hv2, hvm2, hv100]
  norm_num [box2dMk, min_def, max_def, box2d.mk.injEq]

/-- Claim C4: in the 3-band path, the nodata bytes of the second and third
bands never influence the decode: changing them yields the identical
result (same raster bytes, same cursor), and a raster is still produced —
the mismatch with the remembered first-band value is at most a
diagnostic. -/
theorem C4_nodata_mismatch_nonfatal (e : Bool) (sx sy ox oy kx ky srid w h : ℕ)
    (t0 n0 : ℕ) (p0 : List ℕ) (t1 n1 n1' : ℕ) (p1 : List ℕ) (t2 n2 n2' : ℕ) (p2 : List ℕ)
    (hsx : sx < 2 ^ 64) (hsy : sy < 2 ^ 64)
    (hox : ox < 2 ^ 64) (hoy : oy < 2 ^ 64) (hkx : kx < 2 ^ 64) (hky : ky < 2 ^ 64)
    (hsrid : srid < 2 ^ 32) (hw : w < 2 ^ 16) (hh : h < 2 ^ 16)
    (hkxz : kx % 2 ^ 63 = 0) (hkyz : ky % 2 ^ 63 = 0)
    (ht0 : t0 < 256) (ht1 : t1 < 256) (ht2 : t2 < 256)
    (hoff0 : ¬ BANDTYPE_IS_OFFDB t0)
    (hpix0 : ¬ (BANDTYPE_PIXTYPE t0 > 4 ∨ BANDTYPE_PIXTYPE t0 < 3))
    (hoff1 : ¬ BANDTYPE_IS_OFFDB t1)
    (hpix1 : ¬ (BANDTYPE_PIXTYPE t1 > 4 ∨ BANDTYPE_PIXTYPE t1 < 3))
    (hoff2 : ¬ BANDTYPE_IS_OFFDB t2)
    (hpix2 : ¬ (BANDTYPE_PIXTYPE t2 > 4 ∨ BANDTYPE_PIXTYPE t2 < 3))
    (hlen0 : p0.length = w * h) (hlen1 : p1.length = w * h) (hlen2 : p2.length = w * h)
    (hby0 : ∀ b ∈ p0, b < 256) (hby1 : ∀ b ∈ p1, b < 256) (hby2 : ∀ b ∈ p2, b < 256) :
    get_raster (memOf (mkWkb3 e sx sy ox oy kx ky srid w h t0 n0 p0 t1 n1 p1 t2 n2 p2)) =
      get_raster (memOf (mkWkb3 e sx sy ox oy kx ky srid w h t0 n0 p0 t1 n1' p1 t2 n2' p2)) ∧
    (get_raster (memOf (mkWkb3 e sx sy ox oy kx ky srid w h t0 n0 p0 t1 n1 p1 t2 n2 p2))).1 ≠
      none := by
  constructor
  · rw [get_raster_mkWkb3 e sx sy ox oy kx ky srid w h t0 n0 p0 t1 n1 p1 t2 n2 p2
        hsx hsy hox hoy hkx hky hsrid hw hh hkxz hkyz ht0 ht1 ht2
        hoff0 hpix0 hoff1 hpix1 hoff2 hpix2 hlen0 hlen1 hlen2 hby0 hby1 hby2,
      get_raster_mkWkb3 e sx sy ox oy kx ky srid w h t0 n0 p0 t1 n1' p1 t2 n2' p2
        hsx hsy hox hoy hkx hky hsrid hw hh hkxz hkyz ht0 ht1 ht2
        hoff0 hpix0 hoff1 hpix1 hoff2 hpix2 hlen0 hlen1 hlen2 hby0 hby1 hby2]
  · rw [get_raster_mkWkb3 e sx sy ox oy kx ky srid w h t0 n0 p0 t1 n1 p1 t2 n2 p2
        hsx hsy hox hoy hkx hky hsrid hw hh hkxz hkyz ht0 ht1 ht2
        hoff0 hpix0 hoff1 hpix1 hoff2 hpix2 hlen0 hlen1 hlen2 hby0 hby1 hby2]
    simp

theorem C4_witness :
    get_raster (memOf (mkWkb3 false 0 0 0 0 0 0 0 1 1 4 0 [1] 4 5 [2] 4 0 [3])) =
      get_raster (memOf (mkWkb3 false 0 0 0 0 0 0 0 1 1 4 0 [1] 4 9 [2] 4 7 [3])) ∧
    (get_raster (memOf (mkWkb3 false 0 0 0 0 0 0 0 1 1 4 0 [1] 4 5 [2] 4 0 [3]))).1 ≠ none := by
  have h := C4_nodata_mismatch_nonfatal false 0 0 0 0 0 0 0 1 1 4 0 [1] 4 5 9 [2] 4 0 7 [3]
    (by norm_num) (by norm_num) (by norm_num) (by norm_num) (by norm_num) (by norm_num)
    (by norm_num) (by norm_num) (by norm_num) (by norm_num) (by norm_num)
    (by norm_num) (by norm_num) (by norm_num)
    (by decide) (by decide) (by decide) (by decide) (by decide) (by decide)
    (by decide) (by decide) (by decide)
    (by decide) (by decide) (by decide)
  exact h

/-- Claim C5: any valid 1-band input with a supported pixel type and no
off-database flag decodes to a raster whose channels 0, 1 and 2 at pixel
(row, col) all equal the payload byte for that pixel in row-major order,
with alpha left at its initialized value 255; in particular the spec §8
scenario decodes to pixels (10,10,10,255) and (20,20,20,255). -/
theorem C5_grayscale_pixels (e : Bool) (sx sy ox oy kx ky srid w h tag nodata : ℕ)
    (payload : List ℕ) (hsx : sx < 2 ^ 64) (hsy : sy < 2 ^ 64)
    (hox : ox < 2 ^ 64) (hoy : oy < 2 ^ 64) (hkx : kx < 2 ^ 64) (hky : ky < 2 ^ 64)
    (hsrid : srid < 2 ^ 32) (hw : w < 2 ^ 16) (hh : h < 2 ^ 16)
    (hkxz : kx % 2 ^ 63 = 0) (hkyz : ky % 2 ^ 63 = 0) (htag : tag < 256)
    (hoff : ¬ BANDTYPE_IS_OFFDB tag)
    (hpix : ¬ (BANDTYPE_PIXTYPE tag > 4 ∨ BANDTYPE_PIXTYPE tag < 3))
    (hlen : payload.length = w * h) (hbytes : ∀ b ∈ payload, b < 256) :
    (∃ r : raster,
      (get_raster (memOf (mkWkb1 e sx sy ox oy kx ky srid w h tag nodata payload))).1 =
        some r ∧
      (∀ row col ch, row < h → col < w → ch < 3 →
        r.data.getD (row * w * 4 + col * 4 + ch) 0 = payload.getD (row * w + col) 0) ∧
      (∀ row col, row < h → col < w →
        r.data.getD (row * w * 4 + col * 4 + 3) 0 = 255)) ∧
    (get_raster (memOf scenario8)).1.map raster.data =
      some [10, 10, 10, 255, 20, 20, 20, 255] := by
  constructor
  · refine ⟨⟨box2dMk (f64ToRat ox) (f64ToRat oy)
        (f64ToRat ox + (w : ℚ) * f64ToRat sx) (f64ToRat oy + (h : ℚ) * f64ToRat sy),
      w, h, grayImg payload w h, true⟩, ?_, ?_, ?_⟩
    · rw [get_raster_mkWkb1 e sx sy ox oy kx ky srid w h tag nodata payload
        hsx hsy hox hoy hkx hky hsrid hw hh hkxz hkyz htag hoff hpix hlen hbytes]
    · intro row col ch hrow hcol hch
      show (grayImg payload w h).getD (row * w * 4 + col * 4 + ch) 0 =
        payload.getD (row * w + col) 0
      rw [grayImg_getD payload w h row col ch hrow hcol (by omega), if_neg (by omega)]
    · intro row col hrow hcol
      show (grayImg payload w h).getD (row * w * 4 + col * 4 + 3) 0 = 255
      rw [grayImg_getD payload w h row col 3 hrow hcol (by omega), if_pos rfl]
  · decide

theorem C5_witness :
    ((4 : ℕ) < 256 ∧ ¬ BANDTYPE_IS_OFFDB 4 ∧ ([10, 20] : List ℕ).length = 2 * 1) ∧
    (∃ r : raster,
      (get_raster (memOf (mkWkb1 false f64one f64one 0 0 0 0 0 2 1 4 0 [10, 20]))).1 =
        some r ∧
      (∀ row col ch, row < 1 → col < 2 → ch < 3 →
        r.data.getD (row * 2 * 4 + col * 4 + ch) 0 = ([10, 20] : List ℕ).getD (row * 2 + col) 0) ∧
      (∀ row col, row < 1 → col < 2 →
        r.data.getD (row * 2 * 4 + col * 4 + 3) 0 = 255)) :=
  ⟨⟨by decide, by decide, by decide⟩,
   (C5_grayscale_pixels false f64one f64one 0 0 0 0 0 2 1 4 0 [10, 20]
     (by norm_num [f64one]) (by norm_num [f64one]) (by norm_num) (by norm_num)
     (by norm_num) (by norm_num) (by norm_num) (by norm_num) (by norm_num)
     (by norm_num) (by norm_num) (by norm_num) (by decide) (by decide)
     (by decide) (by decide)).1⟩

/-- Claim C6: a valid 3-band input with all bands supported decodes so that
channel c of pixel (row, col) equals band c's payload byte for that pixel
(bands laid out sequentially, each fully consumed: the final cursor is
67 + 3·width·height), alpha is never written (stays 255), and the result is
identical under the little- and big-endian serializations of the same
field values. -/
theorem C6_rgb_pixels (e : Bool) (sx sy ox oy kx ky srid w h : ℕ)
    (t0 n0 : ℕ) (p0 : List ℕ) (t1 n1 : ℕ) (p1 : List ℕ) (t2 n2 : ℕ) (p2 : List ℕ)
    (hsx : sx < 2 ^ 64) (hsy : sy < 2 ^ 64)
    (hox : ox < 2 ^ 64) (hoy : oy < 2 ^ 64) (hkx : kx < 2 ^ 64) (hky : ky < 2 ^ 64)
    (hsrid : srid < 2 ^ 32) (hw : w < 2 ^ 16) (hh : h < 2 ^ 16)
    (hkxz : kx % 2 ^ 63 = 0) (hkyz : ky % 2 ^ 63 = 0)
    (ht0 : t0 < 256) (ht1 : t1 < 256) (ht2 : t2 < 256)
    (hoff0 : ¬ BANDTYPE_IS_OFFDB t0)
    (hpix0 : ¬ (BANDTYPE_PIXTYPE t0 > 4 ∨ BANDTYPE_PIXTYPE t0 < 3))
    (hoff1 : ¬ BANDTYPE_IS_OFFDB t1)
    (hpix1 : ¬ (BANDTYPE_PIXTYPE t1 > 4 ∨ BANDTYPE_PIXTYPE t1 < 3))
    (hoff2 : ¬ BANDTYPE_IS_OFFDB t2)
    (hpix2 : ¬ (BANDTYPE_PIXTYPE t2 > 4 ∨ BANDTYPE_PIXTYPE t2 < 3))
    (hlen0 : p0.length = w * h) (hlen1 : p1.length = w * h) (hlen2 : p2.length = w * h)
    (hby0 : ∀ b ∈ p0, b < 256) (hby1 : ∀ b ∈ p1, b < 256) (hby2 : ∀ b ∈ p2, b < 256) :
    (∃ r : raster,
      (get_raster (memOf (mkWkb3 e sx sy ox oy kx ky srid w h t0 n0 p0 t1 n1 p1 t2 n2 p2))).1 =
        some r ∧
      (∀ row col ch, row < h → col < w → ch < 3 →
        r.data.getD (row * w * 4 + col * 4 + ch) 0 =
          (if ch = 0 then p0 else if ch = 1 then p1 else p2).getD (row * w + col) 0) ∧
      (∀ row col, row < h → col < w →
        r.data.getD (row * w * 4 + col * 4 + 3) 0 = 255)) ∧
    (get_raster (memOf (mkWkb3 e sx sy ox oy kx ky srid w h t0 n0 p0 t1 n1 p1 t2 n2 p2))).2 =
      67 + 3 * (w * h) ∧
    get_raster (memOf (mkWkb3 true sx sy ox oy kx ky srid w h t0 n0 p0 t1 n1 p1 t2 n2 p2)) =
      get_raster (memOf (mkWkb3 false sx sy ox oy kx ky srid w h t0 n0 p0 t1 n1 p1 t2 n2 p2)) := by
  refine ⟨⟨⟨box2dMk (f64ToRat ox) (f64ToRat oy)
      (f64ToRat ox + (w : ℚ) * f64ToRat sx) (f64ToRat oy + (h : ℚ) * f64ToRat sy),
    w, h, rgbImg p0 p1 p2 w h, true⟩, ?_, ?_, ?_⟩, ?_, ?_⟩
  · rw [get_raster_mkWkb3 e sx sy ox oy kx ky srid w h t0 n0 p0 t1 n1 p1 t2 n2 p2
      hsx hsy hox hoy hkx hky hsrid hw hh hkxz hkyz ht0 ht1 ht2
      hoff0 hpix0 hoff1 hpix1 hoff2 hpix2 hlen0 hlen1 hlen2 hby0 hby1 hby2]
  · intro row col ch hrow hcol hch
    show (rgbImg p0 p1 p2 w h).getD (row * w * 4 + col * 4 + ch) 0 =
      (if ch = 0 then p0 else if ch = 1 then p1 else p2).getD (row * w + col) 0
    rw [rgbImg_getD p0 p1 p2 w h row col ch hrow hcol (by omega)]
    rcases (by omega : ch = 0 ∨ ch = 1 ∨ ch = 2) with hc | hc | hc <;> simp [hc]
  · intro row col hrow hcol
    show (rgbImg p0 p1 p2 w h).getD (row * w * 4 + col * 4 + 3) 0 = 255
    rw [rgbImg_getD p0 p1 p2 w h row col 3 hrow hcol (by omega)]
    rw [if_neg (by omega), if_neg (by omega), if_neg (by omega)]
  · rw [get_raster_mkWkb3 e sx sy ox oy kx ky srid w h t0 n0 p0 t1 n1 p1 t2 n2 p2
      hsx hsy hox hoy hkx hky hsrid hw hh hkxz hkyz ht0 ht1 ht2
      hoff0 hpix0 hoff1 hpix1 hoff2 hpix2 hlen0 hlen1 hlen2 hby0 hby1 hby2]
  · rw [get_raster_mkWkb3 true sx sy ox oy kx ky srid w h t0 n0 p0 t1 n1 p1 t2 n2 p2
      hsx hsy hox hoy hkx hky hsrid hw hh hkxz hkyz ht0 ht1 ht2
      hoff0 hpix0 hoff1 hpix1 hoff2 hpix2 hlen0 hlen1 hlen2 hby0 hby1 hby2,
      get_raster_mkWkb3 false sx sy ox oy kx ky srid w h t0 n0 p0 t1 n1 p1 t2 n2 p2
      hsx hsy hox hoy hkx hky hsrid hw hh hkxz hkyz ht0 ht1 ht2
      hoff0 hpix0 hoff1 hpix1 hoff2 hpix2 hlen0 hlen1 hlen2 hby0 hby1 hby2]

theorem C6_witness :
    (¬ BANDTYPE_IS_OFFDB 4 ∧ ([1] : List ℕ).length = 1 * 1) ∧
    (∃ r : raster,
      (get_raster (memOf (mkWkb3 false 0 0 0 0 0 0 0 1 1 4 0 [1] 4 0 [2] 4 0 [3]))).1 =
        some r ∧
      (∀ row col ch, row < 1 → col < 1 → ch < 3 →
        r.data.getD (row * 1 * 4 + col * 4 + ch) 0 =
          (if ch = 0 then ([1] : List ℕ) else if ch = 1 then [2] else [3]).getD
            (row * 1 + col) 0) ∧
      (∀ row col, row < 1 → col < 1 →
        r.data.getD (row * 1 * 4 + col * 4 + 3) 0 = 255)) :=
  ⟨⟨by decide, by decide⟩,
   (C6_rgb_pixels false 0 0 0 0 0 0 0 1 1 4 0 [1] 4 0 [2] 4 0 [3]
     (by norm_num) (by norm_num) (by norm_num) (by norm_num) (by norm_num) (by norm_num)
     (by norm_num) (by norm_num) (by norm_num) (by norm_num) (by norm_num)
     (by norm_num) (by norm_num) (by norm_num)
     (by decide) (by decide) (by decide) (by decide) (by decide) (by decide)
     (by decide) (by decide) (by decide)
     (by decide) (by decide) (by decide)).1⟩

theorem offdb_congr (t t' : ℕ) (h : t / 128 = t' / 128) :
    BANDTYPE_IS_OFFDB t = BANDTYPE_IS_OFFDB t' := by
  simp only [BANDTYPE_IS_OFFDB]
  rw [decide_eq_decide]
  omega

/-- Claim C9 counterexample: band 0 of `c9inputA`/`c9inputB` is
off-database, so the decoder leaves the stream misaligned and consumes band
1's tag byte as a pixel value; the two inputs differ only in band 1's
pixel-type code (3 versus 4), yet they decode to different rasters. -/
theorem C9_counterexample :
    (get_raster (memOf c9inputA)).1.map raster.data = some [255, 3, 7, 255] ∧
    (get_raster (memOf c9inputB)).1.map raster.data = some [255, 4, 7, 255] ∧
    ¬ ((get_raster (memOf c9inputA)).1.map raster.data =
       (get_raster (memOf c9inputB)).1.map raster.data) := by
  decide

/-- Claim C9 (amended): pixel-type codes 3 (8-bit signed) and 4 (8-bit
unsigned) are accepted interchangeably and payload bytes are written raw:
replacing every supported band's pixel-type code by 4 leaves the decode
unchanged, both for 1-band inputs and for 3-band inputs in which no band
is skipped (a skipped band desynchronizes the stream, as the
counterexample shows). -/
theorem C9_amended_code3_code4_equal (e : Bool) (sx sy ox oy kx ky srid w h : ℕ)
    (tag nodata : ℕ) (payload : List ℕ)
    (t0 n0 : ℕ) (p0 : List ℕ) (t1 n1 : ℕ) (p1 : List ℕ) (t2 n2 : ℕ) (p2 : List ℕ)
    (hsx : sx < 2 ^ 64) (hsy : sy < 2 ^ 64)
    (hox : ox < 2 ^ 64) (hoy : oy < 2 ^ 64) (hkx : kx < 2 ^ 64) (hky : ky < 2 ^ 64)
    (hsrid : srid < 2 ^ 32) (hw : w < 2 ^ 16) (hh : h < 2 ^ 16)
    (hkxz : kx % 2 ^ 63 = 0) (hkyz : ky % 2 ^ 63 = 0)
    (htag : tag < 256) (hoff : ¬ BANDTYPE_IS_OFFDB tag)
    (hpix : ¬ (BANDTYPE_PIXTYPE tag > 4 ∨ BANDTYPE_PIXTYPE tag < 3))
    (hlen : payload.length = w * h) (hbytes : ∀ b ∈ payload, b < 256)
    (ht0 : t0 < 256) (ht1 : t1 < 256) (ht2 : t2 < 256)
    (hoff0 : ¬ BANDTYPE_IS_OFFDB t0)
    (hpix0 : ¬ (BANDTYPE_PIXTYPE t0 > 4 ∨ BANDTYPE_PIXTYPE t0 < 3))
    (hoff1 : ¬ BANDTYPE_IS_OFFDB t1)
    (hpix1 : ¬ (BANDTYPE_PIXTYPE t1 > 4 ∨ BANDTYPE_PIXTYPE t1 < 3))
    (hoff2 : ¬ BANDTYPE_IS_OFFDB t2)
    (hpix2 : ¬ (BANDTYPE_PIXTYPE t2 > 4 ∨ BANDTYPE_PIXTYPE t2 < 3))
    (hlen0 : p0.length = w * h) (hlen1 : p1.length = w * h) (hlen2 : p2.length = w * h)
    (hby0 : ∀ b ∈ p0, b < 256) (hby1 : ∀ b ∈ p1, b < 256) (hby2 : ∀ b ∈ p2, b < 256) :
    get_raster (memOf (mkWkb1 e sx sy ox oy kx ky srid w h tag nodata payload)) =
      get_raster (memOf (mkWkb1 e sx sy ox oy kx ky srid w h (tag / 16 * 16 + 4)
        nodata payload)) ∧
    get_raster (memOf (mkWkb3 e sx sy ox oy kx ky srid w h t0 n0 p0 t1 n1 p1 t2 n2 p2)) =
      get_raster (memOf (mkWkb3 e sx sy ox oy kx ky srid w h (t0 / 16 * 16 + 4) n0 p0
        (t1 / 16 * 16 + 4) n1 p1 (t2 / 16 * 16 + 4) n2 p2)) := by
  have hcanon : ∀ t : ℕ, t < 256 → ¬ BANDTYPE_IS_OFFDB t →
      (t / 16 * 16 + 4 < 256 ∧ ¬ BANDTYPE_IS_OFFDB (t / 16 * 16 + 4) ∧
       ¬ (BANDTYPE_PIXTYPE (t / 16 * 16 + 4) > 4 ∨ BANDTYPE_PIXTYPE (t / 16 * 16 + 4) < 3)) := by
    intro t ht htoff
    refine ⟨by omega, ?_, ?_⟩
    · rw [offdb_congr (t / 16 * 16 + 4) t (by omega)]
      exact htoff
    · simp only [BANDTYPE_PIXTYPE]
      omega
  obtain ⟨hc1, hc2, hc3⟩ := hcanon tag htag hoff
  obtain ⟨hd0a, hd0b, hd0c⟩ := hcanon t0 ht0 hoff0
  obtain ⟨hd1a, hd1b, hd1c⟩ := hcanon t1 ht1 hoff1
  obtain ⟨hd2a, hd2b, hd2c⟩ := hcanon t2 ht2 hoff2
  constructor
  · rw [get_raster_mkWkb1 e sx sy ox oy kx ky srid w h tag nodata payload
      hsx hsy hox hoy hkx hky hsrid hw hh hkxz hkyz htag hoff hpix hlen hbytes,
      get_raster_mkWkb1 e sx sy ox oy kx ky srid w h (tag / 16 * 16 + 4) nodata payload
      hsx hsy hox hoy hkx hky hsrid hw hh hkxz hkyz hc1 hc2 hc3 hlen hbytes]
  · rw [get_raster_mkWkb3 e sx sy ox oy kx ky srid w h t0 n0 p0 t1 n1 p1 t2 n2 p2
      hsx hsy hox hoy hkx hky hsrid hw hh hkxz hkyz ht0 ht1 ht2
      hoff0 hpix0 hoff1 hpix1 hoff2 hpix2 hlen0 hlen1 hlen2 hby0 hby1 hby2,
      get_raster_mkWkb3 e sx sy ox oy kx ky srid w h (t0 / 16 * 16 + 4) n0 p0
      (t1 / 16 * 16 + 4) n1 p1 (t2 / 16 * 16 + 4) n2 p2
      hsx hsy hox hoy hkx hky hsrid hw hh hkxz hkyz hd0a hd1a hd2a
      hd0b hd0c hd1b hd1c hd2b hd2c hlen0 hlen1 hlen2 hby0 hby1 hby2]

theorem C9_witness :
    ((3 : ℕ) < 256 ∧ ¬ BANDTYPE_IS_OFFDB 3) ∧
    get_raster (memOf (mkWkb1 false 0 0 0 0 0 0 0 1 1 3 0 [5])) =
      get_raster (memOf (mkWkb1 false 0 0 0 0 0 0 0 1 1 (3 / 16 * 16 + 4) 0 [5])) :=
  ⟨⟨by decide, by decide⟩,
   (C9_amended_code3_code4_equal false 0 0 0 0 0 0 0 1 1 3 0 [5] 4 0 [1] 4 0 [2] 4 0 [3]
     (by norm_num) (by norm_num) (by norm_num) (by norm_num) (by norm_num) (by norm_num)
     (by norm_num) (by norm_num) (by norm_num) (by norm_num) (by norm_num)
     (by decide) (by decide) (by decide) (by decide) (by decide)
     (by decide) (by decide) (by decide)
     (by decide) (by decide) (by decide) (by decide) (by decide) (by decide)
     (by decide) (by decide) (by decide)
     (by decide) (by decide) (by decide)).1⟩

/-- Claim C10 counterexample: band 0 of `c10inputA`/`c10inputB` is
off-database, so band 1's tag byte is consumed as a pixel value; the two
inputs differ only in bit 6 (has-nodata) of band 1's tag byte (0x04 versus
0x44), yet they decode to different rasters. -/
theorem C10_counterexample :
    (get_raster (memOf c10inputA)).1.map raster.data = some [255, 4, 7, 255] ∧
    (get_raster (memOf c10inputB)).1.map raster.data = some [255, 68, 7, 255] ∧
    ¬ ((get_raster (memOf c10inputA)).1.map raster.data =
       (get_raster (memOf c10inputB)).1.map raster.data) := by
  decide

/-- Claim C10 (amended): the 4-byte spatial reference id field never
influences the decode — any two memories agreeing everywhere outside bytes
53..56 decode identically — and band-tag bits 6 (has-nodata), 5 (is-nodata)
and 4 (reserved) never influence the decode provided no band is skipped:
for serialized 1-band inputs regardless of whether the band is processed,
and for serialized 3-band inputs in which all three bands are in-database
with supported pixel types.  (When a 3-band input has a skipped band the
stream desynchronizes and a later tag byte is consumed as a pixel value, as
the counterexample shows.) -/
theorem C10_amended_srid_and_flag_bits :
    (∀ mem mem' : ℕ → ℕ,
      (∀ i, i < 53 ∨ 57 ≤ i → mem i = mem' i) →
      get_raster mem = get_raster mem') ∧
    (∀ (e : Bool) (sx sy ox oy kx ky srid srid' w h tag tag' nodata : ℕ)
        (payload : List ℕ),
      sx < 2 ^ 64 → sy < 2 ^ 64 → ox < 2 ^ 64 → oy < 2 ^ 64 → kx < 2 ^ 64 → ky < 2 ^ 64 →
      srid < 2 ^ 32 → srid' < 2 ^ 32 → w < 2 ^ 16 → h < 2 ^ 16 →
      kx % 2 ^ 63 = 0 → ky % 2 ^ 63 = 0 → tag < 256 → tag' < 256 →
      BANDTYPE_PIXTYPE tag = BANDTYPE_PIXTYPE tag' → tag / 128 = tag' / 128 →
      payload.length = w * h → (∀ b ∈ payload, b < 256) →
      get_raster (memOf (mkWkb1 e sx sy ox oy kx ky srid w h tag nodata payload)) =
        get_raster (memOf (mkWkb1 e sx sy ox oy kx ky srid' w h tag' nodata payload))) ∧
    (∀ (e : Bool) (sx sy ox oy kx ky srid srid' w h : ℕ)
        (t0 t0' n0 : ℕ) (p0 : List ℕ) (t1 t1' n1 : ℕ) (p1 : List ℕ)
        (t2 t2' n2 : ℕ) (p2 : List ℕ),
      sx < 2 ^ 64 → sy < 2 ^ 64 → ox < 2 ^ 64 → oy < 2 ^ 64 → kx < 2 ^ 64 → ky < 2 ^ 64 →
      srid < 2 ^ 32 → srid' < 2 ^ 32 → w < 2 ^ 16 → h < 2 ^ 16 →
      kx % 2 ^ 63 = 0 → ky % 2 ^ 63 = 0 →
      t0 < 256 → t0' < 256 → t1 < 256 → t1' < 256 → t2 < 256 → t2' < 256 →
      ¬ BANDTYPE_IS_OFFDB t0 → ¬ (BANDTYPE_PIXTYPE t0 > 4 ∨ BANDTYPE_PIXTYPE t0 < 3) →
      ¬ BANDTYPE_IS_OFFDB t1 → ¬ (BANDTYPE_PIXTYPE t1 > 4 ∨ BANDTYPE_PIXTYPE t1 < 3) →
      ¬ BANDTYPE_IS_OFFDB t2 → ¬ (BANDTYPE_PIXTYPE t2 > 4 ∨ BANDTYPE_PIXTYPE t2 < 3) →
      BANDTYPE_PIXTYPE t0 = BANDTYPE_PIXTYPE t0' → t0 / 128 = t0' / 128 →
      BANDTYPE_PIXTYPE t1 = BANDTYPE_PIXTYPE t1' → t1 / 128 = t1' / 128 →
      BANDTYPE_PIXTYPE t2 = BANDTYPE_PIXTYPE t2' → t2 / 128 = t2' / 128 →
      p0.length = w * h → p1.length = w * h → p2.length = w * h →
      (∀ b ∈ p0, b < 256) → (∀ b ∈ p1, b < 256) → (∀ b ∈ p2, b < 256) →
      get_raster (memOf (mkWkb3 e sx sy ox oy kx ky srid w h t0 n0 p0 t1 n1 p1 t2 n2 p2)) =
        get_raster (memOf (mkWkb3 e sx sy ox oy kx ky srid' w h t0' n0 p0
          t1' n1 p1 t2' n2 p2))) := by
  refine ⟨?_, ?_, ?_⟩
  · intro mem mem' hag
    have h0 : mem 0 = mem' 0 := hag 0 (by omega)
    simp only [get_raster, read_uint16_snd, read_float64_snd, read_int32_snd, Nat.reduceAdd]
    rw [h0,
      read_uint16_congr mem mem' ((mem' 0 % 256) != 0) 1 (hag 1 (by omega)) (hag 2 (by omega)),
      read_uint16_congr mem mem' ((mem' 0 % 256) != 0) 3 (hag 3 (by omega)) (hag 4 (by omega)),
      read_float64_congr mem mem' ((mem' 0 % 256) != 0) 5 (hag 5 (by omega)) (hag 6 (by omega))
        (hag 7 (by omega)) (hag 8 (by omega)) (hag 9 (by omega)) (hag 10 (by omega))
        (hag 11 (by omega)) (hag 12 (by omega)),
      read_float64_congr mem mem' ((mem' 0 % 256) != 0) 13 (hag 13 (by omega)) (hag 14 (by omega))
        (hag 15 (by omega)) (hag 16 (by omega)) (hag 17 (by omega)) (hag 18 (by omega))
        (hag 19 (by omega)) (hag 20 (by omega)),
      read_float64_congr mem mem' ((mem' 0 % 256) != 0) 21 (hag 21 (by omega)) (hag 22 (by omega))
        (hag 23 (by omega)) (hag 24 (by omega)) (hag 25 (by omega)) (hag 26 (by omega))
        (hag 27 (by omega)) (hag 28 (by omega)),
      read_float64_congr mem mem' ((mem' 0 % 256) != 0) 29 (hag 29 (by omega)) (hag 30 (by omega))
        (hag 31 (by omega)) (hag 32 (by omega)) (hag 33 (by omega)) (hag 34 (by omega))
        (hag 35 (by omega)) (hag 36 (by omega)),
      read_float64_congr mem mem' ((mem' 0 % 256) != 0) 37 (hag 37 (by omega)) (hag 38 (by omega))
        (hag 39 (by omega)) (hag 40 (by omega)) (hag 41 (by omega)) (hag 42 (by omega))
        (hag 43 (by omega)) (hag 44 (by omega)),
      read_float64_congr mem mem' ((mem' 0 % 256) != 0) 45 (hag 45 (by omega)) (hag 46 (by omega))
        (hag 47 (by omega)) (hag 48 (by omega)) (hag 49 (by omega)) (hag 50 (by omega))
        (hag 51 (by omega)) (hag 52 (by omega)),
      read_uint16_congr mem mem' ((mem' 0 % 256) != 0) 57 (hag 57 (by omega)) (hag 58 (by omega)),
      read_uint16_congr mem mem' ((mem' 0 % 256) != 0) 59 (hag 59 (by omega)) (hag 60 (by omega)),
      read_grayscale_congr mem mem' _ _ 61 (fun q hq => hag q (by omega)),
      read_rgb_congr mem mem' _ _ _ 61 (fun q hq => hag q (by omega))]
  · intro e sx sy ox oy kx ky srid srid' w h tag tag' nodata payload
      hsx hsy hox hoy hkx hky hsrid hsrid' hw hh hkxz hkyz htag htag' hpixeq hdiveq hlen hbytes
    by_cases hoffc : BANDTYPE_IS_OFFDB tag
    · rw [get_raster_mkWkb1_skipped e sx sy ox oy kx ky srid w h tag nodata payload
          hsx hsy hox hoy hkx hky hsrid hw hh hkxz hkyz htag (Or.inl hoffc),
        get_raster_mkWkb1_skipped e sx sy ox oy kx ky srid' w h tag' nodata payload
          hsx hsy hox hoy hkx hky hsrid' hw hh hkxz hkyz htag'
          (Or.inl (by rw [offdb_congr tag' tag hdiveq.symm]; exact hoffc))]
    · by_cases hpixc : BANDTYPE_PIXTYPE tag > 4 ∨ BANDTYPE_PIXTYPE tag < 3
      · rw [get_raster_mkWkb1_skipped e sx sy ox oy kx ky srid w h tag nodata payload
            hsx hsy hox hoy hkx hky hsrid hw hh hkxz hkyz htag (Or.inr hpixc),
          get_raster_mkWkb1_skipped e sx sy ox oy kx ky srid' w h tag' nodata payload
            hsx hsy hox hoy hkx hky hsrid' hw hh hkxz hkyz htag'
            (Or.inr (by rw [← hpixeq]; exact hpixc))]
      · rw [get_raster_mkWkb1 e sx sy ox oy kx ky srid w h tag nodata payload
            hsx hsy hox hoy hkx hky hsrid hw hh hkxz hkyz htag hoffc hpixc hlen hbytes,
          get_raster_mkWkb1 e sx sy ox oy kx ky srid' w h tag' nodata payload
            hsx hsy hox hoy hkx hky hsrid' hw hh hkxz hkyz htag'
            (by rw [offdb_congr tag' tag hdiveq.symm]; exact hoffc)
            (by rw [← hpixeq]; exact hpixc) hlen hbytes]
  · intro e sx sy ox oy kx ky srid srid' w h t0 t0' n0 p0 t1 t1' n1 p1 t2 t2' n2 p2
      hsx hsy hox hoy hkx hky hsrid hsrid' hw hh hkxz hkyz
      ht0 ht0' ht1 ht1' ht2 ht2' hoff0 hpix0 hoff1 hpix1 hoff2 hpix2
      hp0 hd0 hp1 hd1 hp2 hd2 hlen0 hlen1 hlen2 hby0 hby1 hby2
    rw [get_raster_mkWkb3 e sx sy ox oy kx ky srid w h t0 n0 p0 t1 n1 p1 t2 n2 p2
        hsx hsy hox hoy hkx hky hsrid hw hh hkxz hkyz ht0 ht1 ht2
        hoff0 hpix0 hoff1 hpix1 hoff2 hpix2 hlen0 hlen1 hlen2 hby0 hby1 hby2,
      get_raster_mkWkb3 e sx sy ox oy kx ky srid' w h t0' n0 p0 t1' n1 p1 t2' n2 p2
        hsx hsy hox hoy hkx hky hsrid' hw hh hkxz hkyz ht0' ht1' ht2'
        (by rw [offdb_congr t0' t0 hd0.symm]; exact hoff0)
        (by rw [← hp0]; exact hpix0)
        (by rw [offdb_congr t1' t1 hd1.symm]; exact hoff1)
        (by rw [← hp1]; exact hpix1)
        (by rw [offdb_congr t2' t2 hd2.symm]; exact hoff2)
        (by rw [← hp2]; exact hpix2)
        hlen0 hlen1 hlen2 hby0 hby1 hby2]

theorem C10_witness :
    ((4 : ℕ) / 128 = (68 : ℕ) / 128 ∧ BANDTYPE_PIXTYPE 4 = BANDTYPE_PIXTYPE 68) ∧
    get_raster (memOf (mkWkb1 false 0 0 0 0 0 0 5 1 1 4 0 [8])) =
      get_raster (memOf (mkWkb1 false 0 0 0 0 0 0 9 1 1 68 0 [8])) :=
  ⟨⟨by decide, by decide⟩,
   C10_amended_srid_and_flag_bits.2.1 false 0 0 0 0 0 0 5 9 1 1 4 68 0 [8]
     (by norm_num) (by norm_num) (by norm_num) (by norm_num) (by norm_num) (by norm_num)
     (by norm_num) (by norm_num) (by norm_num) (by norm_num) (by norm_num) (by norm_num)
     (by decide) (by decide) (by decide) (by decide) (by decide) (by decide)⟩
